import Mathlib

/-!
# deepstream-custom-app: annotation probe, bus handler and pipeline assembly

A shallow embedding of `deepstream_custom_app.c`.

* The metadata records of the media library (`NvDsBatchMeta`, `NvDsFrameMeta`,
  `NvDsObjectMeta`, `NvDsDisplayMeta`) are plain structures; the linked lists
  the C code walks are Lean lists in the same order.
* C operations whose behaviour is undefined (dereferencing a null pointer,
  indexing a table outside its bounds, a conversion specification without an
  argument, reading an uninitialised variable, writing past a buffer) end the
  run with a `Fault`.
* Colour channels are C `double`s.  The program only copies the constants
  0.0, 0.5 and 1.0 and never computes with them, so a channel is a rational.
-/

namespace DeepstreamCustomApp

/-! ## Faults -/

/-- Undefined behaviour reached by the C code. -/
inductive Fault where
  /-- `batch_meta->frame_meta_list` with `batch_meta == NULL` -/
  | null_batch_meta
  /-- `SOURCE_NAMES[source_id]` with `source_id` outside the table -/
  | source_names_out_of_bounds
  /-- a conversion specification in a format string that has no argument -/
  | missing_format_argument
  /-- `g_object_unref (mounts)` while `mounts` was never assigned -/
  | uninitialized_mounts
  /-- `g_snprintf` storing more bytes than its buffer has -/
  | buffer_overflow
  /-- `argv[i + 1]` beyond the terminating null pointer of `argv` -/
  | argv_out_of_bounds
  /-- `src_list->data` with `src_list == NULL` -/
  | null_src_list
  deriving DecidableEq, Repr

/-! ## Metadata records -/

/-- `NvOSD_ColorParams`. -/
structure NvOSD_ColorParams where
  red : Rat
  green : Rat
  blue : Rat
  alpha : Rat
  deriving DecidableEq

/-- `NvOSD_RectParams` (the fields of the bounding box). -/
structure NvOSD_RectParams where
  left : Rat
  top : Rat
  width : Rat
  height : Rat
  border_width : Nat
  border_color : NvOSD_ColorParams
  deriving DecidableEq

/-- `NvDsObjectMeta`: one detected object. `class_id` is a `gint`. -/
structure NvDsObjectMeta where
  class_id : Int
  object_id : Nat
  rect_params : NvOSD_RectParams
  deriving DecidableEq

/-- `NvOSD_FontParams`. -/
structure NvOSD_FontParams where
  font_name : String
  font_size : Nat
  font_color : NvOSD_ColorParams
  deriving DecidableEq

/-- `NvOSD_TextParams`: one overlay label. -/
structure NvOSD_TextParams where
  display_text : String
  x_offset : Nat
  y_offset : Nat
  font_params : NvOSD_FontParams
  set_bg_clr : Int
  text_bg_clr : NvOSD_ColorParams
  deriving DecidableEq

/-- `NvDsDisplayMeta`: `text_params` is the first entry of the label array,
the only one the program writes. -/
structure NvDsDisplayMeta where
  num_rects : Nat
  num_labels : Nat
  num_lines : Nat
  text_params : NvOSD_TextParams
  deriving DecidableEq

/-- `NvDsFrameMeta`: `source_id` is a `guint`. -/
structure NvDsFrameMeta where
  source_id : Nat
  frame_num : Int
  obj_meta_list : List NvDsObjectMeta
  display_meta_list : List NvDsDisplayMeta
  deriving DecidableEq

/-- `NvDsBatchMeta`. -/
structure NvDsBatchMeta where
  frame_meta_list : List NvDsFrameMeta
  deriving DecidableEq

/-- A `GstBuffer`, as far as the probe looks at it: the batch metadata
attached to it, if any. -/
structure GstBuffer where
  nvds_batch_meta : Option NvDsBatchMeta
  deriving DecidableEq

/-- `gst_buffer_get_nvds_batch_meta`: `NULL` when the buffer carries none. -/
def gst_buffer_get_nvds_batch_meta (buf : GstBuffer) : Option NvDsBatchMeta :=
  buf.nvds_batch_meta

/-- `GstPadProbeReturn`. -/
inductive GstPadProbeReturn where
  | GST_PAD_PROBE_DROP
  | GST_PAD_PROBE_OK
  | GST_PAD_PROBE_REMOVE
  | GST_PAD_PROBE_PASS
  | GST_PAD_PROBE_HANDLED
  deriving DecidableEq, Repr

/-! ## Constants and tables -/

def MAX_DISPLAY_LEN : Nat := 64

def PGIE_CLASS_ID_PERSON : Int := 0
def PGIE_CLASS_ID_BYCICLE : Int := 1
def PGIE_CLASS_ID_CAR : Int := 2
def PGIE_CLASS_ID_MOTORBIKE : Int := 3
def PGIE_CLASS_ID_BUS : Int := 5
def PGIE_CLASS_ID_TRAIN : Int := 6
def PGIE_CLASS_ID_TRUCK : Int := 7
def PGIE_CLASS_ID_TRAFFIC_LIGHT : Int := 9
def PGIE_CLASS_ID_STOP_SIGN : Int := 11

def VEHICLE_COLOR_PARAMS : NvOSD_ColorParams := { red := 0, green := 1, blue := 1, alpha := 1 }
def PERSON_COLOR_PARAMS : NvOSD_ColorParams := { red := 1, green := 1, blue := 0, alpha := 1 }
def SIGN_COLOR_PARAMS : NvOSD_ColorParams := { red := 1, green := 0, blue := 1, alpha := 1 }

/-- The camera-name table `gchar SOURCE_NAMES[4][32]`. -/
def SOURCE_NAMES : List String :=
  [ "CAM Quinta Normal - Calle #1",
    "CAM Quinta Normal - Calle #2",
    "CAM Quinta Normal - Calle #3",
    "CAM Quinta Normal - Calle #4" ]

/-! ## Formatted output -/

/-- What a `printf`-family call writes for a format string when the call
passes no variadic argument: ordinary characters are copied, `%%` writes one
percent sign, and any other conversion specification has no argument to read. -/
def format_without_arguments : List Char → Except Fault (List Char)
  | [] => .ok []
  | '%' :: '%' :: rest =>
    match format_without_arguments rest with
    | .ok out => .ok ('%' :: out)
    | .error e => .error e
  | '%' :: _ => .error .missing_format_argument
  | c :: rest =>
    match format_without_arguments rest with
    | .ok out => .ok (c :: out)
    | .error e => .error e

/-- Truncation of `snprintf` and `g_snprintf`: at most `n - 1` characters are
stored, followed by the terminating zero byte. -/
def truncate (n : Nat) (s : String) : String :=
  String.mk (s.data.take (n - 1))

/-- The call `snprintf (buf, size, format)` of the probe, which passes the
camera name as the format and nothing else. The result is the C string left
in `buf`. -/
def snprintf (size : Nat) (format : String) : Except Fault String :=
  match format_without_arguments format.data with
  | .ok out => .ok (truncate size (String.mk out))
  | .error e => .error e

/-! ## The annotation probe -/

/-- The record handed out by `nvds_acquire_display_meta_from_pool`: the pool
keeps its records cleared. -/
def nvds_acquire_display_meta_from_pool : NvDsDisplayMeta :=
  { num_rects := 0, num_labels := 0, num_lines := 0,
    text_params :=
      { display_text := "", x_offset := 0, y_offset := 0,
        font_params := { font_name := "", font_size := 0,
                         font_color := { red := 0, green := 0, blue := 0, alpha := 0 } },
        set_bg_clr := 0,
        text_bg_clr := { red := 0, green := 0, blue := 0, alpha := 0 } } }

/-- `nvds_add_display_meta_to_frame`. -/
def nvds_add_display_meta_to_frame (frame_meta : NvDsFrameMeta)
    (display_meta : NvDsDisplayMeta) : NvDsFrameMeta :=
  { frame_meta with display_meta_list := frame_meta.display_meta_list ++ [display_meta] }

/-- Assignment `obj_meta->rect_params.border_color = c`. -/
def set_border_color (obj_meta : NvDsObjectMeta) (c : NvOSD_ColorParams) : NvDsObjectMeta :=
  { obj_meta with rect_params := { obj_meta.rect_params with border_color := c } }

/-- Body of the object loop of `tiler_src_pad_buffer_probe`: three `if`
statements in sequence. The counters `vehicle_count`, `person_count` and
`num_rects` are locals that are written and never read. -/
def tiler_probe_object (obj_meta : NvDsObjectMeta) : NvDsObjectMeta :=
  let obj_meta :=
    if obj_meta.class_id = PGIE_CLASS_ID_BYCICLE ∨
       obj_meta.class_id = PGIE_CLASS_ID_CAR ∨
       obj_meta.class_id = PGIE_CLASS_ID_MOTORBIKE ∨
       obj_meta.class_id = PGIE_CLASS_ID_BUS ∨
       obj_meta.class_id = PGIE_CLASS_ID_TRAIN ∨
       obj_meta.class_id = PGIE_CLASS_ID_TRUCK then
      set_border_color obj_meta VEHICLE_COLOR_PARAMS
    else obj_meta
  let obj_meta :=
    if obj_meta.class_id = PGIE_CLASS_ID_PERSON then
      set_border_color obj_meta PERSON_COLOR_PARAMS
    else obj_meta
  let obj_meta :=
    if obj_meta.class_id = PGIE_CLASS_ID_TRAFFIC_LIGHT ∨
       obj_meta.class_id = PGIE_CLASS_ID_STOP_SIGN then
      set_border_color obj_meta SIGN_COLOR_PARAMS
    else obj_meta
  obj_meta

/-- Body of the frame loop of `tiler_src_pad_buffer_probe`: the object loop,
then the label. -/
def tiler_probe_frame (frame_meta : NvDsFrameMeta) : Except Fault NvDsFrameMeta :=
  let frame_meta :=
    { frame_meta with obj_meta_list := frame_meta.obj_meta_list.map tiler_probe_object }
  let display_meta := nvds_acquire_display_meta_from_pool
  let display_meta := { display_meta with num_labels := 1 }
  match SOURCE_NAMES[frame_meta.source_id]? with
  | none => .error .source_names_out_of_bounds
  | some name =>
    match snprintf MAX_DISPLAY_LEN name with
    | .error e => .error e
    | .ok display_text =>
      let txt_params : NvOSD_TextParams :=
        { display_text := display_text,
          x_offset := 0,
          y_offset := 0,
          font_params := { font_name := "Serif", font_size := 40,
                           font_color := { red := 1, green := 1, blue := 1, alpha := 1 } },
          set_bg_clr := 1,
          text_bg_clr := { red := 0, green := 0, blue := 0, alpha := 1 / 2 } }
      let display_meta := { display_meta with text_params := txt_params }
      .ok (nvds_add_display_meta_to_frame frame_meta display_meta)

/-- The frame loop of `tiler_src_pad_buffer_probe`, first frame first. -/
def tiler_probe_frames : List NvDsFrameMeta → Except Fault (List NvDsFrameMeta)
  | [] => .ok []
  | frame_meta :: rest =>
    match tiler_probe_frame frame_meta with
    | .error e => .error e
    | .ok frame_meta' =>
      match tiler_probe_frames rest with
      | .error e => .error e
      | .ok rest' => .ok (frame_meta' :: rest')

/-- `tiler_src_pad_buffer_probe`: the buffer after the call and the value
returned. -/
def tiler_src_pad_buffer_probe (buf : GstBuffer) :
    Except Fault (GstBuffer × GstPadProbeReturn) :=
  match gst_buffer_get_nvds_batch_meta buf with
  | none => .error .null_batch_meta
  | some batch_meta =>
    match tiler_probe_frames batch_meta.frame_meta_list with
    | .error e => .error e
    | .ok frames =>
      .ok ({ nvds_batch_meta := some { batch_meta with frame_meta_list := frames } },
           .GST_PAD_PROBE_OK)

/-! ## The bus handler -/

/-- `GstMessageType` values of the GStreamer headers that `bus_call` names. -/
def GST_MESSAGE_EOS : Nat := 1
def GST_MESSAGE_ERROR : Nat := 2
def GST_MESSAGE_WARNING : Nat := 4
def GST_MESSAGE_ELEMENT : Nat := 32768

/-- A bus message: its type and, for an element message, what
`gst_nvmessage_is_stream_eos` and `gst_nvmessage_parse_stream_eos` answer. -/
structure GstMessage where
  type : Nat
  is_stream_eos : Bool
  stream_id : Option Nat
  deriving DecidableEq

/-- `GMainLoop`: running until `g_main_loop_quit`. -/
structure GMainLoop where
  is_running : Bool
  deriving DecidableEq

/-- `g_main_loop_quit`. -/
def g_main_loop_quit (_loop : GMainLoop) : GMainLoop :=
  { is_running := false }

/-- `bus_call`: the value returned and the loop after the call. -/
def bus_call (msg : GstMessage) (loop : GMainLoop) : Bool × GMainLoop :=
  let loop :=
    if msg.type = GST_MESSAGE_EOS then
      g_main_loop_quit loop
    else if msg.type = GST_MESSAGE_WARNING then
      loop
    else if msg.type = GST_MESSAGE_ERROR then
      g_main_loop_quit loop
    else if msg.type = GST_MESSAGE_ELEMENT then
      if msg.is_stream_eos then
        match msg.stream_id with
        | some _ => loop
        | none => loop
      else
        loop
    else
      loop
  (true, loop)

/-! ## Pipeline assembly: the library interface

`main` builds the pipeline through calls into GLib, GStreamer, the RTSP
server library and the DeepStream parsers. A run of `main` is the list of
those calls, in order, together with how the run ends. What the libraries
answer is given by a `World`. Diagnostics printed with `g_print` and
`g_printerr`, the queries `cudaGetDevice` and `cudaGetDeviceProperties`, and
the release of pads, capabilities and lists inside the loops are not
recorded. -/

/-- The library objects held in the local variables of `main` and
`create_source_bin`; objects made once per source carry the loop index. -/
inductive Obj where
  | pipeline
  | streammux
  | source_bin (index : Nat)
  | uri_decode_bin (index : Nat)
  | queue
  | pgie
  | nvtracker
  | nvdslogger
  | streamdemux
  | branch_queue (i : Nat)
  | nvvidconv (i : Nat)
  | nvosd (i : Nat)
  | nvvidconv2 (i : Nat)
  | caps (i : Nat)
  | encoder (i : Nat)
  | rtppay (i : Nat)
  | sink (i : Nat)
  | server
  | factory (i : Nat)
  | mounts
  deriving DecidableEq, Repr

/-- A property value passed to `g_object_set`. -/
inductive Value where
  | int (n : Int)
  | uint (n : Nat)
  | bool (b : Bool)
  | str (s : String)
  deriving DecidableEq, Repr

/-- `GstState`, as far as `main` uses it. -/
inductive GstState where
  | GST_STATE_NULL
  | GST_STATE_PLAYING
  deriving DecidableEq, Repr

/-- One call into a library. -/
inductive Call where
  | gst_init (argv : List String)
  | g_main_loop_new
  | gst_pipeline_new (name : String)
  | gst_bin_new (bin : Obj) (name : String)
  | gst_element_factory_make (element : Obj) (factoryname : String) (name : String)
  | gst_bin_add (bin : Obj) (element : Obj)
  | gst_bin_add_many (bin : Obj) (elements : List Obj)
  | g_object_set (object : Obj) (property : String) (value : Value)
  | g_object_get (object : Obj) (property : String)
  | g_signal_connect (object : Obj) (signal : String) (handler : String)
  | gst_element_add_pad (element : Obj) (pad : String)
  | gst_element_get_request_pad (element : Obj) (name : String)
  | gst_element_get_static_pad (element : Obj) (name : String)
  | gst_pad_link (src : Obj) (srcpad : String) (sink : Obj) (sinkpad : String)
  | gst_element_link_many (elements : List Obj)
  | nvds_parse_source_list (file : String) (group : String)
  | nvds_parse_streammux (element : Obj) (file : String) (group : String)
  | nvds_parse_tracker (element : Obj) (file : String) (group : String)
  | nvds_parse_osd (element : Obj) (file : String) (group : String)
  | gst_bus_add_watch (handler : String)
  | gst_rtsp_server_new
  | gst_rtsp_server_attach
  | gst_rtsp_media_factory_new (factory : Obj)
  | gst_rtsp_media_factory_set_launch (factory : Obj) (launch : String)
  | gst_rtsp_media_factory_set_shared (factory : Obj) (shared : Bool)
  | gst_rtsp_server_get_mount_points
  | gst_rtsp_mount_points_add_factory (path : String) (factory : Obj)
  | g_object_unref (object : Option Obj)
  | gst_pad_add_probe (element : Obj) (pad : String) (probe : String)
  | gst_element_set_state (element : Obj) (state : GstState)
  | g_main_loop_run
  | g_source_remove
  | g_main_loop_unref
  deriving DecidableEq, Repr

/-- Everything outside the program that a run of `main` depends on. -/
structure World where
  /-- Whether a library call that may fail succeeds: a creation or pad lookup
  yields a non-null object, a link is made, the server is attached. -/
  succeeds : Call → Bool
  /-- `g_getenv`. -/
  getenv : String → Option String
  /-- `prop.integrated` as filled in by `cudaGetDeviceProperties`. -/
  integrated : Bool
  /-- The arguments after `argv[0]` that `gst_init` leaves in place; it
  removes the options GStreamer recognises. -/
  gst_init_keeps : List String → List String
  /-- The source list `nvds_parse_source_list` builds for a file and group. -/
  source_list : String → String → List String
  /-- The `batch-size` the inference element reports once the given
  configuration file has been set. -/
  pgie_batch_size : String → Nat
  /-- Whether the two occurrences of the string literal `"H264"` (in `CODEC`
  and in the comparison `codec == "H264"`) are the same array, which the C
  language leaves to the compiler. -/
  h264_literals_shared : Bool
  /-- Whether the main loop is ever quit, so that `g_main_loop_run` returns. -/
  loop_quits : Bool

/-- How a run ends before the last statement: by a `return`, by undefined
behaviour, or never (blocked in `g_main_loop_run`). -/
inductive Exit where
  | returned (status : Int)
  | fault (f : Fault)
  | blocked
  deriving DecidableEq, Repr

/-- A piece of `main`: the calls it makes and either its value or the way
the run ended inside it. -/
def M (α : Type) : Type := List Call × Except Exit α

/-- Sequencing: the calls of the second piece follow those of the first,
unless the run ended inside the first. -/
def M.bind {α β : Type} (m : M α) (f : α → M β) : M β :=
  match m with
  | (calls, .ok a) => (calls ++ (f a).1, (f a).2)
  | (calls, .error e) => (calls, .error e)

instance : Monad M where
  pure a := ([], .ok a)
  bind := M.bind

/-- A library call whose result `main` does not test. -/
def call (c : Call) : M Unit := ([c], .ok ())

/-- A library call whose result `main` tests against `NULL`, zero or
`FALSE`: true when it succeeded. -/
def try_call (w : World) (c : Call) : M Bool := ([c], .ok (w.succeeds c))

/-- The statement `return status;` of `main`. -/
def ret {α : Type} (status : Int) : M α := ([], .error (.returned status))

/-- Undefined behaviour. -/
def fault {α : Type} (f : Fault) : M α := ([], .error (.fault f))

/-- `g_main_loop_run`: returns once the loop is quit. -/
def g_main_loop_run (w : World) : M Unit :=
  ([.g_main_loop_run], if w.loop_quits then .ok () else .error .blocked)

/-- The loop `for (i = 0; i < n; i++)`, started as `for_loop body n 0 s`:
the first number counts the iterations still to run, `s` is the value of the
variables the body updates. -/
def for_loop {σ : Type} (body : Nat → σ → M σ) : Nat → Nat → σ → M σ
  | 0, _, s => pure s
  | n + 1, i, s => do
    let s ← body i s
    for_loop body n (i + 1) s

/-! ## Pipeline assembly: constants and text -/

def UDP_PORT : Nat := 5400
def RTSP_PORT : String := "554"
def CODEC : String := "H264"
def upd_port : Nat := UDP_PORT
def rtsp_port : String := RTSP_PORT
def codec : String := CODEC

def OSD_PROCESS_MODE : Int := 0
def OSD_DISPLAY_TEXT : Int := 1
def MUXER_OUTPUT_WIDTH : Int := 1920
def MUXER_OUTPUT_HEIGHT : Int := 1080
def MUXER_BATCH_TIMEOUT_USEC : Int := 40000

/-- Decimal digits of `n`, most significant first; `fuel` bounds their number. -/
def decimal_digits : Nat → Nat → List Char
  | 0, _ => []
  | fuel + 1, n =>
    if n < 10 then [Char.ofNat (48 + n)]
    else decimal_digits fuel (n / 10) ++ [Char.ofNat (48 + n % 10)]

/-- The conversion `%u` of a 32-bit unsigned value (at most ten digits). -/
def fmt_u (v : Nat) : String :=
  String.mk (decimal_digits 10 (v % 2 ^ 32))

/-- The conversion `%d` of a 32-bit value: values from 2^31 on are read as
negative. -/
def fmt_d (v : Nat) : String :=
  if v % 2 ^ 32 < 2 ^ 31 then String.mk (decimal_digits 10 (v % 2 ^ 32))
  else String.mk ('-' :: decimal_digits 10 (2 ^ 32 - v % 2 ^ 32))

/-- The conversion `%02d`: `%d` padded with a zero to two characters. -/
def fmt_02d (v : Nat) : String :=
  if (fmt_d v).length < 2 then "0" ++ fmt_d v else fmt_d v

/-- `g_snprintf (buf, n, ...)` into a buffer of `size` bytes, where `text`
is the fully formatted output: the string left in the buffer. Storing more
bytes than the buffer has is undefined. -/
def g_snprintf (size n : Nat) (text : String) : M String :=
  if size < (truncate n text).length + 1 then fault .buffer_overflow
  else pure (truncate n text)

/-- The format of the RTSP launch description with its two arguments
substituted. -/
def factory_launch_text (port : Nat) (codec : String) : String :=
  "( udpsrc name=pay0 port=" ++ fmt_d port ++
  " buffer-size=524288 caps=\"application/x-rtp, media=video, clock-rate=90000, " ++
  "encoding-name=(string)" ++ codec ++ ", payload=96 \" )"

/-- `g_str_has_suffix`; a null string has no suffix. -/
def g_str_has_suffix (str : Option String) (suffix : String) : Bool :=
  match str with
  | none => false
  | some s => suffix.data.isSuffixOf s.data

/-- The test `g_str_has_suffix (argv[1], ".yml") || g_str_has_suffix (argv[1], ".yaml")`. -/
def is_yml (argv : List String) : Bool :=
  g_str_has_suffix argv[1]? ".yml" || g_str_has_suffix argv[1]? ".yaml"

/-- The argument vector after `gst_init (&argc, &argv)`. -/
def gst_init (w : World) (argv : List String) : List String :=
  argv.take 1 ++ w.gst_init_keeps (argv.drop 1)

/-- `PERF_MODE` as `main` computes it from the environment. -/
def perf_mode (w : World) : Bool :=
  match w.getenv "NVDS_TEST3_PERF_MODE" with
  | none => false
  | some value => value == "1"

/-! ## Pipeline assembly: `create_source_bin` and `main` -/

/-- The statement `if (c) return status;`. -/
def return_if (c : Bool) (status : Int) : M Unit :=
  if c then ret status else pure ()

/-- `create_source_bin`: true when it returns a bin, false when it returns
`NULL`. -/
def create_source_bin (w : World) (PERF_MODE : Bool) (index : Nat) (uri : String) : M Bool := do
  let bin_name ← g_snprintf 16 15 ("source-bin-" ++ fmt_02d index)
  let bin ← try_call w (.gst_bin_new (.source_bin index) bin_name)
  let uri_decode_bin ←
    (if PERF_MODE then do
      let made ← try_call w
        (.gst_element_factory_make (.uri_decode_bin index) "nvurisrcbin" "uri-decode-bin")
      call (.g_object_set (.uri_decode_bin index) "file-loop" (.bool true))
      pure made
    else
      try_call w
        (.gst_element_factory_make (.uri_decode_bin index) "uridecodebin" "uri-decode-bin"))
  (if !bin || !uri_decode_bin then
    pure false
  else do
    call (.g_object_set (.uri_decode_bin index) "uri" (.str uri))
    call (.g_signal_connect (.uri_decode_bin index) "pad-added" "cb_newpad")
    call (.g_signal_connect (.uri_decode_bin index) "child-added" "decodebin_child_added")
    call (.gst_bin_add (.source_bin index) (.uri_decode_bin index))
    let added ← try_call w (.gst_element_add_pad (.source_bin index) "src")
    (if !added then
      pure false
    else
      pure true))

/-- `src_list->data`: reading through a null list pointer is undefined. -/
def list_data (src_list : List String) : M String :=
  match src_list with
  | [] => fault .null_src_list
  | data :: _ => pure data

/-- `src_list->next`. -/
def list_next (src_list : List String) : M (List String) :=
  match src_list with
  | [] => fault .null_src_list
  | _ :: next => pure next

/-- `argv[k]`: reading beyond the end of the vector is undefined. -/
def argv_at (argv : List String) (k : Nat) : M String :=
  match argv[k]? with
  | none => fault .argv_out_of_bounds
  | some arg => pure arg

/-- Body of the source loop of `main`; `src_list` is the list pointer the
loop advances in descriptor-file mode. -/
def main_source_loop_body (w : World) (PERF_MODE : Bool) (argv : List String)
    (i : Nat) (src_list : List String) : M (List String) := do
  let uri ← (if is_yml argv then list_data src_list else argv_at argv (i + 1))
  let source_bin ← create_source_bin w PERF_MODE i uri
  return_if (!source_bin) (-1)
  call (.gst_bin_add .pipeline (.source_bin i))
  let pad_name ← g_snprintf 16 15 ("sink_" ++ fmt_u i)
  let sinkpad ← try_call w (.gst_element_get_request_pad .streammux pad_name)
  return_if (!sinkpad) (-1)
  let srcpad ← try_call w (.gst_element_get_static_pad (.source_bin i) "src")
  return_if (!srcpad) (-1)
  let linked ← try_call w (.gst_pad_link (.source_bin i) "src" .streammux pad_name)
  return_if (!linked) (-1)
  (if is_yml argv then list_next src_list else pure src_list)

/-- Body of the output-branch loop of `main`. The loop carries the variables
`encoder` and `rtppay` (here: whether each is non-null), which an iteration
leaves as they were when `codec` compares equal to neither literal. -/
def main_branch_loop_body (w : World) (argv : List String) (prop_integrated : Bool)
    (i : Nat) (vars : Bool × Bool) : M (Bool × Bool) := do
  let element_name ← g_snprintf 30 30 ("queue_" ++ fmt_u i)
  let queue ← try_call w (.gst_element_factory_make (.branch_queue i) "queue" element_name)
  let element_name ← g_snprintf 30 30 ("nvvideo-converter_" ++ fmt_u i)
  let nvvidconv ← try_call w
    (.gst_element_factory_make (.nvvidconv i) "nvvideoconvert" element_name)
  let element_name ← g_snprintf 30 30 ("nv-onscreendisplay_" ++ fmt_u i)
  let nvosd ← try_call w (.gst_element_factory_make (.nvosd i) "nvdsosd" element_name)
  let element_name ← g_snprintf 30 30 ("nvvideo-converter2_" ++ fmt_u i)
  let nvvidconv2 ← try_call w
    (.gst_element_factory_make (.nvvidconv2 i) "nvvideoconvert" element_name)
  let element_name ← g_snprintf 30 30 ("filter_" ++ fmt_u i)
  let caps ← try_call w (.gst_element_factory_make (.caps i) "capsfilter" element_name)
  let vars ←
    (if w.h264_literals_shared then do
      let element_name ← g_snprintf 30 30 ("encoder_" ++ fmt_u i)
      let encoder ← try_call w
        (.gst_element_factory_make (.encoder i) "nvv4l2h264enc" element_name)
      let element_name ← g_snprintf 30 30 ("rtppay_" ++ fmt_u i)
      let rtppay ← try_call w
        (.gst_element_factory_make (.rtppay i) "rtph264pay" element_name)
      pure (encoder, rtppay)
    else
      pure vars)
  let encoder := vars.1
  let rtppay := vars.2
  let element_name ← g_snprintf 30 30 ("udpsink_" ++ fmt_u i)
  let sink ← try_call w (.gst_element_factory_make (.sink i) "udpsink" element_name)
  return_if
    (!queue || !nvvidconv || !nvosd || !nvvidconv2 || !caps || !encoder || !rtppay || !sink) (-1)
  (if is_yml argv then do
    call (.nvds_parse_osd (.nvosd i) (argv.getD 1 "") "osd")
    call (.g_object_set (.nvosd i) "display-text" (.bool true))
  else do
    call (.g_object_set (.nvosd i) "process-mode" (.int OSD_PROCESS_MODE))
    call (.g_object_set (.nvosd i) "display-text" (.int OSD_DISPLAY_TEXT)))
  call (.g_object_set (.caps i) "caps" (.str "video/x-raw(memory:NVMM), format=I420"))
  call (.g_object_set (.encoder i) "bitrate" (.int 4000000))
  (if prop_integrated then do
    call (.g_object_set (.encoder i) "preset-level" (.int 1))
    call (.g_object_set (.encoder i) "insert-sps-pps" (.int 1))
    call (.g_object_set (.encoder i) "bufapi-version" (.int 1))
  else
    pure ())
  call (.g_object_set (.sink i) "host" (.str "127.0.0.1"))
  call (.g_object_set (.sink i) "port" (.uint ((upd_port + i) % 2 ^ 32)))
  call (.g_object_set (.sink i) "async" (.int 0))
  call (.g_object_set (.sink i) "sync" (.int 0))
  call (.g_object_set (.sink i) "qos" (.int 0))
  call (.gst_bin_add_many .pipeline
    [.branch_queue i, .nvvidconv i, .nvosd i, .nvvidconv2 i, .caps i, .encoder i, .rtppay i,
     .sink i])
  let pad_name ← g_snprintf 16 15 ("src_" ++ fmt_u i)
  let srcpad_demux ← try_call w (.gst_element_get_request_pad .streamdemux pad_name)
  return_if (!srcpad_demux) (-1)
  let sinkpad_queue ← try_call w (.gst_element_get_static_pad (.branch_queue i) "sink")
  return_if (!sinkpad_queue) (-1)
  let linked ← try_call w (.gst_pad_link .streamdemux pad_name (.branch_queue i) "sink")
  return_if (!linked) (-1)
  let linked ← try_call w (.gst_element_link_many
    [.branch_queue i, .nvvidconv i, .nvosd i, .nvvidconv2 i, .caps i, .encoder i, .rtppay i,
     .sink i])
  return_if (!linked) (-1)
  pure (encoder, rtppay)

/-- Body of the mount-point loop of `main`; the loop carries the variable
`mounts`, unassigned (`none`) before the first iteration. -/
def main_mount_loop_body (i : Nat) (_mounts : Option Obj) : M (Option Obj) := do
  call (.gst_rtsp_media_factory_new (.factory i))
  let factory_launch ← g_snprintf 160 150 (factory_launch_text ((upd_port + i) % 2 ^ 32) codec)
  call (.gst_rtsp_media_factory_set_launch (.factory i) factory_launch)
  call (.gst_rtsp_media_factory_set_shared (.factory i) true)
  call .gst_rtsp_server_get_mount_points
  let mounts := some Obj.mounts
  let mount_point_path ← g_snprintf 20 150 ("/ds-gpu0-" ++ fmt_d i)
  call (.gst_rtsp_mount_points_add_factory mount_point_path (.factory i))
  pure mounts

/-- The number of sources `main` computes after `gst_init`: the length of
the parsed list in descriptor-file mode, `argc - 1` otherwise, as a `guint`. -/
def num_sources_of (w : World) (argv : List String) : Nat :=
  if is_yml argv then
    (w.source_list (argv.getD 1 "") "source-list").length % 2 ^ 32
  else
    (argv.length - 1) % 2 ^ 32

/-- `main`, lines 373-388: the main loop, the pipeline and the stream muxer. -/
def main_pipeline (w : World) : M Unit := do
  call .g_main_loop_new
  let pipeline ← try_call w (.gst_pipeline_new "dscustom-pipeline")
  let streammux ← try_call w (.gst_element_factory_make .streammux "nvstreammux" "stream-muxer")
  return_if (!pipeline || !streammux) (-1)
  call (.gst_bin_add .pipeline .streammux)

/-- `main`, lines 390-453: the source list is parsed and counted (the count
is `num_sources_of`), and one source bin per source is created and linked. -/
def main_sources (w : World) (PERF_MODE : Bool) (argv : List String) : M Unit := do
  let src_list ←
    (if is_yml argv then do
      call (.nvds_parse_source_list (argv.getD 1 "") "source-list")
      pure (w.source_list (argv.getD 1 "") "source-list")
    else
      pure [])
  let num_sources := num_sources_of w argv
  let _ ← for_loop (main_source_loop_body w PERF_MODE argv) num_sources 0 src_list
  pure ()

/-- `main`, lines 455-531: the shared elements, their properties and their
links. -/
def main_elements (w : World) (argv : List String) (num_sources : Nat) : M Unit := do
  let queue ← try_call w (.gst_element_factory_make .queue "queue" "queue")
  let pgie ← try_call w
    (.gst_element_factory_make .pgie "nvinfer" "primary-nvinference-engine")
  let nvtracker ← try_call w (.gst_element_factory_make .nvtracker "nvtracker" "tracker")
  let nvdslogger ← try_call w (.gst_element_factory_make .nvdslogger "nvdslogger" "nvdslogger")
  let streamdemux ← try_call w
    (.gst_element_factory_make .streamdemux "nvstreamdemux" "stream-demuxer")
  return_if (!queue || !pgie || !nvtracker || !nvdslogger || !streamdemux) (-1)
  (if is_yml argv then do
    call (.nvds_parse_streammux .streammux (argv.getD 1 "") "streammux")
    call (.g_object_set .pgie "config-file-path" (.str "ds_pgie_config.yml"))
    call (.g_object_get .pgie "batch-size")
    let pgie_batch_size := w.pgie_batch_size "ds_pgie_config.yml" % 2 ^ 32
    (if pgie_batch_size ≠ num_sources then
      call (.g_object_set .pgie "batch-size" (.uint num_sources))
    else
      pure ())
    call (.nvds_parse_tracker .nvtracker (argv.getD 1 "") "tracker")
  else do
    call (.g_object_set .streammux "batch-size" (.uint num_sources))
    call (.g_object_set .streammux "width" (.int MUXER_OUTPUT_WIDTH))
    call (.g_object_set .streammux "height" (.int MUXER_OUTPUT_HEIGHT))
    call (.g_object_set .streammux "batched-push-timeout" (.int MUXER_BATCH_TIMEOUT_USEC))
    call (.g_object_set .streammux "live-source" (.int 1))
    call (.g_object_set .pgie "config-file-path" (.str "ds_pgie_config.txt"))
    call (.g_object_get .pgie "batch-size")
    let pgie_batch_size := w.pgie_batch_size "ds_pgie_config.txt" % 2 ^ 32
    (if pgie_batch_size ≠ num_sources then
      call (.g_object_set .pgie "batch-size" (.uint num_sources))
    else
      pure ()))
  call (.gst_bin_add_many .pipeline [.queue, .pgie, .nvtracker, .nvdslogger, .streamdemux])
  let linked ← try_call w (.gst_element_link_many
    [.streammux, .queue, .pgie, .nvtracker, .nvdslogger, .streamdemux])
  return_if (!linked) (-1)

/-- `main`, lines 534-652: one output branch per source. -/
def main_branches (w : World) (argv : List String) (num_sources : Nat) : M Unit := do
  let _ ← for_loop (main_branch_loop_body w argv w.integrated) num_sources 0 (false, false)
  pure ()

/-- `main`, lines 655-669: the bus watch and the RTSP server. -/
def main_server (w : World) : M Unit := do
  call (.gst_bus_add_watch "bus_call")
  call .gst_rtsp_server_new
  call (.g_object_set .server "service" (.str rtsp_port))
  let attached ← try_call w .gst_rtsp_server_attach
  return_if (!attached) (-1)

/-- `main`, lines 686-713: one mount point per source, then the release of
`mounts`. -/
def main_mounts (num_sources : Nat) : M Unit := do
  let mounts ← for_loop main_mount_loop_body num_sources 0 none
  (match mounts with
  | none => fault .uninitialized_mounts
  | some object => call (.g_object_unref (some object)))

/-- `main`, lines 716-753: the probe, the playing state, the main loop and
the teardown. -/
def main_play (w : World) : M Int := do
  let tiler_src_pad ← try_call w (.gst_element_get_static_pad .pgie "src")
  (if tiler_src_pad then
    call (.gst_pad_add_probe .pgie "src" "tiler_src_pad_buffer_probe")
  else
    pure ())
  call (.g_object_unref (if tiler_src_pad then some .pgie else none))
  call (.gst_element_set_state .pipeline .GST_STATE_PLAYING)
  g_main_loop_run w
  call (.gst_element_set_state .pipeline .GST_STATE_NULL)
  call (.g_object_unref (some .pipeline))
  call .g_source_remove
  call .g_main_loop_unref
  pure 0

/-- `main`, after `gst_init`: `argv` is the vector `gst_init` left. -/
def main_after_init (w : World) (PERF_MODE : Bool) (argv : List String) : M Int := do
  main_pipeline w
  main_sources w PERF_MODE argv
  let num_sources := num_sources_of w argv
  main_elements w argv num_sources
  main_branches w argv num_sources
  main_server w
  main_mounts num_sources
  main_play w

/-- `main`. -/
def main (w : World) (argv : List String) : M Int := do
  let PERF_MODE := perf_mode w
  return_if (argv.length < 2) (-1)
  call (.gst_init argv)
  let argv := gst_init w argv
  main_after_init w PERF_MODE argv

/-- The calls of a run of `main`. -/
def trace (w : World) (argv : List String) : List Call := (main w argv).1

/-- How a run of `main` ends; `.ok status` is the final `return`. -/
def outcome (w : World) (argv : List String) : Except Exit Int := (main w argv).2

/-! ## Reading a run -/

/-- The calls made after a piece that ended with `r`, when the continuation
makes the calls `k a` after a value `a`. -/
def calls_after {α : Type} (r : Except Exit α) (k : α → List Call) : List Call :=
  match r with
  | .ok a => k a
  | .error _ => []

/-- The way a run ends after a piece that ended with `r`. -/
def end_after {α β : Type} (r : Except Exit α) (k : α → Except Exit β) : Except Exit β :=
  match r with
  | .ok a => k a
  | .error e => .error e

/-- Calls that create a pipeline element: the pipeline, a bin or an element
made by a factory. -/
def creates_element : Call → Bool
  | .gst_pipeline_new _ => true
  | .gst_bin_new _ _ => true
  | .gst_element_factory_make _ _ _ => true
  | _ => false

/-- Calls that link pads. -/
def links_pads : Call → Bool
  | .gst_pad_link _ _ _ _ => true
  | .gst_element_link_many _ => true
  | _ => false

/-- The call that sets the pipeline to PLAYING. -/
def set_playing : Call := .gst_element_set_state .pipeline .GST_STATE_PLAYING

/-- A step of graph construction: an element creation or a pad link. -/
def construction_step (c : Call) : Bool :=
  creates_element c || links_pads c

/-- The calls `main` may still make between a construction step that failed
and its `return`: the creation of the other elements that are tested for
`NULL` together with the failed one and, in performance mode, the setting of
`file-loop` on the decode bin before that test. -/
def follows_failure : Call → Bool
  | .gst_element_factory_make _ _ _ => true
  | .g_object_set _ property _ => property == "file-loop"
  | _ => false

/-- The calls made after the first construction step that failed, when one
failed. -/
def calls_after_failure (w : World) : List Call → Option (List Call)
  | [] => none
  | c :: rest =>
    if construction_step c && !w.succeeds c then some rest
    else calls_after_failure w rest

/-- The failure policy on a piece of `main`. When a construction step has
already failed and is not yet tested (`pending`), the piece ends the run with
`return -1` and makes only calls that may follow a failure. Otherwise, if a
construction step fails inside the piece, the same holds from there on. -/
def failure_policy (w : World) {α : Type} (pending : Bool) (m : M α) : Prop :=
  if pending then
    m.2 = .error (.returned (-1)) ∧ m.1.all follows_failure = true
  else
    match calls_after_failure w m.1 with
    | none => True
    | some rest => m.2 = .error (.returned (-1)) ∧ rest.all follows_failure = true

/-- A piece of `main` that keeps the failure policy. -/
structure fails_fast (w : World) {α : Type} (pending : Bool) (m : M α) : Prop where
  policy : failure_policy w pending m

/-! ## Views of a run -/

/-- The call that sets the pipeline to PLAYING. -/
def sets_playing : Call → Bool
  | .gst_element_set_state .pipeline .GST_STATE_PLAYING => true
  | _ => false

/-- The calls that make up a source: the creation of the source bin and of
its decode element, the assignment of the URI, and the link to the muxer. -/
def source_step : Call → Bool
  | .gst_bin_new (.source_bin _) _ => true
  | .gst_element_factory_make (.uri_decode_bin _) _ _ => true
  | .g_object_set (.uri_decode_bin _) property _ => property == "uri"
  | .gst_pad_link (.source_bin _) _ _ _ => true
  | _ => false

/-- The calls that set the port of a UDP sink. -/
def sets_sink_port : Call → Bool
  | .g_object_set (.sink _) property _ => property == "port"
  | _ => false

/-- The calls that describe and register an RTSP mount point. -/
def mount_step : Call → Bool
  | .gst_rtsp_media_factory_set_launch _ _ => true
  | .gst_rtsp_mount_points_add_factory _ _ => true
  | _ => false

/-- A call that is of the kind `own`, or of none of the kinds above. -/
def besides (own : Call → Bool) (c : Call) : Bool :=
  own c || !(sets_playing c || source_step c || sets_sink_port c || mount_step c)

/-- No call at all. -/
def no_call (_c : Call) : Bool := false

/-- Every call of a piece of `main` satisfies `p`. -/
structure all_calls {α : Type} (p : Call → Bool) (m : M α) : Prop where
  all : ∀ c ∈ m.1, p c = true

/-- The calls of a given kind made by `n` successful iterations of a loop
that starts at index `i` with loop variables `s`, when a successful
iteration makes the calls `g i s` of that kind and leaves the variables
`next s`. -/
def loop_calls {σ : Type} (g : Nat → σ → List Call) (next : σ → σ) :
    Nat → Nat → σ → List Call
  | 0, _, _ => []
  | n + 1, i, s => g i s ++ loop_calls g next n (i + 1) (next s)

/-- The source list `main` starts its source loop with. -/
def src_list_of (w : World) (argv : List String) : List String :=
  if is_yml argv then w.source_list (argv.getD 1 "") "source-list" else []

/-- The URI of source `i`: the `i`-th entry of the parsed list in
descriptor-file mode, `argv[i + 1]` otherwise. -/
def uri_of (w : World) (argv : List String) (i : Nat) : String :=
  if is_yml argv then (w.source_list (argv.getD 1 "") "source-list").getD i ""
  else argv.getD (i + 1) ""

/-- The calls that make up source `i` in a run that gets past the source
loop. -/
def source_calls (w : World) (argv : List String) (i : Nat) : List Call :=
  [ .gst_bin_new (.source_bin i) (truncate 15 ("source-bin-" ++ fmt_02d i)),
    .gst_element_factory_make (.uri_decode_bin i)
      (if perf_mode w then "nvurisrcbin" else "uridecodebin") "uri-decode-bin",
    .g_object_set (.uri_decode_bin i) "uri" (.str (uri_of w argv i)),
    .gst_pad_link (.source_bin i) "src" .streammux (truncate 15 ("sink_" ++ fmt_u i)) ]

/-- The calls that describe and register mount point `i`. -/
def mount_calls (i : Nat) : List Call :=
  [ .gst_rtsp_media_factory_set_launch (.factory i)
      (truncate 150 (factory_launch_text ((upd_port + i) % 2 ^ 32) codec)),
    .gst_rtsp_mount_points_add_factory (truncate 150 ("/ds-gpu0-" ++ fmt_d i)) (.factory i) ]

/-- The call that sets the port of the UDP sink of branch `i`. -/
def sink_port_call (i : Nat) : Call :=
  .g_object_set (.sink i) "port" (.uint ((upd_port + i) % 2 ^ 32))

/-! ## Sample worlds -/

deriving instance DecidableEq for Except

/-- A world in which every library call succeeds, GStreamer finds no option
of its own on the command line, the descriptor file lists two cameras, the
inference configuration asks for batch size 1 and the main loop is quit. -/
def world_all_ok : World where
  succeeds := fun _ => true
  getenv := fun _ => none
  integrated := false
  gst_init_keeps := fun args => args
  source_list := fun _ _ => ["rtsp://cam0", "rtsp://cam1"]
  pgie_batch_size := fun _ => 1
  h264_literals_shared := true
  loop_quits := true

/-- As `world_all_ok`, with a descriptor file that yields no source entry. -/
def world_empty_list : World :=
  { world_all_ok with source_list := fun _ _ => [] }

/-- As `world_all_ok`, except that `gst_pipeline_new` fails. -/
def world_no_pipeline : World :=
  { world_all_ok with
    succeeds := fun c => decide (c ≠ Call.gst_pipeline_new "dscustom-pipeline") }

/-! ## Specification vocabulary -/

/-- The frames of two batches correspond one to one, in order, and so do the
objects of corresponding frames, each pair of objects satisfying `R`. -/
def objects_related (R : NvDsObjectMeta → NvDsObjectMeta → Prop)
    (before after : NvDsBatchMeta) : Prop :=
  List.Forall₂ (fun f f' => List.Forall₂ R f.obj_meta_list f'.obj_meta_list)
    before.frame_meta_list after.frame_meta_list

/-- The frames of two batches correspond one to one, in order, each pair
satisfying `R`. -/
def frames_related (R : NvDsFrameMeta → NvDsFrameMeta → Prop)
    (before after : NvDsBatchMeta) : Prop :=
  List.Forall₂ R before.frame_meta_list after.frame_meta_list

/-- The label record the probe builds for a camera name. -/
def label_for (display_text : String) : NvDsDisplayMeta :=
  { num_rects := 0, num_labels := 1, num_lines := 0,
    text_params :=
      { display_text := display_text, x_offset := 0, y_offset := 0,
        font_params := { font_name := "Serif", font_size := 40,
                         font_color := { red := 1, green := 1, blue := 1, alpha := 1 } },
        set_bg_clr := 1,
        text_bg_clr := { red := 0, green := 0, blue := 0, alpha := 1 / 2 } } }

/-- A detected object of class `class_id` with an all-zero box and colour. -/
def sample_object (class_id : Int) : NvDsObjectMeta :=
  { class_id := class_id, object_id := 0,
    rect_params := { left := 0, top := 0, width := 0, height := 0, border_width := 0,
                     border_color := { red := 0, green := 0, blue := 0, alpha := 0 } } }

/-- A batch of three frames: a street scene from camera 0, an empty frame
from camera 3 and a frame of otherwise unused class ids from camera 1. -/
def sample_batch : NvDsBatchMeta :=
  { frame_meta_list :=
      [ { source_id := 0, frame_num := 7,
          obj_meta_list := [sample_object 2, sample_object 0, sample_object 9, sample_object 4],
          display_meta_list := [] },
        { source_id := 3, frame_num := 7, obj_meta_list := [], display_meta_list := [] },
        { source_id := 1, frame_num := 8,
          obj_meta_list := [sample_object 8, sample_object 10, sample_object 12,
                            sample_object (-1), sample_object 11],
          display_meta_list := [] } ] }

/-- A batch of one frame from a fifth camera (source index 4). -/
def batch_of_fifth_camera : NvDsBatchMeta :=
  { frame_meta_list :=
      [ { source_id := 4, frame_num := 0, obj_meta_list := [sample_object 2],
          display_meta_list := [] } ] }

/-- The decode element of a source bin, when `c` creates one, comes from the
factory `factoryname`. -/
def decode_element_is (factoryname : String) : Call → Bool
  | .gst_element_factory_make (.uri_decode_bin _) made _ => made == factoryname
  | _ => true

/-- Every source bin created in `t` has its decode element created in `t`,
from the factory `factoryname` and under the name `uri-decode-bin`. -/
def built_around (factoryname : String) (t : List Call) : Prop :=
  ∀ i name, Call.gst_bin_new (.source_bin i) name ∈ t →
    Call.gst_element_factory_make (.uri_decode_bin i) factoryname "uri-decode-bin" ∈ t

/-- As `world_all_ok`, with `NVDS_TEST3_PERF_MODE=1` in the environment. -/
def world_perf_mode : World :=
  { world_all_ok with
    getenv := fun name => if name = "NVDS_TEST3_PERF_MODE" then some "1" else none }

/-- The command line that names `n` cameras as positional arguments. -/
def command_line_of_cameras (n : Nat) : List String :=
  "deepstream-custom-app" :: List.replicate n "rtsp://cam"

/-- The value of the property `batch-size` of `element` after the calls of
`t`, when it was `before` ahead of them: each `g_object_set` of that property
on that element replaces it. -/
def batch_size_after (element : Obj) (before : Value) : List Call → Value
  | [] => before
  | .g_object_set object property value :: rest =>
    if object = element ∧ property = "batch-size" then batch_size_after element value rest
    else batch_size_after element before rest
  | _ :: rest => batch_size_after element before rest

/-- The call that follows the property configuration of the shared elements:
they are added to the pipeline. -/
def shared_elements_added : Call :=
  .gst_bin_add_many .pipeline [.queue, .pgie, .nvtracker, .nvdslogger, .streamdemux]

/-- Calls that set no `batch-size` property and are not the call
`shared_elements_added`. -/
def aside_of_batch_size : Call → Bool
  | .g_object_set _ property _ => property != "batch-size"
  | .gst_bin_add_many bin elements =>
    !(bin == .pipeline && elements == [.queue, .pgie, .nvtracker, .nvdslogger, .streamdemux])
  | _ => true

/-- The configuration file `main` gives the inference element. -/
def pgie_config_file (argv : List String) : String :=
  if is_yml argv then "ds_pgie_config.yml" else "ds_pgie_config.txt"

/-! ## Lemmas on the probe -/

theorem snprintf_source_name (s : Nat) (name : String)
    (h : SOURCE_NAMES[s]? = some name) : snprintf MAX_DISPLAY_LEN name = .ok name := by
  have hs : s < 4 := by
    by_contra hc
    have : SOURCE_NAMES.length ≤ s := by simp [SOURCE_NAMES]; omega
    rw [List.getElem?_eq_none this] at h
    exact absurd h (by simp)
  interval_cases s <;> simp [SOURCE_NAMES] at h <;> subst h <;> rfl

theorem source_name_exists (s : Nat) (h : s < 4) : ∃ name, SOURCE_NAMES[s]? = some name := by
  interval_cases s <;> simp [SOURCE_NAMES]

theorem tiler_probe_frame_in_bounds (f : NvDsFrameMeta) (name : String)
    (h : SOURCE_NAMES[f.source_id]? = some name) :
    tiler_probe_frame f =
      .ok { f with obj_meta_list := f.obj_meta_list.map tiler_probe_object,
                   display_meta_list := f.display_meta_list ++ [label_for name] } := by
  simp only [tiler_probe_frame, h, snprintf_source_name f.source_id name h]
  rfl

theorem tiler_probe_frames_in_bounds (fs : List NvDsFrameMeta)
    (h : ∀ f ∈ fs, f.source_id < 4) :
    ∃ fs', tiler_probe_frames fs = .ok fs' ∧
      List.Forall₂ (fun f f' =>
        f'.obj_meta_list = f.obj_meta_list.map tiler_probe_object ∧
        f'.source_id = f.source_id ∧ f'.frame_num = f.frame_num ∧
        ∃ name, SOURCE_NAMES[f.source_id]? = some name ∧
          f'.display_meta_list = f.display_meta_list ++ [label_for name]) fs fs' := by
  induction fs with
  | nil => exact ⟨[], rfl, List.Forall₂.nil⟩
  | cons f rest ih =>
    obtain ⟨name, hname⟩ := source_name_exists f.source_id (h f (List.mem_cons_self _ _))
    obtain ⟨rest', hrest, hrel⟩ := ih (fun g hg => h g (List.mem_cons_of_mem _ hg))
    refine ⟨{ f with obj_meta_list := f.obj_meta_list.map tiler_probe_object,
                     display_meta_list := f.display_meta_list ++ [label_for name] } :: rest',
      ?_, List.Forall₂.cons ⟨rfl, rfl, rfl, name, hname, rfl⟩ hrel⟩
    simp only [tiler_probe_frames, tiler_probe_frame_in_bounds f name hname, hrest]

theorem tiler_probe_in_bounds (batch_meta : NvDsBatchMeta)
    (h : ∀ f ∈ batch_meta.frame_meta_list, f.source_id < 4) :
    ∃ batch_meta',
      tiler_src_pad_buffer_probe { nvds_batch_meta := some batch_meta } =
        .ok ({ nvds_batch_meta := some batch_meta' }, .GST_PAD_PROBE_OK) ∧
      frames_related (fun f f' =>
        f'.obj_meta_list = f.obj_meta_list.map tiler_probe_object ∧
        f'.source_id = f.source_id ∧ f'.frame_num = f.frame_num ∧
        ∃ name, SOURCE_NAMES[f.source_id]? = some name ∧
          f'.display_meta_list = f.display_meta_list ++ [label_for name])
        batch_meta batch_meta' := by
  obtain ⟨fs', hfs, hrel⟩ := tiler_probe_frames_in_bounds batch_meta.frame_meta_list h
  refine ⟨{ batch_meta with frame_meta_list := fs' }, ?_, hrel⟩
  simp only [tiler_src_pad_buffer_probe, gst_buffer_get_nvds_batch_meta, hfs]

theorem forall₂_map_right {α β : Type} (g : α → β) (R : α → β → Prop) (l : List α)
    (h : ∀ a ∈ l, R a (g a)) : List.Forall₂ R l (l.map g) := by
  induction l with
  | nil => exact List.Forall₂.nil
  | cons a l ih =>
    exact List.Forall₂.cons (h a (List.mem_cons_self _ _))
      (ih (fun b hb => h b (List.mem_cons_of_mem _ hb)))

theorem tiler_probe_objects (R : NvDsObjectMeta → NvDsObjectMeta → Prop)
    (hR : ∀ o, R o (tiler_probe_object o)) (batch_meta : NvDsBatchMeta)
    (h : ∀ f ∈ batch_meta.frame_meta_list, f.source_id < 4) :
    ∃ batch_meta',
      tiler_src_pad_buffer_probe { nvds_batch_meta := some batch_meta } =
        .ok ({ nvds_batch_meta := some batch_meta' }, .GST_PAD_PROBE_OK) ∧
      objects_related R batch_meta batch_meta' := by
  obtain ⟨b', hb', hrel⟩ := tiler_probe_in_bounds batch_meta h
  refine ⟨b', hb', ?_⟩
  refine List.Forall₂.imp ?_ hrel
  rintro f f' ⟨hobj, -⟩
  rw [hobj]
  exact forall₂_map_right _ _ _ (fun o _ => hR o)

/-! ## Claims -/

/-- C1. For every batch whose frames carry source indices inside the camera-name
table, the probe returns `GST_PAD_PROBE_OK`, and for every detected object of
every frame the border colour afterwards is the vehicle colour (0,1,1,1) when
its class id is one of 1, 2, 3, 5, 6, 7, the person colour (1,1,0,1) when it
is 0, and the sign colour (1,0,1,1) when it is 9 or 11. -/
theorem probe_colors_by_class (batch_meta : NvDsBatchMeta)
    (h : ∀ f ∈ batch_meta.frame_meta_list, f.source_id < 4) :
    ∃ batch_meta',
      tiler_src_pad_buffer_probe { nvds_batch_meta := some batch_meta } =
        .ok ({ nvds_batch_meta := some batch_meta' }, .GST_PAD_PROBE_OK) ∧
      objects_related (fun o o' =>
        (o.class_id ∈ [1, 2, 3, 5, 6, 7] →
          o'.rect_params.border_color = { red := 0, green := 1, blue := 1, alpha := 1 }) ∧
        (o.class_id = 0 →
          o'.rect_params.border_color = { red := 1, green := 1, blue := 0, alpha := 1 }) ∧
        (o.class_id = 9 ∨ o.class_id = 11 →
          o'.rect_params.border_color = { red := 1, green := 0, blue := 1, alpha := 1 }))
        batch_meta batch_meta' := by
  apply tiler_probe_objects _ _ batch_meta h
  intro o
  refine ⟨?_, ?_, ?_⟩
  · intro hc
    simp only [List.mem_cons, List.mem_singleton, List.not_mem_nil, or_false] at hc
    rcases hc with hc | hc | hc | hc | hc | hc <;>
      simp [tiler_probe_object, set_border_color, hc, PGIE_CLASS_ID_BYCICLE, PGIE_CLASS_ID_CAR,
        PGIE_CLASS_ID_MOTORBIKE, PGIE_CLASS_ID_BUS, PGIE_CLASS_ID_TRAIN, PGIE_CLASS_ID_TRUCK,
        PGIE_CLASS_ID_PERSON, PGIE_CLASS_ID_TRAFFIC_LIGHT, PGIE_CLASS_ID_STOP_SIGN,
        VEHICLE_COLOR_PARAMS]
  · intro hc
    simp [tiler_probe_object, set_border_color, hc, PGIE_CLASS_ID_BYCICLE, PGIE_CLASS_ID_CAR,
        PGIE_CLASS_ID_MOTORBIKE, PGIE_CLASS_ID_BUS, PGIE_CLASS_ID_TRAIN, PGIE_CLASS_ID_TRUCK,
        PGIE_CLASS_ID_PERSON, PGIE_CLASS_ID_TRAFFIC_LIGHT, PGIE_CLASS_ID_STOP_SIGN,
        PERSON_COLOR_PARAMS]
  · intro hc
    rcases hc with hc | hc <;>
      simp [tiler_probe_object, set_border_color, hc, PGIE_CLASS_ID_BYCICLE, PGIE_CLASS_ID_CAR,
        PGIE_CLASS_ID_MOTORBIKE, PGIE_CLASS_ID_BUS, PGIE_CLASS_ID_TRAIN, PGIE_CLASS_ID_TRUCK,
        PGIE_CLASS_ID_PERSON, PGIE_CLASS_ID_TRAFFIC_LIGHT, PGIE_CLASS_ID_STOP_SIGN,
        SIGN_COLOR_PARAMS]

/-- Witness of C1: the sample batch has all its source indices inside the table. -/
theorem probe_colors_by_class_witness :
    (∀ f ∈ sample_batch.frame_meta_list, f.source_id < 4) ∧
    ∃ batch_meta',
      tiler_src_pad_buffer_probe { nvds_batch_meta := some sample_batch } =
        .ok ({ nvds_batch_meta := some batch_meta' }, .GST_PAD_PROBE_OK) ∧
      objects_related (fun o o' =>
        (o.class_id ∈ [1, 2, 3, 5, 6, 7] →
          o'.rect_params.border_color = { red := 0, green := 1, blue := 1, alpha := 1 }) ∧
        (o.class_id = 0 →
          o'.rect_params.border_color = { red := 1, green := 1, blue := 0, alpha := 1 }) ∧
        (o.class_id = 9 ∨ o.class_id = 11 →
          o'.rect_params.border_color = { red := 1, green := 0, blue := 1, alpha := 1 }))
        sample_batch batch_meta' :=
  ⟨by decide, probe_colors_by_class sample_batch (by decide)⟩

/-- C2. For every batch whose frames carry source indices inside the camera-name
table, the probe returns `GST_PAD_PROBE_OK`, and every detected object whose
class id is none of 0, 1, 2, 3, 5, 6, 7, 9, 11 (so also 4, 8, 10, ids above 11
and negative ids) has the same border colour afterwards as before. -/
theorem probe_keeps_color_of_other_classes (batch_meta : NvDsBatchMeta)
    (h : ∀ f ∈ batch_meta.frame_meta_list, f.source_id < 4) :
    ∃ batch_meta',
      tiler_src_pad_buffer_probe { nvds_batch_meta := some batch_meta } =
        .ok ({ nvds_batch_meta := some batch_meta' }, .GST_PAD_PROBE_OK) ∧
      objects_related (fun o o' =>
        o.class_id ∉ [0, 1, 2, 3, 5, 6, 7, 9, 11] →
          o'.rect_params.border_color = o.rect_params.border_color)
        batch_meta batch_meta' := by
  apply tiler_probe_objects _ _ batch_meta h
  intro o hc
  simp only [List.mem_cons, List.mem_singleton, List.not_mem_nil, or_false, not_or] at hc
  obtain ⟨h0, h1, h2, h3, h5, h6, h7, h9, h11⟩ := hc
  simp [tiler_probe_object, h0, h1, h2, h3, h5, h6, h7, h9, h11, PGIE_CLASS_ID_BYCICLE,
    PGIE_CLASS_ID_CAR, PGIE_CLASS_ID_MOTORBIKE, PGIE_CLASS_ID_BUS, PGIE_CLASS_ID_TRAIN,
    PGIE_CLASS_ID_TRUCK, PGIE_CLASS_ID_PERSON, PGIE_CLASS_ID_TRAFFIC_LIGHT,
    PGIE_CLASS_ID_STOP_SIGN]

/-- Witness of C2 on the sample batch, which holds objects of classes 4, 8, 10,
12 and -1. -/
theorem probe_keeps_color_of_other_classes_witness :
    (∀ f ∈ sample_batch.frame_meta_list, f.source_id < 4) ∧
    ∃ batch_meta',
      tiler_src_pad_buffer_probe { nvds_batch_meta := some sample_batch } =
        .ok ({ nvds_batch_meta := some batch_meta' }, .GST_PAD_PROBE_OK) ∧
      objects_related (fun o o' =>
        o.class_id ∉ [0, 1, 2, 3, 5, 6, 7, 9, 11] →
          o'.rect_params.border_color = o.rect_params.border_color)
        sample_batch batch_meta' :=
  ⟨by decide, probe_keeps_color_of_other_classes sample_batch (by decide)⟩

/-- C3. For every batch whose frames carry source indices inside the camera-name
table (0 to 3), one call of the probe returns `GST_PAD_PROBE_OK` and leaves on
every frame, with or without detected objects, its earlier display records
followed by exactly one new record, which has `num_labels = 1` and whose label
text is the whole of `SOURCE_NAMES[source_id]`. -/
theorem probe_attaches_camera_name (batch_meta : NvDsBatchMeta)
    (h : ∀ f ∈ batch_meta.frame_meta_list, f.source_id < 4) :
    ∃ batch_meta',
      tiler_src_pad_buffer_probe { nvds_batch_meta := some batch_meta } =
        .ok ({ nvds_batch_meta := some batch_meta' }, .GST_PAD_PROBE_OK) ∧
      frames_related (fun f f' =>
        ∃ d, f'.display_meta_list = f.display_meta_list ++ [d] ∧
          d.num_labels = 1 ∧
          SOURCE_NAMES[f.source_id]? = some d.text_params.display_text)
        batch_meta batch_meta' := by
  obtain ⟨b', hb', hrel⟩ := tiler_probe_in_bounds batch_meta h
  refine ⟨b', hb', List.Forall₂.imp ?_ hrel⟩
  rintro f f' ⟨-, -, -, name, hname, hd⟩
  exact ⟨label_for name, hd, rfl, hname⟩

/-- Witness of C3 on the sample batch, whose second frame has no object. -/
theorem probe_attaches_camera_name_witness :
    (∀ f ∈ sample_batch.frame_meta_list, f.source_id < 4) ∧
    ∃ batch_meta',
      tiler_src_pad_buffer_probe { nvds_batch_meta := some sample_batch } =
        .ok ({ nvds_batch_meta := some batch_meta' }, .GST_PAD_PROBE_OK) ∧
      frames_related (fun f f' =>
        ∃ d, f'.display_meta_list = f.display_meta_list ++ [d] ∧
          d.num_labels = 1 ∧
          SOURCE_NAMES[f.source_id]? = some d.text_params.display_text)
        sample_batch batch_meta' :=
  ⟨by decide, probe_attaches_camera_name sample_batch (by decide)⟩

/-- C8. For every bus message and a running loop, `bus_call` leaves the loop
stopped exactly when the message type is end-of-stream or error; a warning, an
element message (a per-stream EOS included) and a message of any other type
leave it running; and for every message and every loop `bus_call` returns
TRUE. -/
theorem bus_call_quits_iff_eos_or_error (msg : GstMessage) (loop : GMainLoop) :
    (bus_call msg loop).1 = true ∧
    ((bus_call msg { is_running := true }).2.is_running = false ↔
      (msg.type = GST_MESSAGE_EOS ∨ msg.type = GST_MESSAGE_ERROR)) ∧
    ((bus_call msg { is_running := true }).2.is_running = true ↔
      (msg.type = GST_MESSAGE_WARNING ∨ msg.type = GST_MESSAGE_ELEMENT ∨
        (msg.type ≠ GST_MESSAGE_EOS ∧ msg.type ≠ GST_MESSAGE_ERROR))) := by
  simp only [bus_call, g_main_loop_quit, GST_MESSAGE_EOS, GST_MESSAGE_ERROR,
    GST_MESSAGE_WARNING, GST_MESSAGE_ELEMENT]
  refine ⟨trivial, ?_, ?_⟩ <;> split_ifs <;> simp_all <;> cases msg.stream_id <;> rfl

/-- C9 (the code at the failing input). On a buffer that carries no batch
metadata the probe reads `batch_meta->frame_meta_list` through the null
pointer: it does not return `GST_PAD_PROBE_OK`, it faults. -/
theorem probe_without_batch_meta_faults :
    tiler_src_pad_buffer_probe { nvds_batch_meta := none } = .error .null_batch_meta := rfl

/-! ## Lemmas on runs -/

@[simp] theorem bind_fst {α β : Type} (m : M α) (f : α → M β) :
    (m >>= f).1 = m.1 ++ calls_after m.2 (fun a => (f a).1) := by
  obtain ⟨t, r⟩ := m
  cases r <;> simp [Bind.bind, M.bind, calls_after]

@[simp] theorem bind_snd {α β : Type} (m : M α) (f : α → M β) :
    (m >>= f).2 = end_after m.2 (fun a => (f a).2) := by
  obtain ⟨t, r⟩ := m
  cases r <;> simp [Bind.bind, M.bind, end_after]

@[simp] theorem calls_after_ok {α : Type} (a : α) (k : α → List Call) :
    calls_after (.ok a) k = k a := rfl

@[simp] theorem calls_after_error {α : Type} (e : Exit) (k : α → List Call) :
    calls_after (.error e) k = [] := rfl

@[simp] theorem end_after_ok {α β : Type} (a : α) (k : α → Except Exit β) :
    end_after (.ok a) k = k a := rfl

@[simp] theorem end_after_error {α β : Type} (e : Exit) (k : α → Except Exit β) :
    end_after (.error e) k = .error e := rfl

@[simp] theorem pure_fst {α : Type} (a : α) : (pure a : M α).1 = [] := rfl
@[simp] theorem pure_snd {α : Type} (a : α) : (pure a : M α).2 = .ok a := rfl
@[simp] theorem call_fst (c : Call) : (call c).1 = [c] := rfl
@[simp] theorem call_snd (c : Call) : (call c).2 = .ok () := rfl
@[simp] theorem try_call_fst (w : World) (c : Call) : (try_call w c).1 = [c] := rfl
@[simp] theorem try_call_snd (w : World) (c : Call) : (try_call w c).2 = .ok (w.succeeds c) := rfl
@[simp] theorem ret_fst {α : Type} (status : Int) : (ret status : M α).1 = [] := rfl
@[simp] theorem ret_snd {α : Type} (status : Int) :
    (ret status : M α).2 = .error (.returned status) := rfl
@[simp] theorem return_if_fst (c : Bool) (status : Int) : (return_if c status).1 = [] := by
  cases c <;> rfl
@[simp] theorem return_if_snd (c : Bool) (status : Int) :
    (return_if c status).2 = if c then .error (.returned status) else .ok () := by
  cases c <;> rfl
@[simp] theorem ite_fst {α : Type} (c : Prop) [Decidable c] (a b : M α) :
    (if c then a else b).1 = if c then a.1 else b.1 := by split <;> rfl
@[simp] theorem ite_snd {α : Type} (c : Prop) [Decidable c] (a b : M α) :
    (if c then a else b).2 = if c then a.2 else b.2 := by split <;> rfl
@[simp] theorem fault_fst {α : Type} (f : Fault) : (fault f : M α).1 = [] := rfl
@[simp] theorem fault_snd {α : Type} (f : Fault) : (fault f : M α).2 = .error (.fault f) := rfl

@[simp] theorem calls_after_ite {α : Type} (c : Prop) [Decidable c] (e : Exit) (a : α)
    (k : α → List Call) :
    calls_after (if c then .error e else .ok a) k = if c then [] else k a := by
  split <;> rfl

@[simp] theorem end_after_ite {α β : Type} (c : Prop) [Decidable c] (e : Exit) (a : α)
    (k : α → Except Exit β) :
    end_after (if c then .error e else .ok a) k = if c then .error e else k a := by
  split <;> rfl

@[simp] theorem for_loop_zero {σ : Type} (body : Nat → σ → M σ) (i : Nat) (s : σ) :
    for_loop body 0 i s = pure s := rfl

theorem for_loop_succ {σ : Type} (body : Nat → σ → M σ) (n i : Nat) (s : σ) :
    for_loop body (n + 1) i s = body i s >>= fun s' => for_loop body n (i + 1) s' := rfl

@[simp] theorem g_main_loop_run_fst (w : World) : (g_main_loop_run w).1 = [.g_main_loop_run] := rfl

@[simp] theorem g_main_loop_run_snd (w : World) :
    (g_main_loop_run w).2 = if w.loop_quits then .ok () else .error .blocked := by
  unfold g_main_loop_run; cases w.loop_quits <;> rfl

theorem main_of_few_arguments (w : World) (argv : List String) (h : argv.length < 2) :
    main w argv = ([], .error (.returned (-1))) := by
  apply Prod.ext
  · simp [main, h]
  · simp [main, h]

/-! ## The failure policy -/

set_option linter.unusedTactic false
set_option linter.unnecessarySeqFocus false
set_option linter.unusedVariables false
set_option linter.unreachableTactic false

theorem M_pure_bind {α β : Type} (a : α) (f : α → M β) : (pure a >>= f) = f a := rfl

theorem M_bind_assoc {α β γ : Type} (m : M α) (f : α → M β) (g : β → M γ) :
    ((m >>= f) >>= g) = (m >>= fun a => f a >>= g) := by
  obtain ⟨t, r⟩ := m
  cases r with
  | error e => rfl
  | ok a =>
    show M.bind (M.bind (t, .ok a) f) g = M.bind (t, .ok a) (fun a => M.bind (f a) g)
    rcases h : f a with ⟨t', r'⟩
    cases r' with
    | error e => simp [M.bind, h]
    | ok b => simp [M.bind, h, List.append_assoc]

theorem M_bind_pure {α : Type} (m : M α) : (m >>= pure) = m := by
  obtain ⟨t, r⟩ := m
  cases r <;> simp [Bind.bind, M.bind, Pure.pure]

theorem calls_after_failure_append (w : World) (t₁ t₂ : List Call) :
    calls_after_failure w (t₁ ++ t₂) =
      match calls_after_failure w t₁ with
      | some rest => some (rest ++ t₂)
      | none => calls_after_failure w t₂ := by
  induction t₁ with
  | nil => rfl
  | cons c t ih =>
    simp only [List.cons_append, calls_after_failure]
    split
    · rfl
    · exact ih

theorem ff_pure (w : World) {α : Type} (a : α) : fails_fast w false (pure a : M α) :=
  ⟨by simp [failure_policy, calls_after_failure]⟩

theorem ff_ret (w : World) {α : Type} (b : Bool) : fails_fast w b (ret (-1) : M α) :=
  ⟨by cases b <;> simp [failure_policy, calls_after_failure]⟩

theorem ff_fault (w : World) {α : Type} (f : Fault) : fails_fast w false (fault f : M α) :=
  ⟨by simp [failure_policy, calls_after_failure]⟩

theorem ff_ret_bind (w : World) {α β : Type} (b : Bool) (k : α → M β) :
    fails_fast w b ((ret (-1) : M α) >>= k) :=
  ⟨by cases b <;> simp [failure_policy, calls_after_failure]⟩

theorem ff_fault_bind (w : World) {α β : Type} (f : Fault) (k : α → M β) :
    fails_fast w false ((fault f : M α) >>= k) :=
  ⟨by simp [failure_policy, calls_after_failure]⟩

theorem ff_pure_bind (w : World) {α β : Type} (b : Bool) (a : α) (k : α → M β)
    (h : fails_fast w b (k a)) : fails_fast w b (pure a >>= k) := by
  rw [M_pure_bind]; exact h

theorem ff_assoc (w : World) {α β γ : Type} (b : Bool) (m : M α) (f : α → M β) (k : β → M γ)
    (h : fails_fast w b (m >>= fun a => f a >>= k)) : fails_fast w b ((m >>= f) >>= k) := by
  rw [M_bind_assoc]; exact h

theorem ff_last (w : World) {α : Type} (b : Bool) (m : M α)
    (h : fails_fast w b (m >>= pure)) : fails_fast w b m := by
  rw [M_bind_pure] at h; exact h

theorem ff_call_pending (w : World) {α : Type} (c : Call) (k : Unit → M α)
    (_hc : construction_step c = false) (hf : follows_failure c = true)
    (h : fails_fast w true (k ())) : fails_fast w true (call c >>= k) := by
  have h := h.policy
  constructor
  simp only [failure_policy, if_true] at h ⊢
  simp [h.1, h.2, hf]

theorem ff_call (w : World) {α : Type} (c : Call) (k : Unit → M α)
    (hc : construction_step c = false)
    (h : fails_fast w false (k ())) : fails_fast w false (call c >>= k) := by
  have h := h.policy
  constructor
  simp only [failure_policy] at h ⊢
  simpa [calls_after_failure, hc] using h

theorem ff_try_pending (w : World) {α : Type} (c : Call) (k : Bool → M α)
    (hf : follows_failure c = true)
    (h : ∀ r, fails_fast w true (k r)) : fails_fast w true (try_call w c >>= k) := by
  have h := (h (w.succeeds c)).policy
  constructor
  simp only [failure_policy, if_true] at h ⊢
  simp [h.1, h.2, hf]

theorem ff_try_step (w : World) {α : Type} (c : Call) (k : Bool → M α)
    (hc : construction_step c = true)
    (h₁ : w.succeeds c = true → fails_fast w false (k true))
    (h₂ : w.succeeds c = false → fails_fast w true (k false)) :
    fails_fast w false (try_call w c >>= k) := by
  constructor
  cases hs : w.succeeds c with
  | true =>
    have h := (h₁ hs).policy
    simp only [failure_policy] at h ⊢
    simpa [calls_after_failure, hc, hs] using h
  | false =>
    have h := (h₂ hs).policy
    simp only [failure_policy, if_true] at h ⊢
    simpa [calls_after_failure, hc, hs] using h

theorem ff_try_other (w : World) {α : Type} (c : Call) (k : Bool → M α)
    (hc : construction_step c = false)
    (h : ∀ r, fails_fast w false (k r)) : fails_fast w false (try_call w c >>= k) := by
  have h := (h (w.succeeds c)).policy
  constructor
  simp only [failure_policy] at h ⊢
  simpa [calls_after_failure, hc] using h

theorem ff_return_if (w : World) {α : Type} (b : Bool) (cond : Bool) (k : Unit → M α)
    (h : cond = false → fails_fast w b (k ())) :
    fails_fast w b (return_if cond (-1) >>= k) := by
  cases cond with
  | true => exact ff_ret_bind w b k
  | false => exact ff_pure_bind w b () k (h rfl)

theorem ff_ite (w : World) {α β : Type} (b : Bool) (c : Prop) [Decidable c] (m₁ m₂ : M α)
    (k : α → M β)
    (h₁ : c → fails_fast w b (m₁ >>= k)) (h₂ : ¬ c → fails_fast w b (m₂ >>= k)) :
    fails_fast w b ((if c then m₁ else m₂) >>= k) := by
  split
  · exact h₁ ‹_›
  · exact h₂ ‹_›

theorem truncate_length_le (n : Nat) (s : String) : (truncate n s).length ≤ n - 1 := by
  show (List.take (n - 1) s.data).length ≤ n - 1
  rw [List.length_take]
  exact Nat.min_le_left _ _

theorem g_snprintf_fits (size n : Nat) (text : String) (hn : 0 < n) (h : n ≤ size) :
    g_snprintf size n text = pure (truncate n text) := by
  have := truncate_length_le n text
  unfold g_snprintf
  rw [if_neg (by omega)]

theorem ff_snprintf (w : World) {α : Type} (b : Bool) (size n : Nat) (text : String)
    (k : String → M α) (hn : 0 < n) (hs : n ≤ size)
    (h : fails_fast w b (k (truncate n text))) :
    fails_fast w b (g_snprintf size n text >>= k) := by
  rw [g_snprintf_fits size n text hn hs]; exact ff_pure_bind w b _ k h

theorem ff_snprintf_any (w : World) {α : Type} (size n : Nat) (text : String)
    (k : String → M α)
    (h : fails_fast w false (k (truncate n text))) :
    fails_fast w false (g_snprintf size n text >>= k) := by
  unfold g_snprintf
  split
  · exact ff_fault_bind w _ k
  · exact ff_pure_bind w false _ k h

theorem ff_bind (w : World) {α β : Type} (m : M α) (k : α → M β)
    (hm : fails_fast w false m) (hk : ∀ a, fails_fast w false (k a)) :
    fails_fast w false (m >>= k) := by
  have hm := hm.policy
  constructor
  obtain ⟨t, r⟩ := m
  cases r with
  | error e =>
    simp only [failure_policy] at hm ⊢
    simpa using hm
  | ok a =>
    have hk := (hk a).policy
    simp only [failure_policy] at hm hk ⊢
    simp only [bind_fst, bind_snd, calls_after_ok, end_after_ok, calls_after_failure_append]
    cases hc : calls_after_failure w t with
    | some rest => simp [hc] at hm
    | none => simpa [hc] using hk

theorem ff_for_loop (w : World) {σ : Type} (body : Nat → σ → M σ)
    (hbody : ∀ i s, fails_fast w false (body i s)) (n i : Nat) (s : σ) :
    fails_fast w false (for_loop body n i s) := by
  induction n generalizing i s with
  | zero => exact ff_pure w s
  | succ n ih =>
    rw [for_loop_succ]
    exact ff_bind w _ _ (hbody i s) (fun s' => ih (i + 1) s')

theorem ff_list_data (w : World) {α : Type} (l : List String) (k : String → M α)
    (h : ∀ data, fails_fast w false (k data)) : fails_fast w false (list_data l >>= k) := by
  cases l with
  | nil => exact ff_fault_bind w _ k
  | cons data rest => exact ff_pure_bind w false data k (h data)

theorem ff_list_next (w : World) {α : Type} (l : List String) (k : List String → M α)
    (h : ∀ next, fails_fast w false (k next)) : fails_fast w false (list_next l >>= k) := by
  cases l with
  | nil => exact ff_fault_bind w _ k
  | cons data rest => exact ff_pure_bind w false rest k (h rest)

theorem ff_argv_at (w : World) {α : Type} (argv : List String) (n : Nat) (k : String → M α)
    (h : ∀ arg, fails_fast w false (k arg)) : fails_fast w false (argv_at argv n >>= k) := by
  unfold argv_at
  cases argv[n]? with
  | none => exact ff_fault_bind w _ k
  | some arg => exact ff_pure_bind w false arg k (h arg)

theorem ff_pure_iff (w : World) {α : Type} (a : α) :
    fails_fast w false (pure a : M α) ↔ True :=
  iff_true_intro (ff_pure w a)

theorem ff_ret_iff (w : World) {α : Type} (b : Bool) :
    fails_fast w b (ret (-1) : M α) ↔ True :=
  iff_true_intro (ff_ret w b)

theorem ff_ret_bind_iff (w : World) {α β : Type} (b : Bool) (k : α → M β) :
    fails_fast w b ((ret (-1) : M α) >>= k) ↔ True :=
  iff_true_intro (ff_ret_bind w b k)

theorem ff_fault_bind_iff (w : World) {α β : Type} (f : Fault) (k : α → M β) :
    fails_fast w false ((fault f : M α) >>= k) ↔ True :=
  iff_true_intro (ff_fault_bind w f k)

theorem ff_fault_iff (w : World) {α : Type} (f : Fault) :
    fails_fast w false (fault f : M α) ↔ True :=
  iff_true_intro (ff_fault w f)

theorem ff_call_iff (w : World) {α : Type} (c : Call) (k : Unit → M α)
    (hc : construction_step c = false) :
    fails_fast w false (call c >>= k) ↔ fails_fast w false (k ()) := by
  constructor
  · intro h
    have h := h.policy
    constructor
    simp only [failure_policy] at h ⊢
    simpa [calls_after_failure, hc] using h
  · exact ff_call w c k hc

theorem ff_call_pending_iff (w : World) {α : Type} (c : Call) (k : Unit → M α)
    (hf : follows_failure c = true) :
    fails_fast w true (call c >>= k) ↔ fails_fast w true (k ()) := by
  constructor
  · intro h
    have h := h.policy
    constructor
    simp only [failure_policy, if_true] at h ⊢
    simpa [hf] using h
  · intro h
    have h := h.policy
    constructor
    simp only [failure_policy, if_true] at h ⊢
    simp [h.1, h.2, hf]

theorem ff_try_step_iff (w : World) {α : Type} (c : Call) (k : Bool → M α)
    (hc : construction_step c = true) :
    fails_fast w false (try_call w c >>= k) ↔
      (w.succeeds c = true → fails_fast w false (k true)) ∧
      (w.succeeds c = false → fails_fast w true (k false)) := by
  constructor
  · intro h
    have h := h.policy
    refine ⟨fun hs => ⟨?_⟩, fun hs => ⟨?_⟩⟩
    · simp only [failure_policy] at h ⊢
      simpa [calls_after_failure, hc, hs] using h
    · simp only [failure_policy, if_true] at h ⊢
      simpa [calls_after_failure, hc, hs] using h
  · rintro ⟨h₁, h₂⟩
    exact ff_try_step w c k hc h₁ h₂

theorem ff_try_pending_iff (w : World) {α : Type} (c : Call) (k : Bool → M α)
    (hf : follows_failure c = true) :
    fails_fast w true (try_call w c >>= k) ↔ fails_fast w true (k (w.succeeds c)) := by
  constructor
  · intro h
    have h := h.policy
    constructor
    simp only [failure_policy, if_true] at h ⊢
    simpa [hf] using h
  · intro h
    have h := h.policy
    constructor
    simp only [failure_policy, if_true] at h ⊢
    simp [h.1, h.2, hf]

theorem ff_try_other_iff (w : World) {α : Type} (c : Call) (k : Bool → M α)
    (hc : construction_step c = false) :
    fails_fast w false (try_call w c >>= k) ↔ fails_fast w false (k (w.succeeds c)) := by
  constructor
  · intro h
    have h := h.policy
    constructor
    simp only [failure_policy] at h ⊢
    simpa [calls_after_failure, hc] using h
  · intro h
    have h := h.policy
    constructor
    simp only [failure_policy] at h ⊢
    simpa [calls_after_failure, hc] using h

theorem ff_return_if_iff (w : World) {α : Type} (b : Bool) (cond : Bool) (k : Unit → M α) :
    fails_fast w b (return_if cond (-1) >>= k) ↔ (cond = false → fails_fast w b (k ())) := by
  cases cond with
  | true => simpa using ff_ret_bind w b k
  | false => simp [return_if, M_pure_bind]

theorem ff_ite_iff (w : World) {α β : Type} (b : Bool) (c : Prop) [Decidable c] (m₁ m₂ : M α)
    (k : α → M β) :
    fails_fast w b ((if c then m₁ else m₂) >>= k) ↔
      (c → fails_fast w b (m₁ >>= k)) ∧ (¬ c → fails_fast w b (m₂ >>= k)) := by
  split <;> simp [*]

theorem ff_snprintf_iff (w : World) {α : Type} (b : Bool) (size n : Nat) (text : String)
    (k : String → M α) (hn : 0 < n) (hs : n ≤ size) :
    fails_fast w b (g_snprintf size n text >>= k) ↔ fails_fast w b (k (truncate n text)) := by
  rw [g_snprintf_fits size n text hn hs, M_pure_bind]

theorem ff_list_data_iff (w : World) {α : Type} (l : List String) (k : String → M α) :
    fails_fast w false (list_data l >>= k) ↔ ∀ data ∈ l.head?, fails_fast w false (k data) := by
  cases l with
  | nil => simpa [list_data] using ff_fault_bind w Fault.null_src_list k
  | cons data rest => simp [list_data, M_pure_bind]

theorem ff_list_next_iff (w : World) {α : Type} (l : List String) (k : List String → M α) :
    fails_fast w false (list_next l >>= k) ↔ (l ≠ [] → fails_fast w false (k l.tail)) := by
  cases l with
  | nil => simpa [list_next] using ff_fault_bind w Fault.null_src_list k
  | cons data rest => simp [list_next, M_pure_bind]

theorem ff_argv_at_iff (w : World) {α : Type} (argv : List String) (n : Nat) (k : String → M α) :
    fails_fast w false (argv_at argv n >>= k) ↔ ∀ arg ∈ argv[n]?, fails_fast w false (k arg) := by
  unfold argv_at
  cases argv[n]? with
  | none => simpa using ff_fault_bind w Fault.argv_out_of_bounds k
  | some arg => simp [M_pure_bind]

theorem ff_snprintf_any_iff (w : World) {α : Type} (size n : Nat) (text : String)
    (k : String → M α) :
    fails_fast w false (g_snprintf size n text >>= k) ↔
      (¬ size < (truncate n text).length + 1 → fails_fast w false (k (truncate n text))) := by
  unfold g_snprintf
  split
  · simpa [*] using ff_fault_bind w Fault.buffer_overflow k
  · simp [*, M_pure_bind]

theorem ff_main_pipeline (w : World) :
    fails_fast w false (main_pipeline w) := by
  apply ff_last
  simp only [main_pipeline, M_bind_assoc, M_pure_bind]
  simp [M_bind_assoc, M_pure_bind, ff_call_iff, ff_call_pending_iff, ff_try_step_iff, ff_try_pending_iff, ff_try_other_iff,
    ff_return_if_iff, ff_ite_iff, ff_snprintf_iff, ff_snprintf_any_iff, ff_pure_iff, ff_ret_iff,
    ff_ret_bind_iff, ff_fault_bind_iff, ff_fault_iff, ff_list_data_iff, ff_list_next_iff,
    ff_argv_at_iff, construction_step, creates_element, links_pads, follows_failure,
    -bind_fst, -bind_snd]

theorem ff_main_elements (w : World) (argv : List String) (n : Nat) :
    fails_fast w false (main_elements w argv n) := by
  apply ff_last
  simp only [main_elements, M_bind_assoc, M_pure_bind]
  simp [M_bind_assoc, M_pure_bind, ff_call_iff, ff_call_pending_iff, ff_try_step_iff, ff_try_pending_iff, ff_try_other_iff,
    ff_return_if_iff, ff_ite_iff, ff_snprintf_iff, ff_snprintf_any_iff, ff_pure_iff, ff_ret_iff,
    ff_ret_bind_iff, ff_fault_bind_iff, ff_fault_iff, ff_list_data_iff, ff_list_next_iff,
    ff_argv_at_iff, construction_step, creates_element, links_pads, follows_failure,
    -bind_fst, -bind_snd]

theorem ff_main_server (w : World) :
    fails_fast w false (main_server w) := by
  apply ff_last
  simp only [main_server, M_bind_assoc, M_pure_bind]
  simp [M_bind_assoc, M_pure_bind, ff_call_iff, ff_call_pending_iff, ff_try_step_iff, ff_try_pending_iff, ff_try_other_iff,
    ff_return_if_iff, ff_ite_iff, ff_snprintf_iff, ff_snprintf_any_iff, ff_pure_iff, ff_ret_iff,
    ff_ret_bind_iff, ff_fault_bind_iff, ff_fault_iff, ff_list_data_iff, ff_list_next_iff,
    ff_argv_at_iff, construction_step, creates_element, links_pads, follows_failure,
    -bind_fst, -bind_snd]

theorem ff_main_source_loop_body (w : World) (p : Bool) (argv : List String) (i : Nat)
    (src_list : List String) :
    fails_fast w false (main_source_loop_body w p argv i src_list) := by
  apply ff_last
  simp only [main_source_loop_body, create_source_bin, M_bind_assoc, M_pure_bind]
  simp [M_bind_assoc, M_pure_bind, ff_call_iff, ff_call_pending_iff, ff_try_step_iff, ff_try_pending_iff, ff_try_other_iff,
    ff_return_if_iff, ff_ite_iff, ff_snprintf_iff, ff_snprintf_any_iff, ff_pure_iff, ff_ret_iff,
    ff_ret_bind_iff, ff_fault_bind_iff, ff_fault_iff, ff_list_data_iff, ff_list_next_iff,
    ff_argv_at_iff, construction_step, creates_element, links_pads, follows_failure,
    -bind_fst, -bind_snd]

theorem ff_main_branch_loop_body (w : World) (argv : List String) (integrated : Bool) (i : Nat)
    (vars : Bool × Bool) :
    fails_fast w false (main_branch_loop_body w argv integrated i vars) := by
  apply ff_last
  simp only [main_branch_loop_body, M_bind_assoc, M_pure_bind]
  simp [M_bind_assoc, M_pure_bind, ff_call_iff, ff_call_pending_iff, ff_try_step_iff, ff_try_pending_iff, ff_try_other_iff,
    ff_return_if_iff, ff_ite_iff, ff_snprintf_iff, ff_snprintf_any_iff, ff_pure_iff, ff_ret_iff,
    ff_ret_bind_iff, ff_fault_bind_iff, ff_fault_iff, ff_list_data_iff, ff_list_next_iff,
    ff_argv_at_iff, construction_step, creates_element, links_pads, follows_failure,
    -bind_fst, -bind_snd]

theorem ff_main_mount_loop_body (w : World) (i : Nat) (mounts : Option Obj) :
    fails_fast w false (main_mount_loop_body i mounts) := by
  apply ff_last
  simp only [main_mount_loop_body, M_bind_assoc, M_pure_bind]
  simp [M_bind_assoc, M_pure_bind, ff_call_iff, ff_call_pending_iff, ff_try_step_iff, ff_try_pending_iff, ff_try_other_iff,
    ff_return_if_iff, ff_ite_iff, ff_snprintf_iff, ff_snprintf_any_iff, ff_pure_iff, ff_ret_iff,
    ff_ret_bind_iff, ff_fault_bind_iff, ff_fault_iff, ff_list_data_iff, ff_list_next_iff,
    ff_argv_at_iff, construction_step, creates_element, links_pads, follows_failure,
    -bind_fst, -bind_snd]


/-! ## Which calls a piece of `main` makes -/

theorem ac_pure_iff {α : Type} (p : Call → Bool) (a : α) :
    all_calls p (pure a : M α) ↔ True :=
  iff_true_intro ⟨by simp⟩

theorem ac_ret_bind_iff {α β : Type} (p : Call → Bool) (status : Int) (k : α → M β) :
    all_calls p ((ret status : M α) >>= k) ↔ True :=
  iff_true_intro ⟨by simp⟩

theorem ac_fault_bind_iff {α β : Type} (p : Call → Bool) (f : Fault) (k : α → M β) :
    all_calls p ((fault f : M α) >>= k) ↔ True :=
  iff_true_intro ⟨by simp⟩

theorem ac_call_iff {α : Type} (p : Call → Bool) (c : Call) (k : Unit → M α) :
    all_calls p (call c >>= k) ↔ p c = true ∧ all_calls p (k ()) := by
  constructor
  · intro h
    have h := h.all
    simp only [bind_fst, call_fst, call_snd, calls_after_ok] at h
    exact ⟨h c (by simp), ⟨fun d hd => h d (by simp [hd])⟩⟩
  · rintro ⟨hc, hk⟩
    constructor
    intro d hd
    simp only [bind_fst, call_fst, call_snd, calls_after_ok, List.singleton_append,
      List.mem_cons] at hd
    rcases hd with rfl | hd
    · exact hc
    · exact hk.all d hd

theorem ac_try_iff {α : Type} (p : Call → Bool) (w : World) (c : Call) (k : Bool → M α) :
    all_calls p (try_call w c >>= k) ↔ p c = true ∧ all_calls p (k (w.succeeds c)) := by
  constructor
  · intro h
    have h := h.all
    simp only [bind_fst, try_call_fst, try_call_snd, calls_after_ok] at h
    exact ⟨h c (by simp), ⟨fun d hd => h d (by simp [hd])⟩⟩
  · rintro ⟨hc, hk⟩
    constructor
    intro d hd
    simp only [bind_fst, try_call_fst, try_call_snd, calls_after_ok, List.singleton_append,
      List.mem_cons] at hd
    rcases hd with rfl | hd
    · exact hc
    · exact hk.all d hd

theorem ac_return_if_iff {α : Type} (p : Call → Bool) (cond : Bool) (status : Int)
    (k : Unit → M α) :
    all_calls p (return_if cond status >>= k) ↔ (cond = false → all_calls p (k ())) := by
  cases cond with
  | true => simpa using (ac_ret_bind_iff p status k).2 trivial
  | false => simp [return_if, M_pure_bind]

theorem ac_ite_iff {α β : Type} (p : Call → Bool) (c : Prop) [Decidable c] (m₁ m₂ : M α)
    (k : α → M β) :
    all_calls p ((if c then m₁ else m₂) >>= k) ↔
      (c → all_calls p (m₁ >>= k)) ∧ (¬ c → all_calls p (m₂ >>= k)) := by
  split <;> simp [*]

theorem ac_snprintf_iff {α : Type} (p : Call → Bool) (size n : Nat) (text : String)
    (k : String → M α) :
    all_calls p (g_snprintf size n text >>= k) ↔
      (¬ size < (truncate n text).length + 1 → all_calls p (k (truncate n text))) := by
  unfold g_snprintf
  split
  · simpa [*] using (ac_fault_bind_iff p Fault.buffer_overflow k).2 trivial
  · simp [*, M_pure_bind]

theorem ac_list_data_iff {α : Type} (p : Call → Bool) (l : List String) (k : String → M α) :
    all_calls p (list_data l >>= k) ↔ ∀ data ∈ l.head?, all_calls p (k data) := by
  cases l with
  | nil => simpa [list_data] using (ac_fault_bind_iff p Fault.null_src_list k).2 trivial
  | cons data rest => simp [list_data, M_pure_bind]

theorem ac_list_next_iff {α : Type} (p : Call → Bool) (l : List String)
    (k : List String → M α) :
    all_calls p (list_next l >>= k) ↔ (l ≠ [] → all_calls p (k l.tail)) := by
  cases l with
  | nil => simpa [list_next] using (ac_fault_bind_iff p Fault.null_src_list k).2 trivial
  | cons data rest => simp [list_next, M_pure_bind]

theorem ac_argv_at_iff {α : Type} (p : Call → Bool) (argv : List String) (n : Nat)
    (k : String → M α) :
    all_calls p (argv_at argv n >>= k) ↔ ∀ arg ∈ argv[n]?, all_calls p (k arg) := by
  unfold argv_at
  cases argv[n]? with
  | none => simpa using (ac_fault_bind_iff p Fault.argv_out_of_bounds k).2 trivial
  | some arg => simp [M_pure_bind]

theorem ac_loop_run_iff {α : Type} (p : Call → Bool) (w : World) (k : Unit → M α) :
    all_calls p (g_main_loop_run w >>= k) ↔
      p .g_main_loop_run = true ∧ (w.loop_quits = true → all_calls p (k ())) := by
  constructor
  · intro h
    have h := h.all
    refine ⟨h _ (by simp), fun hq => ⟨fun d hd => h d ?_⟩⟩
    simp [hq, hd]
  · rintro ⟨hc, hk⟩
    constructor
    intro d hd
    cases hq : w.loop_quits with
    | true =>
      simp only [bind_fst, g_main_loop_run_fst, g_main_loop_run_snd, hq, if_true, calls_after_ok,
        List.singleton_append, List.mem_cons] at hd
      rcases hd with rfl | hd
      · exact hc
      · exact (hk hq).all d hd
    | false =>
      simp [hq] at hd
      rw [hd]; exact hc

theorem ac_last {α : Type} (p : Call → Bool) (m : M α)
    (h : all_calls p (m >>= pure)) : all_calls p m := by
  rw [M_bind_pure] at h; exact h

theorem ac_bind {α β : Type} (p : Call → Bool) (m : M α) (k : α → M β)
    (hm : all_calls p m) (hk : ∀ a, all_calls p (k a)) : all_calls p (m >>= k) := by
  constructor
  intro c hc
  rw [bind_fst, List.mem_append] at hc
  rcases hc with hc | hc
  · exact hm.all c hc
  · cases hr : m.2 with
    | error e => simp [hr] at hc
    | ok a =>
      rw [hr] at hc
      exact (hk a).all c hc

theorem ac_for_loop {σ : Type} (p : Call → Bool) (body : Nat → σ → M σ)
    (hbody : ∀ i s, all_calls p (body i s)) (n i : Nat) (s : σ) :
    all_calls p (for_loop body n i s) := by
  induction n generalizing i s with
  | zero => exact (ac_pure_iff p s).2 trivial
  | succ n ih =>
    rw [for_loop_succ]
    exact ac_bind p _ _ (hbody i s) (fun s' => ih (i + 1) s')

theorem ac_main_pipeline (w : World) :
    all_calls (besides no_call) (main_pipeline w) := by
  apply ac_last
  simp only [main_pipeline, M_bind_assoc, M_pure_bind]
  simp [M_bind_assoc, M_pure_bind, ac_pure_iff, ac_ret_bind_iff, ac_fault_bind_iff, ac_call_iff,
    ac_try_iff, ac_return_if_iff, ac_ite_iff, ac_snprintf_iff, ac_list_data_iff, ac_list_next_iff,
    ac_argv_at_iff, ac_loop_run_iff, besides, no_call, sets_playing, source_step, sets_sink_port,
    mount_step, -bind_fst, -bind_snd]

theorem ac_main_elements (w : World) (argv : List String) (n : Nat) :
    all_calls (besides no_call) (main_elements w argv n) := by
  apply ac_last
  simp only [main_elements, M_bind_assoc, M_pure_bind]
  simp [M_bind_assoc, M_pure_bind, ac_pure_iff, ac_ret_bind_iff, ac_fault_bind_iff, ac_call_iff,
    ac_try_iff, ac_return_if_iff, ac_ite_iff, ac_snprintf_iff, ac_list_data_iff, ac_list_next_iff,
    ac_argv_at_iff, ac_loop_run_iff, besides, no_call, sets_playing, source_step, sets_sink_port,
    mount_step, -bind_fst, -bind_snd]

theorem ac_main_server (w : World) :
    all_calls (besides no_call) (main_server w) := by
  apply ac_last
  simp only [main_server, M_bind_assoc, M_pure_bind]
  simp [M_bind_assoc, M_pure_bind, ac_pure_iff, ac_ret_bind_iff, ac_fault_bind_iff, ac_call_iff,
    ac_try_iff, ac_return_if_iff, ac_ite_iff, ac_snprintf_iff, ac_list_data_iff, ac_list_next_iff,
    ac_argv_at_iff, ac_loop_run_iff, besides, no_call, sets_playing, source_step, sets_sink_port,
    mount_step, -bind_fst, -bind_snd]

theorem ac_main_source_loop_body (w : World) (p : Bool) (argv : List String) (i : Nat)
    (src_list : List String) :
    all_calls (besides source_step) (main_source_loop_body w p argv i src_list) := by
  apply ac_last
  simp only [main_source_loop_body, create_source_bin, M_bind_assoc, M_pure_bind]
  simp [M_bind_assoc, M_pure_bind, ac_pure_iff, ac_ret_bind_iff, ac_fault_bind_iff, ac_call_iff,
    ac_try_iff, ac_return_if_iff, ac_ite_iff, ac_snprintf_iff, ac_list_data_iff, ac_list_next_iff,
    ac_argv_at_iff, ac_loop_run_iff, besides, no_call, sets_playing, source_step, sets_sink_port,
    mount_step, -bind_fst, -bind_snd]

theorem ac_main_branch_loop_body (w : World) (argv : List String) (integrated : Bool) (i : Nat)
    (vars : Bool × Bool) :
    all_calls (besides sets_sink_port) (main_branch_loop_body w argv integrated i vars) := by
  apply ac_last
  simp only [main_branch_loop_body, M_bind_assoc, M_pure_bind]
  simp [M_bind_assoc, M_pure_bind, ac_pure_iff, ac_ret_bind_iff, ac_fault_bind_iff, ac_call_iff,
    ac_try_iff, ac_return_if_iff, ac_ite_iff, ac_snprintf_iff, ac_list_data_iff, ac_list_next_iff,
    ac_argv_at_iff, ac_loop_run_iff, besides, no_call, sets_playing, source_step, sets_sink_port,
    mount_step, -bind_fst, -bind_snd]

theorem ac_main_mount_loop_body (i : Nat) (mounts : Option Obj) :
    all_calls (besides mount_step) (main_mount_loop_body i mounts) := by
  apply ac_last
  simp only [main_mount_loop_body, M_bind_assoc, M_pure_bind]
  simp [M_bind_assoc, M_pure_bind, ac_pure_iff, ac_ret_bind_iff, ac_fault_bind_iff, ac_call_iff,
    ac_try_iff, ac_return_if_iff, ac_ite_iff, ac_snprintf_iff, ac_list_data_iff, ac_list_next_iff,
    ac_argv_at_iff, ac_loop_run_iff, besides, no_call, sets_playing, source_step, sets_sink_port,
    mount_step, -bind_fst, -bind_snd]

theorem ac_main_play (w : World) :
    all_calls (besides sets_playing) (main_play w) := by
  apply ac_last
  simp only [main_play, M_bind_assoc, M_pure_bind]
  simp [M_bind_assoc, M_pure_bind, ac_pure_iff, ac_ret_bind_iff, ac_fault_bind_iff, ac_call_iff,
    ac_try_iff, ac_return_if_iff, ac_ite_iff, ac_snprintf_iff, ac_list_data_iff, ac_list_next_iff,
    ac_argv_at_iff, ac_loop_run_iff, besides, no_call, sets_playing, source_step, sets_sink_port,
    mount_step, -bind_fst, -bind_snd]

/-! ## Successful iterations -/

@[simp] theorem g_snprintf_fst (size n : Nat) (text : String) :
    (g_snprintf size n text).1 = [] := by
  unfold g_snprintf; split <;> rfl

theorem g_snprintf_snd (size n : Nat) (text : String) :
    (g_snprintf size n text).2 =
      if size < (truncate n text).length + 1 then .error (.fault .buffer_overflow)
      else .ok (truncate n text) := by
  unfold g_snprintf; split <;> rfl

theorem g_snprintf_snd_fits (size n : Nat) (text : String) (hn : 0 < n) (h : n ≤ size) :
    (g_snprintf size n text).2 = .ok (truncate n text) := by
  rw [g_snprintf_fits size n text hn h]; rfl

theorem ite_error_eq_ok_iff {α : Type} (c : Prop) [Decidable c] (e : Exit)
    (x : Except Exit α) (v : α) :
    (if c then .error e else x) = .ok v ↔ ¬ c ∧ x = .ok v := by
  split <;> simp [*]

theorem end_after_ite_gen {α β : Type} (c : Prop) [Decidable c] (a b : Except Exit α)
    (k : α → Except Exit β) :
    end_after (if c then a else b) k = if c then end_after a k else end_after b k := by
  split <;> rfl

theorem calls_after_ite_gen {α : Type} (c : Prop) [Decidable c] (a b : Except Exit α)
    (k : α → List Call) :
    calls_after (if c then a else b) k = if c then calls_after a k else calls_after b k := by
  split <;> rfl

theorem mount_body_ok (i : Nat) (s s' : Option Obj)
    (h : (main_mount_loop_body i s).2 = .ok s') :
    (main_mount_loop_body i s).1.filter mount_step =
      [Call.gst_rtsp_media_factory_set_launch (.factory i)
         (truncate 150 (factory_launch_text ((upd_port + i) % 2 ^ 32) codec)),
       Call.gst_rtsp_mount_points_add_factory (truncate 150 ("/ds-gpu0-" ++ fmt_d i))
         (.factory i)] ∧ s' = some .mounts := by
  simp only [main_mount_loop_body] at h ⊢
  simp [g_snprintf_snd_fits, g_snprintf_snd, ite_error_eq_ok_iff] at h
  have hfit : ¬ 20 < (truncate 150 ("/ds-gpu0-" ++ fmt_d i)).length + 1 := by omega
  simp [g_snprintf_snd_fits, g_snprintf_snd, hfit, h.2, mount_step]

theorem branch_body_ok (w : World) (argv : List String) (integ : Bool) (i : Nat)
    (vars vars' : Bool × Bool)
    (h : (main_branch_loop_body w argv integ i vars).2 = .ok vars') :
    (main_branch_loop_body w argv integ i vars).1.filter sets_sink_port =
      [Call.g_object_set (.sink i) "port" (.uint ((upd_port + i) % 2 ^ 32))] := by
  simp only [main_branch_loop_body] at h ⊢
  by_cases hshared : w.h264_literals_shared = true
  · simp [g_snprintf_snd_fits, ite_error_eq_ok_iff, hshared] at h
    simp [g_snprintf_snd_fits, hshared, h, sets_sink_port]
    split_ifs <;> simp [sets_sink_port]
  · simp [g_snprintf_snd_fits, ite_error_eq_ok_iff, hshared] at h
    obtain ⟨⟨⟨⟨hA, h1⟩, h2⟩, hs⟩, hB1, hB2, hB3, hB4, rfl⟩ := h
    simp [g_snprintf_snd_fits, hshared, hA, h1, h2, hs, hB1, hB2, hB3, hB4, sets_sink_port]
    split_ifs <;> simp [sets_sink_port]

theorem source_body_ok (w : World) (p : Bool) (argv : List String) (i : Nat)
    (src_list src_list' : List String)
    (h : (main_source_loop_body w p argv i src_list).2 = .ok src_list') :
    (main_source_loop_body w p argv i src_list).1.filter source_step =
      [Call.gst_bin_new (.source_bin i) (truncate 15 ("source-bin-" ++ fmt_02d i)),
       Call.gst_element_factory_make (.uri_decode_bin i)
         (if p then "nvurisrcbin" else "uridecodebin") "uri-decode-bin",
       Call.g_object_set (.uri_decode_bin i) "uri"
         (.str (if is_yml argv then src_list.headD "" else argv.getD (i + 1) "")),
       Call.gst_pad_link (.source_bin i) "src" .streammux (truncate 15 ("sink_" ++ fmt_u i))] ∧
    src_list' = (if is_yml argv then src_list.tail else src_list) ∧
    (is_yml argv = true → src_list ≠ []) ∧ (is_yml argv = false → i + 1 < argv.length) := by
  simp only [main_source_loop_body, create_source_bin] at h ⊢
  by_cases hy : is_yml argv = true
  · cases src_list with
    | nil => simp [hy, list_data] at h
    | cons data rest =>
      cases p
      · simp [hy, list_data, list_next, g_snprintf_snd_fits, ite_error_eq_ok_iff, end_after_ite_gen] at h
        simp [hy, list_data, list_next, g_snprintf_snd_fits, h, source_step, calls_after_ite_gen]
      · simp [hy, list_data, list_next, g_snprintf_snd_fits, ite_error_eq_ok_iff, end_after_ite_gen] at h
        simp [hy, list_data, list_next, g_snprintf_snd_fits, h, source_step, calls_after_ite_gen]
  · cases huri : argv[i + 1]? with
    | none => simp [hy, argv_at, huri] at h
    | some uri =>
      have hlt : i + 1 < argv.length := by
        by_contra hc
        rw [List.getElem?_eq_none (by omega)] at huri
        exact absurd huri (by simp)
      cases p
      · simp [hy, argv_at, huri, g_snprintf_snd_fits, ite_error_eq_ok_iff, end_after_ite_gen] at h
        simp [hy, argv_at, huri, g_snprintf_snd_fits, h, source_step, hlt, calls_after_ite_gen]
      · simp [hy, argv_at, huri, g_snprintf_snd_fits, ite_error_eq_ok_iff, end_after_ite_gen] at h
        simp [hy, argv_at, huri, g_snprintf_snd_fits, h, source_step, hlt, calls_after_ite_gen]

/-! ## Successful loops -/

theorem for_loop_filter {σ : Type} (q : Call → Bool) (body : Nat → σ → M σ)
    (g : Nat → σ → List Call) (next : σ → σ)
    (hbody : ∀ i s s', (body i s).2 = .ok s' → (body i s).1.filter q = g i s ∧ s' = next s)
    (n i : Nat) (s s' : σ) (h : (for_loop body n i s).2 = .ok s') :
    (for_loop body n i s).1.filter q = loop_calls g next n i s := by
  induction n generalizing i s with
  | zero => rfl
  | succ n ih =>
    rw [for_loop_succ] at h ⊢
    rw [bind_snd] at h
    rw [bind_fst]
    cases hb : (body i s).2 with
    | error e => rw [hb] at h; simp at h
    | ok s₁ =>
      rw [hb] at h
      obtain ⟨hg, hs⟩ := hbody i s s₁ hb
      subst hs
      simp only [end_after_ok] at h
      simp only [hb, calls_after_ok, List.filter_append, hg, loop_calls, ih (i + 1) (next s) h]

theorem for_loop_filter_const {σ : Type} (q : Call → Bool) (body : Nat → σ → M σ)
    (g : Nat → List Call)
    (hbody : ∀ i s s', (body i s).2 = .ok s' → (body i s).1.filter q = g i)
    (n i : Nat) (s s' : σ) (h : (for_loop body n i s).2 = .ok s') :
    (for_loop body n i s).1.filter q = (List.range n).flatMap (fun k => g (i + k)) := by
  induction n generalizing i s with
  | zero => rfl
  | succ n ih =>
    rw [for_loop_succ] at h ⊢
    rw [bind_snd] at h
    rw [bind_fst]
    cases hb : (body i s).2 with
    | error e => rw [hb] at h; simp at h
    | ok s₁ =>
      rw [hb] at h
      simp only [end_after_ok] at h
      simp only [hb, calls_after_ok, List.filter_append, hbody i s s₁ hb, ih (i + 1) s₁ h]
      rw [List.range_succ_eq_map, List.flatMap_cons, List.flatMap_map]
      congr 1
      apply List.flatMap_congr
      intro k _
      simp only [Function.comp_apply, Nat.succ_eq_add_one]
      congr 1
      omega

theorem loop_calls_eq {σ : Type} (g : Nat → σ → List Call) (next : σ → σ) (n i : Nat) (s : σ) :
    loop_calls g next n i s = (List.range n).flatMap (fun k => g (i + k) (next^[k] s)) := by
  induction n generalizing i s with
  | zero => rfl
  | succ n ih =>
    rw [loop_calls, ih, List.range_succ_eq_map, List.flatMap_cons, List.flatMap_map]
    congr 1
    apply List.flatMap_congr
    intro k _
    simp only [Function.comp_apply, Nat.succ_eq_add_one, Function.iterate_succ_apply]
    congr 1
    omega

theorem iterate_tail (l : List String) (k : Nat) : List.tail^[k] l = l.drop k := by
  induction k generalizing l with
  | zero => rfl
  | succ k ih =>
    rw [Function.iterate_succ_apply, ih]
    cases l with
    | nil => simp
    | cons a l => simp

theorem iterate_id {σ : Type} (s : σ) (k : Nat) : (fun x : σ => x)^[k] s = s := by
  induction k with
  | zero => rfl
  | succ k ih => rw [Function.iterate_succ_apply, ih]

theorem headD_drop (l : List String) (k : Nat) : (l.drop k).headD "" = l.getD k "" := by
  rw [List.headD_eq_head?_getD, List.head?_drop, List.getD_eq_getElem?_getD]

theorem flatMap_single {α β : Type} (f : α → β) (l : List α) :
    l.flatMap (fun k => [f k]) = l.map f := by
  induction l with
  | nil => rfl
  | cons a l ih => rw [List.flatMap_cons, ih]; rfl

theorem mount_loop_calls (n : Nat) (s s' : Option Obj)
    (h : (for_loop main_mount_loop_body n 0 s).2 = .ok s') :
    (for_loop main_mount_loop_body n 0 s).1.filter mount_step =
      (List.range n).flatMap mount_calls := by
  rw [for_loop_filter_const mount_step main_mount_loop_body mount_calls
    (fun i s s' hb => (mount_body_ok i s s' hb).1) n 0 s s' h]
  simp

theorem branch_loop_calls (w : World) (argv : List String) (n : Nat) (s s' : Bool × Bool)
    (h : (for_loop (main_branch_loop_body w argv w.integrated) n 0 s).2 = .ok s') :
    (for_loop (main_branch_loop_body w argv w.integrated) n 0 s).1.filter sets_sink_port =
      (List.range n).map sink_port_call := by
  rw [for_loop_filter_const sets_sink_port _ (fun i => [sink_port_call i])
    (fun i s s' hb => branch_body_ok w argv w.integrated i s s' hb) n 0 s s' h]
  simp only [Nat.zero_add]
  exact flatMap_single sink_port_call (List.range n)

theorem source_loop_calls (w : World) (argv : List String) (n : Nat) (s' : List String)
    (h : (for_loop (main_source_loop_body w (perf_mode w) argv) n 0 (src_list_of w argv)).2 =
      .ok s') :
    (for_loop (main_source_loop_body w (perf_mode w) argv) n 0 (src_list_of w argv)).1.filter
        source_step =
      (List.range n).flatMap (source_calls w argv) := by
  rw [for_loop_filter source_step _
    (fun i s =>
      [ Call.gst_bin_new (.source_bin i) (truncate 15 ("source-bin-" ++ fmt_02d i)),
        Call.gst_element_factory_make (.uri_decode_bin i)
          (if perf_mode w then "nvurisrcbin" else "uridecodebin") "uri-decode-bin",
        Call.g_object_set (.uri_decode_bin i) "uri"
          (.str (if is_yml argv then s.headD "" else argv.getD (i + 1) "")),
        Call.gst_pad_link (.source_bin i) "src" .streammux (truncate 15 ("sink_" ++ fmt_u i)) ])
    (fun s => if is_yml argv then s.tail else s)
    (fun i s s' hb => ⟨(source_body_ok w (perf_mode w) argv i s s' hb).1,
      (source_body_ok w (perf_mode w) argv i s s' hb).2.1⟩) n 0 _ s' h, loop_calls_eq]
  apply List.flatMap_congr
  intro k _
  cases hy : is_yml argv
  · simp [source_calls, uri_of, hy]
  · simp only [source_calls, uri_of, src_list_of, hy, if_true, Nat.zero_add]
    rw [show (fun s : List String => s.tail) = List.tail from rfl, iterate_tail, headD_drop]

/-! ## Runs that reach PLAYING -/

theorem ac_main_sources (w : World) (p : Bool) (argv : List String) :
    all_calls (besides source_step) (main_sources w p argv) := by
  unfold main_sources
  apply ac_bind
  · constructor
    intro c hc
    by_cases hy : is_yml argv = true
    · simp [hy] at hc
      subst hc
      rfl
    · simp [hy] at hc
  · intro a
    apply ac_bind
    · exact ac_for_loop _ _ (ac_main_source_loop_body w p argv) _ _ _
    · intro _; simp [ac_pure_iff]

theorem ac_main_branches (w : World) (argv : List String) (n : Nat) :
    all_calls (besides sets_sink_port) (main_branches w argv n) := by
  unfold main_branches
  apply ac_bind
  · exact ac_for_loop _ _ (ac_main_branch_loop_body w argv w.integrated) _ _ _
  · intro _; simp [ac_pure_iff]

theorem ac_main_mounts (n : Nat) : all_calls (besides mount_step) (main_mounts n) := by
  unfold main_mounts
  apply ac_bind
  · exact ac_for_loop _ _ ac_main_mount_loop_body _ _ _
  · intro a
    constructor
    intro c hc
    cases a with
    | none => simp at hc
    | some o =>
      simp at hc
      subst hc
      rfl

theorem filter_nil_of_all_calls {α : Type} (q own : Call → Bool) (m : M α)
    (h : all_calls (besides own) m) (hq : ∀ c, q c = true → besides own c = false) :
    m.1.filter q = [] := by
  rw [List.filter_eq_nil_iff]
  intro c hc hqc
  have h1 := h.all c hc
  rw [hq c hqc] at h1
  exact Bool.noConfusion h1

theorem not_playing_of_all_calls {α : Type} (own : Call → Bool) (m : M α)
    (h : all_calls (besides own) m) (ho : own set_playing = false) : set_playing ∉ m.1 := by
  intro hc
  have h1 := h.all _ hc
  unfold besides at h1
  rw [ho] at h1
  simp [sets_playing, set_playing] at h1

theorem mem_bind_split {α β : Type} (m : M α) (f : α → M β) (c : Call)
    (hc : c ∈ (m >>= f).1) (hm : c ∉ m.1) :
    ∃ a, m.2 = .ok a ∧ c ∈ (f a).1 ∧ (m >>= f).1 = m.1 ++ (f a).1 := by
  rw [bind_fst] at hc ⊢
  cases hm2 : m.2 with
  | error e => rw [hm2] at hc; simp at hc; exact absurd hc hm
  | ok a =>
    rw [hm2] at hc
    simp only [calls_after_ok, List.mem_append] at hc
    exact ⟨a, rfl, hc.resolve_left hm, by simp⟩

@[simp] theorem calls_after_nil {α : Type} (r : Except Exit α) :
    calls_after r (fun _ => []) = [] := by
  cases r <;> rfl

theorem main_sources_fst (w : World) (p : Bool) (argv : List String) :
    (main_sources w p argv).1 =
      (if is_yml argv then [Call.nvds_parse_source_list (argv.getD 1 "") "source-list"] else []) ++
      (for_loop (main_source_loop_body w p argv) (num_sources_of w argv) 0
        (src_list_of w argv)).1 := by
  unfold main_sources src_list_of
  cases hy : is_yml argv <;> simp

theorem main_sources_snd (w : World) (p : Bool) (argv : List String) (h : (main_sources w p argv).2 = .ok ()) :
    ∃ s, (for_loop (main_source_loop_body w p argv) (num_sources_of w argv) 0
        (src_list_of w argv)).2 = .ok s := by
  unfold main_sources at h
  unfold src_list_of
  cases hy : is_yml argv <;> simp [hy] at h ⊢
  all_goals
    revert h
    cases (for_loop _ _ _ _).2 <;> simp

theorem main_branches_fst (w : World) (argv : List String) (n : Nat) :
    (main_branches w argv n).1 =
      (for_loop (main_branch_loop_body w argv w.integrated) n 0 (false, false)).1 := by
  unfold main_branches
  simp

theorem main_branches_snd (w : World) (argv : List String) (n : Nat)
    (h : (main_branches w argv n).2 = .ok ()) :
    ∃ s, (for_loop (main_branch_loop_body w argv w.integrated) n 0 (false, false)).2 = .ok s := by
  unfold main_branches at h
  simp at h
  revert h
  cases (for_loop _ _ _ _).2 <;> simp

theorem main_mounts_snd (n : Nat) (h : (main_mounts n).2 = .ok ()) :
    ∃ s, (for_loop main_mount_loop_body n 0 none).2 = .ok s ∧
      (main_mounts n).1 = (for_loop main_mount_loop_body n 0 none).1 ++
        [Call.g_object_unref s] := by
  unfold main_mounts at h ⊢
  simp at h ⊢
  revert h
  cases (for_loop main_mount_loop_body n 0 none).2 with
  | error e => simp
  | ok s => cases s <;> simp

theorem filter_false_of_besides (q : Call → Bool)
    (hq : ∀ c, q c = true → besides no_call c = false) (c : Call)
    (hc : besides no_call c = true) : q c = false := by
  cases hqc : q c with
  | false => rfl
  | true => rw [hq c hqc] at hc; exact Bool.noConfusion hc

theorem trace_of_enough_arguments (w : World) (argv : List String) (hl : ¬ argv.length < 2) :
    trace w argv =
      Call.gst_init argv :: (main_after_init w (perf_mode w) (gst_init w argv)).1 := by
  simp [trace, main, hl]

/-- A run in which the pipeline is set to PLAYING has completed its three
loops, and its calls of any of the four kinds are those of the loops and of
the final phase. -/
theorem started_run (w : World) (argv : List String) (h : set_playing ∈ trace w argv) :
    ∃ s v m,
      (for_loop (main_source_loop_body w (perf_mode w) (gst_init w argv))
        (num_sources_of w (gst_init w argv)) 0 (src_list_of w (gst_init w argv))).2 = .ok s ∧
      (for_loop (main_branch_loop_body w (gst_init w argv) w.integrated)
        (num_sources_of w (gst_init w argv)) 0 (false, false)).2 = .ok v ∧
      (for_loop main_mount_loop_body (num_sources_of w (gst_init w argv)) 0 none).2 = .ok m ∧
      ∀ q : Call → Bool, (∀ c, q c = true → besides no_call c = false) →
        (trace w argv).filter q =
          (for_loop (main_source_loop_body w (perf_mode w) (gst_init w argv))
            (num_sources_of w (gst_init w argv)) 0 (src_list_of w (gst_init w argv))).1.filter q ++
          (for_loop (main_branch_loop_body w (gst_init w argv) w.integrated)
            (num_sources_of w (gst_init w argv)) 0 (false, false)).1.filter q ++
          (for_loop main_mount_loop_body (num_sources_of w (gst_init w argv)) 0 none).1.filter q ++
          (main_play w).1.filter q := by
  by_cases hl : argv.length < 2
  · simp [trace, main, hl] at h
  rw [trace_of_enough_arguments w argv hl] at h ⊢
  have h0 : set_playing ∈ (main_after_init w (perf_mode w) (gst_init w argv)).1 := by
    rcases List.mem_cons.mp h with h | h
    · exact absurd h (by simp [set_playing])
    · exact h
  simp only [main_after_init] at h0 ⊢
  obtain ⟨_, h1, hc1, e1⟩ := mem_bind_split _ _ _ h0
    (not_playing_of_all_calls _ _ (ac_main_pipeline w) rfl)
  obtain ⟨_, h2, hc2, e2⟩ := mem_bind_split _ _ _ hc1
    (not_playing_of_all_calls _ _ (ac_main_sources w _ _) rfl)
  obtain ⟨_, h3, hc3, e3⟩ := mem_bind_split _ _ _ hc2
    (not_playing_of_all_calls _ _ (ac_main_elements w _ _) rfl)
  obtain ⟨_, h4, hc4, e4⟩ := mem_bind_split _ _ _ hc3
    (not_playing_of_all_calls _ _ (ac_main_branches w _ _) rfl)
  obtain ⟨_, h5, hc5, e5⟩ := mem_bind_split _ _ _ hc4
    (not_playing_of_all_calls _ _ (ac_main_server w) rfl)
  obtain ⟨_, h6, hc6, e6⟩ := mem_bind_split _ _ _ hc5
    (not_playing_of_all_calls _ _ (ac_main_mounts _) rfl)
  obtain ⟨s, hs⟩ := main_sources_snd w _ _ h2
  obtain ⟨v, hv⟩ := main_branches_snd w _ _ h4
  obtain ⟨m, hm, em⟩ := main_mounts_snd _ h6
  refine ⟨s, v, m, hs, hv, hm, ?_⟩
  intro q hq
  rw [e1, e2, e3, e4, e5, e6, em, main_sources_fst, main_branches_fst]
  have p1 := filter_nil_of_all_calls q no_call _ (ac_main_pipeline w) hq
  have p3 := filter_nil_of_all_calls q no_call _
    (ac_main_elements w (gst_init w argv) (num_sources_of w (gst_init w argv))) hq
  have p5 := filter_nil_of_all_calls q no_call _ (ac_main_server w) hq
  have g0 := filter_false_of_besides q hq (Call.gst_init argv) rfl
  have g1 := filter_false_of_besides q hq (Call.g_object_unref m) rfl
  have g2 := filter_false_of_besides q hq
    (Call.nvds_parse_source_list ((gst_init w argv).getD 1 "") "source-list") rfl
  rw [List.filter_cons, g0]
  simp only [List.filter_append, p1, p3, p5, List.filter_cons, g1, List.filter_nil]
  cases is_yml (gst_init w argv)
  · simp
  · simp only [if_true, List.filter_cons, g2, List.filter_nil]
    simp

/-! ## The failure policy on `main` -/

theorem calls_after_failure_none (w : World) (t : List Call)
    (h : ∀ c ∈ t, construction_step c = false) : calls_after_failure w t = none := by
  induction t with
  | nil => rfl
  | cons c t ih =>
    simp only [calls_after_failure, h c (List.mem_cons_self c t), Bool.false_and]
    exact ih (fun d hd => h d (List.mem_cons_of_mem c hd))

theorem ff_of_no_construction (w : World) {α : Type} (m : M α)
    (h : all_calls (fun c => !construction_step c) m) : fails_fast w false m := by
  constructor
  simp only [failure_policy]
  rw [calls_after_failure_none w m.1 (fun c hc => by simpa using h.all c hc)]
  simp

theorem ff_main_play (w : World) : fails_fast w false (main_play w) := by
  apply ff_of_no_construction
  apply ac_last
  simp only [main_play, M_bind_assoc, M_pure_bind]
  simp [M_bind_assoc, M_pure_bind, ac_pure_iff, ac_call_iff, ac_try_iff, ac_ite_iff,
    ac_loop_run_iff, construction_step, creates_element, links_pads, -bind_fst, -bind_snd]

theorem ff_main_sources (w : World) (p : Bool) (argv : List String) :
    fails_fast w false (main_sources w p argv) := by
  unfold main_sources
  apply ff_bind
  · apply ff_of_no_construction
    constructor
    intro c hc
    by_cases hy : is_yml argv = true
    · simp [hy] at hc
      subst hc
      rfl
    · simp [hy] at hc
  · intro a
    apply ff_bind
    · exact ff_for_loop w _ (ff_main_source_loop_body w p argv) _ _ _
    · intro _; exact ff_pure w ()

theorem ff_main_branches (w : World) (argv : List String) (n : Nat) :
    fails_fast w false (main_branches w argv n) := by
  unfold main_branches
  apply ff_bind
  · exact ff_for_loop w _ (ff_main_branch_loop_body w argv w.integrated) _ _ _
  · intro _; exact ff_pure w ()

theorem ff_main_mounts (w : World) (n : Nat) : fails_fast w false (main_mounts n) := by
  unfold main_mounts
  apply ff_bind
  · exact ff_for_loop w _ (ff_main_mount_loop_body w) _ _ _
  · intro a
    cases a with
    | none => exact ff_fault w _
    | some o =>
      apply ff_of_no_construction
      constructor
      intro c hc
      simp at hc
      subst hc
      rfl

theorem ff_main_after_init (w : World) (p : Bool) (argv : List String) :
    fails_fast w false (main_after_init w p argv) := by
  unfold main_after_init
  refine ff_bind w _ _ (ff_main_pipeline w) (fun _ => ?_)
  refine ff_bind w _ _ (ff_main_sources w p argv) (fun _ => ?_)
  refine ff_bind w _ _ (ff_main_elements w argv _) (fun _ => ?_)
  refine ff_bind w _ _ (ff_main_branches w argv _) (fun _ => ?_)
  refine ff_bind w _ _ (ff_main_server w) (fun _ => ?_)
  exact ff_bind w _ _ (ff_main_mounts w _) (fun _ => ff_main_play w)

theorem ff_main (w : World) (argv : List String) : fails_fast w false (main w argv) := by
  unfold main
  apply ff_return_if
  intro _
  exact ff_call w (Call.gst_init argv) _ rfl (ff_main_after_init w _ _)

theorem calls_after_failure_split (w : World) (pre post : List Call) (c : Call)
    (hc : construction_step c = true) (hf : w.succeeds c = false) :
    ∃ rest, calls_after_failure w (pre ++ c :: post) = some rest ∧ ∀ d ∈ post, d ∈ rest := by
  induction pre with
  | nil => exact ⟨post, by simp [calls_after_failure, hc, hf], fun d hd => hd⟩
  | cons a pre ih =>
    by_cases ha : (construction_step a && !w.succeeds a) = true
    · refine ⟨pre ++ c :: post, by simp [calls_after_failure, ha], fun d hd => ?_⟩
      simp [hd]
    · obtain ⟨rest, hr, hp⟩ := ih
      refine ⟨rest, ?_, hp⟩
      rw [List.cons_append, calls_after_failure, if_neg ha]
      exact hr

/-- Once a construction step has failed, `main` returns -1 and makes only
calls that may follow a failure. -/
theorem main_after_failed_step (w : World) (argv : List String) (pre post : List Call)
    (c : Call) (ht : trace w argv = pre ++ c :: post) (hc : construction_step c = true)
    (hf : w.succeeds c = false) :
    outcome w argv = .error (.returned (-1)) ∧ ∀ d ∈ post, follows_failure d = true := by
  have h := (ff_main w argv).policy
  obtain ⟨rest, hr, hp⟩ := calls_after_failure_split w pre post c hc hf
  simp only [failure_policy] at h
  rw [show (main w argv).1 = trace w argv from rfl, ht, hr] at h
  simp at h
  exact ⟨h.1, fun d hd => h.2 d (hp d hd)⟩

theorem main_play_snd (w : World) :
    (main_play w).2 = if w.loop_quits then .ok 0 else .error .blocked := by
  unfold main_play
  cases hq : w.loop_quits <;> cases hs : w.succeeds (.gst_element_get_static_pad .pgie "src") <;>
    simp [hq, hs]

/-- A run in which the pipeline is set to PLAYING ends as its final phase
does: it returns 0 when the main loop is quit. -/
theorem started_outcome (w : World) (argv : List String) (h : set_playing ∈ trace w argv) :
    outcome w argv = if w.loop_quits then .ok 0 else .error .blocked := by
  by_cases hl : argv.length < 2
  · simp [trace, main, hl] at h
  rw [trace_of_enough_arguments w argv hl] at h
  have h0 : set_playing ∈ (main_after_init w (perf_mode w) (gst_init w argv)).1 := by
    rcases List.mem_cons.mp h with h | h
    · exact absurd h (by simp [set_playing])
    · exact h
  simp only [main_after_init] at h0
  obtain ⟨_, h1, hc1, _⟩ := mem_bind_split _ _ _ h0
    (not_playing_of_all_calls _ _ (ac_main_pipeline w) rfl)
  obtain ⟨_, h2, hc2, _⟩ := mem_bind_split _ _ _ hc1
    (not_playing_of_all_calls _ _ (ac_main_sources w _ _) rfl)
  obtain ⟨_, h3, hc3, _⟩ := mem_bind_split _ _ _ hc2
    (not_playing_of_all_calls _ _ (ac_main_elements w _ _) rfl)
  obtain ⟨_, h4, hc4, _⟩ := mem_bind_split _ _ _ hc3
    (not_playing_of_all_calls _ _ (ac_main_branches w _ _) rfl)
  obtain ⟨_, h5, hc5, _⟩ := mem_bind_split _ _ _ hc4
    (not_playing_of_all_calls _ _ (ac_main_server w) rfl)
  obtain ⟨_, h6, hc6, _⟩ := mem_bind_split _ _ _ hc5
    (not_playing_of_all_calls _ _ (ac_main_mounts _) rfl)
  rw [← main_play_snd]
  simp [outcome, main, main_after_init, hl, h1, h2, h3, h4, h5, h6]

/-! ## Text that fits -/

theorem decimal_digits_length (fuel n : Nat) : (decimal_digits fuel n).length ≤ fuel := by
  induction fuel generalizing n with
  | zero => simp [decimal_digits]
  | succ f ih =>
    unfold decimal_digits
    split
    · simp
    · have := ih (n / 10)
      simp only [List.length_append, List.length_singleton]
      omega

theorem decimal_digits_length_le (fuel : Nat) :
    ∀ k n : Nat, 0 < k → n < 10 ^ k → (decimal_digits fuel n).length ≤ k := by
  induction fuel with
  | zero => intro k n _ _; simp [decimal_digits]
  | succ f ih =>
    intro k n hk hn
    unfold decimal_digits
    split
    · simpa using hk
    · rename_i h10
      have hk2 : 2 ≤ k := by
        by_contra hlt
        have : k = 1 := by omega
        subst this
        omega
      have hdiv : n / 10 < 10 ^ (k - 1) := by
        have hpow : 10 ^ k = 10 ^ (k - 1) * 10 := by
          rw [← Nat.pow_succ]
          congr 1
          omega
        rw [hpow] at hn
        exact Nat.div_lt_of_lt_mul (by omega)
      have := ih (k - 1) (n / 10) (by omega) hdiv
      simp only [List.length_append, List.length_singleton]
      omega

theorem fmt_d_eq_fmt_u (v : Nat) (h : v < 2 ^ 31) : fmt_d v = fmt_u v := by
  have hv : v % 2 ^ 32 = v := Nat.mod_eq_of_lt (by omega)
  unfold fmt_d fmt_u
  rw [hv, if_pos h]

theorem fmt_u_length (v : Nat) : (fmt_u v).length ≤ 10 :=
  decimal_digits_length 10 (v % 2 ^ 32)

theorem fmt_u_length_le (v k : Nat) (hk : 0 < k) (h : v < 10 ^ k) (hv : v < 2 ^ 32) :
    (fmt_u v).length ≤ k := by
  unfold fmt_u
  rw [Nat.mod_eq_of_lt hv]
  exact decimal_digits_length_le 10 k v hk h

theorem truncate_of_short (n : Nat) (s : String) (h : s.length ≤ n - 1) : truncate n s = s := by
  unfold truncate
  rw [List.take_of_length_le h]

theorem mount_path_short (i : Nat) (h : i < 2 ^ 31) :
    truncate 150 ("/ds-gpu0-" ++ fmt_d i) = "/ds-gpu0-" ++ fmt_u i ∧
      ("/ds-gpu0-" ++ fmt_u i).length ≤ 19 := by
  rw [fmt_d_eq_fmt_u i h]
  have h1 := fmt_u_length i
  have h2 : ("/ds-gpu0-" ++ fmt_u i).length ≤ 19 := by
    rw [String.length_append]
    have : "/ds-gpu0-".length = 9 := by decide
    omega
  exact ⟨truncate_of_short 150 _ (by omega), h2⟩

theorem sink_pad_name_short (i : Nat) (h : i < 10 ^ 9) :
    truncate 15 ("sink_" ++ fmt_u i) = "sink_" ++ fmt_u i := by
  apply truncate_of_short
  have h1 := fmt_u_length_le i 9 (by omega) h (by omega)
  rw [String.length_append]
  have : "sink_".length = 5 := by decide
  omega

theorem mount_path_at_sign_bit :
    (truncate 150 ("/ds-gpu0-" ++ fmt_d (2 ^ 31))).length = 20 := by
  decide

/-! ## Runs in which every call succeeds -/

theorem for_loop_succeeds {σ : Type} (body : Nat → σ → M σ) (next : σ → σ)
    (inv : Nat → σ → Prop) (N : Nat)
    (hbody : ∀ i s, i < N → inv i s → (body i s).2 = .ok (next s) ∧ inv (i + 1) (next s)) :
    ∀ n i s, i + n ≤ N → inv i s → (for_loop body n i s).2 = .ok (next^[n] s) := by
  intro n
  induction n with
  | zero => intro i s _ _; rfl
  | succ n ih =>
    intro i s hN hs
    obtain ⟨hb, hi⟩ := hbody i s (by omega) hs
    rw [for_loop_succ, bind_snd, hb, end_after_ok, ih (i + 1) (next s) (by omega) hi,
      Function.iterate_succ_apply]

theorem for_loop_visits {σ : Type} (body : Nat → σ → M σ) :
    ∀ n i s s', (for_loop body n i s).2 = .ok s' →
      ∀ k, k < n → ∃ t t', (body (i + k) t).2 = .ok t' := by
  intro n
  induction n with
  | zero => intro i s s' _ k hk; omega
  | succ n ih =>
    intro i s s' h k hk
    rw [for_loop_succ, bind_snd] at h
    cases hb : (body i s).2 with
    | error e => rw [hb] at h; simp at h
    | ok s₁ =>
      rw [hb, end_after_ok] at h
      cases k with
      | zero => exact ⟨s, s₁, hb⟩
      | succ k =>
        obtain ⟨t, t', ht⟩ := ih (i + 1) s₁ s' h k (by omega)
        exact ⟨t, t', by rw [show i + (k + 1) = i + 1 + k by omega]; exact ht⟩

theorem mount_body_snd (i : Nat) (s : Option Obj) :
    (main_mount_loop_body i s).2 =
      if 20 < (truncate 150 ("/ds-gpu0-" ++ fmt_d i)).length + 1 then
        .error (.fault .buffer_overflow)
      else .ok (some .mounts) := by
  simp only [main_mount_loop_body]
  simp [g_snprintf_snd_fits, g_snprintf_snd]

/-- The mount loop cannot complete more than 2^31 iterations: at index 2^31
the path written with `%d` no longer fits `mount_point_path`. -/
theorem mount_loop_bound (n : Nat) (s s' : Option Obj)
    (h : (for_loop main_mount_loop_body n 0 s).2 = .ok s') : n ≤ 2 ^ 31 := by
  by_contra hn
  obtain ⟨t, t', ht⟩ := for_loop_visits main_mount_loop_body n 0 s s' h (2 ^ 31) (by omega)
  rw [mount_body_snd, Nat.zero_add, mount_path_at_sign_bit] at ht
  simp at ht

theorem mount_body_succeeds (i : Nat) (s : Option Obj) (h : i < 2 ^ 31) :
    (main_mount_loop_body i s).2 = .ok (some .mounts) := by
  rw [mount_body_snd, (mount_path_short i h).1, if_neg]
  have := (mount_path_short i h).2
  omega

theorem branch_body_succeeds (w : World) (argv : List String) (integ : Bool) (i : Nat)
    (vars : Bool × Bool) (H : ∀ c, w.succeeds c = true) (hs : w.h264_literals_shared = true) :
    (main_branch_loop_body w argv integ i vars).2 = .ok (true, true) := by
  simp only [main_branch_loop_body]
  simp [g_snprintf_snd_fits, H, hs]

theorem source_body_succeeds (w : World) (p : Bool) (argv : List String) (i : Nat)
    (src_list : List String) (H : ∀ c, w.succeeds c = true)
    (hy : is_yml argv = true → src_list ≠ [])
    (hn : is_yml argv = false → i + 1 < argv.length) :
    (main_source_loop_body w p argv i src_list).2 =
      .ok (if is_yml argv then src_list.tail else src_list) := by
  simp only [main_source_loop_body, create_source_bin]
  cases hyml : is_yml argv with
  | true =>
    cases src_list with
    | nil => exact absurd rfl (hy hyml)
    | cons a l =>
      cases p <;> simp [g_snprintf_snd_fits, H, list_data, list_next]
  | false =>
    have hlt := hn hyml
    have hsome : argv[i + 1]? = some (argv[i + 1]) := List.getElem?_eq_getElem hlt
    cases p <;> simp [g_snprintf_snd_fits, H, argv_at, hsome]

theorem source_loop_succeeds (w : World) (p : Bool) (argv : List String)
    (H : ∀ c, w.succeeds c = true) :
    ∃ s, (for_loop (main_source_loop_body w p argv) (num_sources_of w argv) 0
      (src_list_of w argv)).2 = .ok s := by
  refine ⟨_, for_loop_succeeds (main_source_loop_body w p argv)
    (fun s => if is_yml argv then s.tail else s)
    (fun i s => is_yml argv = true → num_sources_of w argv - i ≤ s.length)
    (num_sources_of w argv) ?_ (num_sources_of w argv) 0 (src_list_of w argv) (by omega) ?_⟩
  · intro i s hi hinv
    refine ⟨source_body_succeeds w p argv i s H ?_ ?_, ?_⟩
    · intro hy hnil
      have := hinv hy
      rw [hnil] at this
      simp at this
      omega
    · intro hy
      have hle : num_sources_of w argv ≤ argv.length - 1 := by
        simp only [num_sources_of, hy]
        exact Nat.mod_le _ _
      omega
    · intro hy
      have := hinv hy
      simp only [hy, if_true, List.length_tail]
      omega
  · intro hy
    simp only [num_sources_of, src_list_of, hy, if_true]
    exact Nat.le_trans (Nat.sub_le _ _) (Nat.mod_le _ _)

theorem branch_loop_succeeds (w : World) (argv : List String) (n : Nat)
    (H : ∀ c, w.succeeds c = true) (hs : w.h264_literals_shared = true) :
    ∃ v, (for_loop (main_branch_loop_body w argv w.integrated) n 0 (false, false)).2 = .ok v :=
  ⟨_, for_loop_succeeds (main_branch_loop_body w argv w.integrated) (fun _ => (true, true))
    (fun _ _ => True) n
    (fun i s _ _ => ⟨branch_body_succeeds w argv w.integrated i s H hs, trivial⟩)
    n 0 (false, false) (by omega) trivial⟩

theorem mount_loop_succeeds (n : Nat) (h1 : 1 ≤ n) (hn : n ≤ 2 ^ 31) :
    (for_loop main_mount_loop_body n 0 none).2 = .ok (some .mounts) := by
  have h := for_loop_succeeds main_mount_loop_body (fun _ => some Obj.mounts)
    (fun _ _ => True) (2 ^ 31)
    (fun i s hi _ => ⟨mount_body_succeeds i s hi, trivial⟩) n 0 none (by omega) trivial
  rw [h]
  obtain ⟨m, rfl⟩ : ∃ m, n = m + 1 := ⟨n - 1, by omega⟩
  rw [Function.iterate_succ_apply']

theorem main_pipeline_succeeds (w : World) (H : ∀ c, w.succeeds c = true) :
    (main_pipeline w).2 = .ok () := by
  simp [main_pipeline, H]

theorem main_elements_succeeds (w : World) (argv : List String) (n : Nat)
    (H : ∀ c, w.succeeds c = true) : (main_elements w argv n).2 = .ok () := by
  simp only [main_elements]
  cases is_yml argv <;> simp [H] <;> split <;> simp

theorem main_server_succeeds (w : World) (H : ∀ c, w.succeeds c = true) :
    (main_server w).2 = .ok () := by
  simp [main_server, H]

/-- With at least two arguments, at least one source and at most 2^31, every
fallible call succeeding, the two `"H264"` literals shared and the main loop
quit, `main` returns 0. -/
theorem main_succeeds (w : World) (argv : List String) (H : ∀ c, w.succeeds c = true)
    (hs : w.h264_literals_shared = true) (hq : w.loop_quits = true) (hl : 2 ≤ argv.length)
    (h1 : 1 ≤ num_sources_of w (gst_init w argv))
    (hn : num_sources_of w (gst_init w argv) ≤ 2 ^ 31) :
    outcome w argv = .ok 0 := by
  obtain ⟨s, hsrc⟩ := source_loop_succeeds w (perf_mode w) (gst_init w argv) H
  obtain ⟨v, hbr⟩ := branch_loop_succeeds w (gst_init w argv)
    (num_sources_of w (gst_init w argv)) H hs
  have hmt := mount_loop_succeeds _ h1 hn
  have hsrc2 : (main_sources w (perf_mode w) (gst_init w argv)).2 = .ok () := by
    unfold main_sources
    unfold src_list_of at hsrc
    cases hy : is_yml (gst_init w argv) <;> simp [hy] at hsrc ⊢ <;> simp [hsrc]
  have hbr2 : (main_branches w (gst_init w argv) (num_sources_of w (gst_init w argv))).2 =
      .ok () := by
    unfold main_branches
    simp [hbr]
  have hmt2 : (main_mounts (num_sources_of w (gst_init w argv))).2 = .ok () := by
    unfold main_mounts
    simp [hmt]
  have hlt : ¬ argv.length < 2 := by omega
  simp [outcome, main, main_after_init, hlt, main_pipeline_succeeds w H, hsrc2,
    main_elements_succeeds w _ _ H, hbr2, main_server_succeeds w H, hmt2, main_play_snd, hq]

/-- C5. With fewer than two arguments (`argc < 2`) `main` returns -1, a nonzero
status, and has made no library call at all before it returns, so that no
pipeline, muxer, source bin or other element has been constructed. -/
theorem main_rejects_missing_arguments (w : World) (argv : List String)
    (h : argv.length < 2) :
    outcome w argv = .error (.returned (-1)) ∧ (-1 : Int) ≠ 0 ∧
    trace w argv = [] ∧ ∀ c ∈ trace w argv, creates_element c = false := by
  simp [outcome, trace, main_of_few_arguments w argv h]

/-- Witness of C5: the program started without any source argument. -/
theorem main_rejects_missing_arguments_witness :
    ["deepstream-custom-app"].length < 2 ∧
    (outcome world_all_ok ["deepstream-custom-app"] = .error (.returned (-1)) ∧ (-1 : Int) ≠ 0 ∧
     trace world_all_ok ["deepstream-custom-app"] = [] ∧
     ∀ c ∈ trace world_all_ok ["deepstream-custom-app"], creates_element c = false) :=
  ⟨by decide, main_rejects_missing_arguments world_all_ok ["deepstream-custom-app"] (by decide)⟩

/-- C6 fails on the code. With `argv = [app, sources.yml]` and a descriptor
that yields no source entry, `main` does not return a nonzero status with no
element constructed: the pipeline and the stream muxer have been created
before `argv[1]` is looked at, and `main` goes on to create the shared
elements. -/
theorem main_accepts_empty_source_list :
    2 ≤ ["deepstream-custom-app", "sources.yml"].length ∧
    is_yml (gst_init world_empty_list ["deepstream-custom-app", "sources.yml"]) = true ∧
    world_empty_list.source_list "sources.yml" "source-list" = [] ∧
    Call.gst_pipeline_new "dscustom-pipeline" ∈
      trace world_empty_list ["deepstream-custom-app", "sources.yml"] ∧
    Call.gst_element_factory_make .queue "queue" "queue" ∈
      trace world_empty_list ["deepstream-custom-app", "sources.yml"] ∧
    ¬ ((∃ status : Int, status ≠ 0 ∧
          outcome world_empty_list ["deepstream-custom-app", "sources.yml"] =
            .error (.returned status)) ∧
       ∀ c ∈ trace world_empty_list ["deepstream-custom-app", "sources.yml"],
          creates_element c = false) := by
  refine ⟨by decide, by decide, by decide, by decide, by decide, ?_⟩
  rintro ⟨-, hnone⟩
  have hmem : Call.gst_pipeline_new "dscustom-pipeline" ∈
      trace world_empty_list ["deepstream-custom-app", "sources.yml"] := by decide
  exact absurd (hnone _ hmem) (by decide)

/-- C6 as amended. With two or more arguments `main` does not validate what
they describe: its first library calls are always `gst_init`, the creation of
the main loop, of the pipeline and of the `nvstreammux` element, made before
`argv[1]` is examined. When `argv[1]` ends in `.yml` or `.yaml` and the
descriptor yields no source entry, no source bin is created, and once
pipeline and muxer exist `main` goes on to create the shared elements. -/
theorem main_constructs_before_reading_arguments (w : World) (argv : List String)
    (h : 2 ≤ argv.length) :
    (∃ rest, trace w argv =
      [Call.gst_init argv, .g_main_loop_new, .gst_pipeline_new "dscustom-pipeline",
       .gst_element_factory_make .streammux "nvstreammux" "stream-muxer"] ++ rest) ∧
    (is_yml (gst_init w argv) = true →
     w.source_list ((gst_init w argv).getD 1 "") "source-list" = [] →
      (∀ bin name, Call.gst_bin_new bin name ∉ trace w argv) ∧
      (w.succeeds (.gst_pipeline_new "dscustom-pipeline") = true →
       w.succeeds (.gst_element_factory_make .streammux "nvstreammux" "stream-muxer") = true →
        Call.gst_element_factory_make .queue "queue" "queue" ∈ trace w argv)) := by
  have h' : ¬ argv.length < 2 := by omega
  refine ⟨by simp [trace, main, main_after_init, main_pipeline, h'], ?_⟩
  intro hy hl
  have hn : num_sources_of w (gst_init w argv) = 0 := by
    simp only [num_sources_of, hy, hl]; rfl
  refine ⟨?_, ?_⟩
  · intro bin name
    simp only [trace, main, main_after_init, main_pipeline, main_sources, main_elements,
      main_branches, main_server, main_mounts, main_play, h', hn, hy, hl]
    simp
    split_ifs <;> simp
  · intro hp hm
    simp only [trace, main, main_after_init, main_pipeline, main_sources, main_elements,
      main_branches, main_server, main_mounts, main_play, h', hn, hy, hl]
    simp [hp, hm]

/-- Witness of C6 as amended: a command line that names an empty descriptor. -/
theorem main_constructs_before_reading_arguments_witness :
    2 ≤ ["deepstream-custom-app", "sources.yml"].length ∧
    is_yml (gst_init world_empty_list ["deepstream-custom-app", "sources.yml"]) = true ∧
    world_empty_list.source_list
        ((gst_init world_empty_list ["deepstream-custom-app", "sources.yml"]).getD 1 "")
        "source-list" = [] ∧
    (∃ rest, trace world_empty_list ["deepstream-custom-app", "sources.yml"] =
      [Call.gst_init ["deepstream-custom-app", "sources.yml"], .g_main_loop_new,
       .gst_pipeline_new "dscustom-pipeline",
       .gst_element_factory_make .streammux "nvstreammux" "stream-muxer"] ++ rest) ∧
    (∀ bin name, Call.gst_bin_new bin name ∉
        trace world_empty_list ["deepstream-custom-app", "sources.yml"]) ∧
    Call.gst_element_factory_make .queue "queue" "queue" ∈
        trace world_empty_list ["deepstream-custom-app", "sources.yml"] :=
  ⟨by decide, by decide, by decide,
   (main_constructs_before_reading_arguments world_empty_list
     ["deepstream-custom-app", "sources.yml"] (by decide)).1,
   ((main_constructs_before_reading_arguments world_empty_list
     ["deepstream-custom-app", "sources.yml"] (by decide)).2 (by decide) (by decide)).1,
   ((main_constructs_before_reading_arguments world_empty_list
     ["deepstream-custom-app", "sources.yml"] (by decide)).2 (by decide) (by decide)).2
      (by decide) (by decide)⟩

/-! ## Runs that start: mounts, ports and sources -/

theorem mount_not_source (c : Call) (h : mount_step c = true) : source_step c = false := by
  cases c <;> first | exact Bool.noConfusion h | rfl

theorem mount_not_port (c : Call) (h : mount_step c = true) : sets_sink_port c = false := by
  cases c <;> first | exact Bool.noConfusion h | rfl

theorem mount_not_playing (c : Call) (h : mount_step c = true) : sets_playing c = false := by
  cases c <;> first | exact Bool.noConfusion h | rfl

theorem port_not_source (c : Call) (h : sets_sink_port c = true) : source_step c = false := by
  cases c with
  | g_object_set o p v => cases o <;> first | exact Bool.noConfusion h | rfl
  | _ => exact Bool.noConfusion h

theorem port_not_playing (c : Call) (h : sets_sink_port c = true) : sets_playing c = false := by
  cases c with
  | g_object_set o p v => rfl
  | _ => exact Bool.noConfusion h

theorem playing_not_source (c : Call) (h : sets_playing c = true) : source_step c = false := by
  cases c with
  | gst_element_set_state o s => rfl
  | _ => exact Bool.noConfusion h

theorem not_of_imp_not (p q : Call → Bool) (h : ∀ c, p c = true → q c = false) (c : Call)
    (hq : q c = true) : p c = false := by
  cases hp : p c with
  | false => rfl
  | true => rw [h c hp] at hq; exact Bool.noConfusion hq

theorem besides_of_kind (own q : Call → Bool) (c : Call) (hq : q c = true)
    (hown : own c = false)
    (hkind : q c = true →
      (sets_playing c || source_step c || sets_sink_port c || mount_step c) = true) :
    besides own c = false := by
  unfold besides
  rw [hown, hkind hq]
  rfl

theorem mount_step_elsewhere (own : Call → Bool) (c : Call) (h : mount_step c = true)
    (hown : own c = false) : besides own c = false :=
  besides_of_kind own mount_step c h hown (fun h => by rw [h]; simp)

theorem sets_sink_port_elsewhere (own : Call → Bool) (c : Call) (h : sets_sink_port c = true)
    (hown : own c = false) : besides own c = false :=
  besides_of_kind own sets_sink_port c h hown (fun h => by rw [h]; simp)

theorem source_step_elsewhere (own : Call → Bool) (c : Call) (h : source_step c = true)
    (hown : own c = false) : besides own c = false :=
  besides_of_kind own source_step c h hown (fun h => by rw [h]; simp)

theorem launch_text_short (v : Nat) (h : v < 10 ^ 7) :
    fmt_d v = fmt_u v ∧
      truncate 150 (factory_launch_text v codec) = factory_launch_text v codec := by
  have hd : fmt_d v = fmt_u v := fmt_d_eq_fmt_u v (by omega)
  refine ⟨hd, truncate_of_short 150 _ ?_⟩
  have h1 := fmt_u_length_le v 7 (by omega) h (by omega)
  unfold factory_launch_text
  rw [hd]
  simp only [String.length_append]
  have e1 : "( udpsrc name=pay0 port=".length = 24 := by decide
  have e2 : " buffer-size=524288 caps=\"application/x-rtp, media=video, clock-rate=90000, ".length
      = 76 := by decide
  have e3 : "encoding-name=(string)".length = 22 := by decide
  have e4 : codec.length = 4 := by decide
  have e5 : ", payload=96 \" )".length = 16 := by decide
  omega

theorem ports_in_range (n i : Nat) (hn : n ≤ 2 ^ 31) (hi : i < n) :
    (upd_port + i) % 2 ^ 32 = 5400 + i := by
  have : upd_port = 5400 := rfl
  rw [this]
  exact Nat.mod_eq_of_lt (by omega)

/-- C4. In every run of `main` that sets the pipeline to PLAYING, with
`num_sources` the number of sources `main` computed: the RTSP mount points
described and registered are exactly those of the indices `0 .. num_sources - 1`,
in order, mount `i` at the path `/ds-gpu0-<i>` with a launch description
formatted from the port `5400 + i`; the ports set on the UDP sinks are exactly
`5400 + i` for the same indices, in order; and these ports are pairwise
distinct. (The count never exceeds 2^31; for ports below 10^7, which covers
every UDP port, the launch description is written in full and the port shows
in it as a plain decimal number.) -/
theorem main_mounts_match_sources (w : World) (argv : List String)
    (h : set_playing ∈ trace w argv) :
    (trace w argv).filter mount_step =
      (List.range (num_sources_of w (gst_init w argv))).flatMap (fun i =>
        [ Call.gst_rtsp_media_factory_set_launch (.factory i)
            (truncate 150 (factory_launch_text (5400 + i) "H264")),
          Call.gst_rtsp_mount_points_add_factory ("/ds-gpu0-" ++ fmt_u i) (.factory i) ]) ∧
    (trace w argv).filter sets_sink_port =
      (List.range (num_sources_of w (gst_init w argv))).map (fun i =>
        Call.g_object_set (.sink i) "port" (.uint (5400 + i))) ∧
    num_sources_of w (gst_init w argv) ≤ 2 ^ 31 ∧
    (∀ i j, i < num_sources_of w (gst_init w argv) → j < num_sources_of w (gst_init w argv) →
      i ≠ j → (upd_port + i) % 2 ^ 32 ≠ (upd_port + j) % 2 ^ 32) ∧
    (∀ i, 5400 + i < 10 ^ 7 →
      truncate 150 (factory_launch_text (5400 + i) "H264") =
        "( udpsrc name=pay0 port=" ++ fmt_u (5400 + i) ++
        " buffer-size=524288 caps=\"application/x-rtp, media=video, clock-rate=90000, " ++
        "encoding-name=(string)H264, payload=96 \" )") := by
  obtain ⟨s, v, m, hs, hv, hm, hq⟩ := started_run w argv h
  have hn := mount_loop_bound _ _ _ hm
  have hmount := hq mount_step (fun c hc => mount_step_elsewhere no_call c hc rfl)
  have hport := hq sets_sink_port (fun c hc => sets_sink_port_elsewhere no_call c hc rfl)
  rw [filter_nil_of_all_calls mount_step source_step _
        (ac_for_loop _ _ (ac_main_source_loop_body w _ _) _ _ _)
        (fun c hc => mount_step_elsewhere _ c hc (mount_not_source c hc)),
      filter_nil_of_all_calls mount_step sets_sink_port _
        (ac_for_loop _ _ (ac_main_branch_loop_body w _ _) _ _ _)
        (fun c hc => mount_step_elsewhere _ c hc (mount_not_port c hc)),
      filter_nil_of_all_calls mount_step sets_playing _ (ac_main_play w)
        (fun c hc => mount_step_elsewhere _ c hc (mount_not_playing c hc)),
      mount_loop_calls _ _ _ hm] at hmount
  rw [filter_nil_of_all_calls sets_sink_port source_step _
        (ac_for_loop _ _ (ac_main_source_loop_body w _ _) _ _ _)
        (fun c hc => sets_sink_port_elsewhere _ c hc (port_not_source c hc)),
      filter_nil_of_all_calls sets_sink_port mount_step _
        (ac_for_loop _ _ ac_main_mount_loop_body _ _ _)
        (fun c hc => sets_sink_port_elsewhere _ c hc
          (not_of_imp_not _ _ mount_not_port c hc)),
      filter_nil_of_all_calls sets_sink_port sets_playing _ (ac_main_play w)
        (fun c hc => sets_sink_port_elsewhere _ c hc (port_not_playing c hc)),
      branch_loop_calls _ _ _ _ _ hv] at hport
  refine ⟨?_, ?_, hn, ?_, ?_⟩
  · rw [hmount]
    simp only [List.nil_append, List.append_nil]
    apply List.flatMap_congr
    intro i hi
    have hi := List.mem_range.mp hi
    simp only [mount_calls, ports_in_range _ i hn hi, (mount_path_short i (by omega)).1]
    rfl
  · rw [hport]
    simp only [List.nil_append, List.append_nil]
    apply List.map_congr_left
    intro i hi
    have hi := List.mem_range.mp hi
    simp only [sink_port_call, ports_in_range _ i hn hi]
  · intro i j hi hj hij
    rw [ports_in_range _ i hn hi, ports_in_range _ j hn hj]
    omega
  · intro i hi
    have hc : codec = "H264" := rfl
    have h2 := (launch_text_short (5400 + i) hi).2
    rw [hc] at h2
    rw [h2]
    unfold factory_launch_text
    rw [(launch_text_short (5400 + i) hi).1, String.append_assoc, String.append_assoc]
    congr 1

set_option maxRecDepth 100000

/-- Witness of C4: two cameras given on the command line. -/
theorem main_mounts_match_sources_witness :
    set_playing ∈ trace world_all_ok ["deepstream-custom-app", "rtsp://cam0", "rtsp://cam1"] ∧
    (trace world_all_ok ["deepstream-custom-app", "rtsp://cam0", "rtsp://cam1"]).filter
        mount_step =
      [ Call.gst_rtsp_media_factory_set_launch (.factory 0)
          (truncate 150 (factory_launch_text 5400 "H264")),
        Call.gst_rtsp_mount_points_add_factory "/ds-gpu0-0" (.factory 0),
        Call.gst_rtsp_media_factory_set_launch (.factory 1)
          (truncate 150 (factory_launch_text 5401 "H264")),
        Call.gst_rtsp_mount_points_add_factory "/ds-gpu0-1" (.factory 1) ] ∧
    (trace world_all_ok ["deepstream-custom-app", "rtsp://cam0", "rtsp://cam1"]).filter
        sets_sink_port =
      [ Call.g_object_set (.sink 0) "port" (.uint 5400),
        Call.g_object_set (.sink 1) "port" (.uint 5401) ] :=
  ⟨by decide,
   (main_mounts_match_sources world_all_ok
     ["deepstream-custom-app", "rtsp://cam0", "rtsp://cam1"] (by decide)).1.trans (by decide),
   (main_mounts_match_sources world_all_ok
     ["deepstream-custom-app", "rtsp://cam0", "rtsp://cam1"] (by decide)).2.1.trans (by decide)⟩

theorem getD_of_lt (l : List String) (i : Nat) (h : i < l.length) :
    l[i]? = some (l.getD i "") := by
  rw [List.getD_eq_getElem?_getD, List.getElem?_eq_getElem h]
  rfl

/-- C10. In every run of `main` that sets the pipeline to PLAYING, with
`argv` as `gst_init` left it and `num_sources` the number `main` computed: the
source bins created are exactly those of the indices `0 .. num_sources - 1`,
in order, and for each index `i` the bin is created, its decode element is
created and given the URI of source `i`, and the bin is linked to the muxer
pad named by `"sink_%u"` for `i`. When `argv[1]` does not end in `.yml` or
`.yaml`, `num_sources` is `argc - 1` and the URI of source `i` is
`argv[i + 1]`; when it does, `num_sources` is the length of the parsed list
and the URI of source `i` is the `i`-th entry of that list, whatever further
arguments follow. (The pad name is `sink_<i>` in full for every index below
10^9; the counts are those of the 32-bit `guint`.) -/
theorem main_sources_in_order (w : World) (argv : List String)
    (h : set_playing ∈ trace w argv) :
    (trace w argv).filter source_step =
      (List.range (num_sources_of w (gst_init w argv))).flatMap (fun i =>
        [ Call.gst_bin_new (.source_bin i) (truncate 15 ("source-bin-" ++ fmt_02d i)),
          Call.gst_element_factory_make (.uri_decode_bin i)
            (if perf_mode w then "nvurisrcbin" else "uridecodebin") "uri-decode-bin",
          Call.g_object_set (.uri_decode_bin i) "uri" (.str (uri_of w (gst_init w argv) i)),
          Call.gst_pad_link (.source_bin i) "src" .streammux
            (truncate 15 ("sink_" ++ fmt_u i)) ]) ∧
    (is_yml (gst_init w argv) = false →
      ((gst_init w argv).length ≤ 2 ^ 32 →
        num_sources_of w (gst_init w argv) = (gst_init w argv).length - 1) ∧
      ∀ i, i < num_sources_of w (gst_init w argv) →
        (gst_init w argv)[i + 1]? = some (uri_of w (gst_init w argv) i)) ∧
    (is_yml (gst_init w argv) = true →
      ((w.source_list ((gst_init w argv).getD 1 "") "source-list").length < 2 ^ 32 →
        num_sources_of w (gst_init w argv) =
          (w.source_list ((gst_init w argv).getD 1 "") "source-list").length) ∧
      ∀ i, i < num_sources_of w (gst_init w argv) →
        (w.source_list ((gst_init w argv).getD 1 "") "source-list")[i]? =
          some (uri_of w (gst_init w argv) i)) ∧
    (∀ i, i < 10 ^ 9 → truncate 15 ("sink_" ++ fmt_u i) = "sink_" ++ fmt_u i) := by
  obtain ⟨s, v, m, hs, hv, hm, hq⟩ := started_run w argv h
  have hsrc := hq source_step (fun c hc => source_step_elsewhere no_call c hc rfl)
  rw [filter_nil_of_all_calls source_step sets_sink_port _
        (ac_for_loop _ _ (ac_main_branch_loop_body w _ _) _ _ _)
        (fun c hc => source_step_elsewhere _ c hc (not_of_imp_not _ _ port_not_source c hc)),
      filter_nil_of_all_calls source_step mount_step _
        (ac_for_loop _ _ ac_main_mount_loop_body _ _ _)
        (fun c hc => source_step_elsewhere _ c hc (not_of_imp_not _ _ mount_not_source c hc)),
      filter_nil_of_all_calls source_step sets_playing _ (ac_main_play w)
        (fun c hc => source_step_elsewhere _ c hc
          (not_of_imp_not _ _ playing_not_source c hc)),
      source_loop_calls _ _ _ _ hs] at hsrc
  refine ⟨?_, ?_, ?_, fun i hi => sink_pad_name_short i hi⟩
  · rw [hsrc]
    simp only [List.append_nil]
    rfl
  · intro hy
    refine ⟨fun hlen => ?_, fun i hi => ?_⟩
    · simp only [num_sources_of, hy]
      exact Nat.mod_eq_of_lt (by omega)
    · have hle : num_sources_of w (gst_init w argv) ≤ (gst_init w argv).length - 1 := by
        simp only [num_sources_of, hy]
        exact Nat.mod_le _ _
      have hlt : i + 1 < (gst_init w argv).length := by omega
      have hu : uri_of w (gst_init w argv) i = (gst_init w argv).getD (i + 1) "" := by
        unfold uri_of; rw [hy]; rfl
      rw [hu]
      exact getD_of_lt _ _ hlt
  · intro hy
    refine ⟨fun hlen => ?_, fun i hi => ?_⟩
    · simp only [num_sources_of, hy, if_true]
      exact Nat.mod_eq_of_lt hlen
    · have hle : num_sources_of w (gst_init w argv) ≤
          (w.source_list ((gst_init w argv).getD 1 "") "source-list").length := by
        simp only [num_sources_of, hy, if_true]
        exact Nat.mod_le _ _
      have hlt : i < (w.source_list ((gst_init w argv).getD 1 "") "source-list").length := by
        omega
      have hu : uri_of w (gst_init w argv) i =
          (w.source_list ((gst_init w argv).getD 1 "") "source-list").getD i "" := by
        unfold uri_of; rw [hy]; rfl
      rw [hu]
      exact getD_of_lt _ _ hlt

/-- Witness of C10: two cameras given on the command line. -/
theorem main_sources_in_order_witness :
    set_playing ∈ trace world_all_ok ["deepstream-custom-app", "rtsp://cam0", "rtsp://cam1"] ∧
    (trace world_all_ok ["deepstream-custom-app", "rtsp://cam0", "rtsp://cam1"]).filter
        source_step =
      [ Call.gst_bin_new (.source_bin 0) "source-bin-00",
        Call.gst_element_factory_make (.uri_decode_bin 0) "uridecodebin" "uri-decode-bin",
        Call.g_object_set (.uri_decode_bin 0) "uri" (.str "rtsp://cam0"),
        Call.gst_pad_link (.source_bin 0) "src" .streammux "sink_0",
        Call.gst_bin_new (.source_bin 1) "source-bin-01",
        Call.gst_element_factory_make (.uri_decode_bin 1) "uridecodebin" "uri-decode-bin",
        Call.g_object_set (.uri_decode_bin 1) "uri" (.str "rtsp://cam1"),
        Call.gst_pad_link (.source_bin 1) "src" .streammux "sink_1" ] :=
  ⟨by decide,
   (main_sources_in_order world_all_ok
     ["deepstream-custom-app", "rtsp://cam0", "rtsp://cam1"] (by decide)).1.trans (by decide)⟩

/-- C7 fails on the code. When `gst_pipeline_new` fails, `main` does not
return at once: it first creates the `nvstreammux` element, a later
construction step, and only then tests both results and returns -1. -/
theorem main_creates_muxer_after_failed_pipeline :
    2 ≤ ["deepstream-custom-app", "rtsp://cam0"].length ∧
    trace world_no_pipeline ["deepstream-custom-app", "rtsp://cam0"] =
      [ Call.gst_init ["deepstream-custom-app", "rtsp://cam0"], .g_main_loop_new ] ++
      Call.gst_pipeline_new "dscustom-pipeline" ::
      [ Call.gst_element_factory_make .streammux "nvstreammux" "stream-muxer" ] ∧
    construction_step (.gst_pipeline_new "dscustom-pipeline") = true ∧
    world_no_pipeline.succeeds (.gst_pipeline_new "dscustom-pipeline") = false ∧
    construction_step
      (.gst_element_factory_make .streammux "nvstreammux" "stream-muxer") = true ∧
    ¬ (∀ pre c post,
        trace world_no_pipeline ["deepstream-custom-app", "rtsp://cam0"] = pre ++ c :: post →
        construction_step c = true → world_no_pipeline.succeeds c = false →
        ∀ d ∈ post, construction_step d = false) := by
  refine ⟨by decide, by decide, by decide, by decide, by decide, ?_⟩
  intro hall
  have hd := hall [Call.gst_init ["deepstream-custom-app", "rtsp://cam0"], .g_main_loop_new]
    (.gst_pipeline_new "dscustom-pipeline")
    [.gst_element_factory_make .streammux "nvstreammux" "stream-muxer"]
    (by decide) (by decide) (by decide)
    (.gst_element_factory_make .streammux "nvstreammux" "stream-muxer") (by decide)
  exact absurd hd (by decide)

/-- C7 as amended. In every run of `main`: when an element creation or a pad
link fails, `main` returns -1, a negative status, the pipeline is never set
to PLAYING, and after the failed step `main` makes no call other than the
creation of the elements that are tested for `NULL` together with it and, in
performance mode, the setting of `file-loop` on the decode element. When
there are at least two arguments, at least one source and at most 2^31, every
library call that can fail succeeds, the two `"H264"` literals are one array and the main
loop is quit, `main` returns 0. -/
theorem main_fails_fast (w : World) (argv : List String) :
    (∀ pre c post, trace w argv = pre ++ c :: post →
      construction_step c = true → w.succeeds c = false →
      outcome w argv = .error (.returned (-1)) ∧ (-1 : Int) < 0 ∧
      set_playing ∉ trace w argv ∧ ∀ d ∈ post, follows_failure d = true) ∧
    ((∀ c, w.succeeds c = true) → w.h264_literals_shared = true → w.loop_quits = true →
      2 ≤ argv.length → 1 ≤ num_sources_of w (gst_init w argv) →
      num_sources_of w (gst_init w argv) ≤ 2 ^ 31 →
      outcome w argv = .ok 0) := by
  refine ⟨fun pre c post ht hc hf => ?_, fun H hs hq hl h1 hn => ?_⟩
  · obtain ⟨ho, hp⟩ := main_after_failed_step w argv pre post c ht hc hf
    refine ⟨ho, by decide, fun hplay => ?_, hp⟩
    have h2 := started_outcome w argv hplay
    rw [ho] at h2
    split at h2 <;> simp at h2
  · exact main_succeeds w argv H hs hq hl h1 hn

/-- Witness of C7 as amended: a run in which `gst_pipeline_new` fails, and a
run with two cameras in which every call succeeds. -/
theorem main_fails_fast_witness :
    (outcome world_no_pipeline ["deepstream-custom-app", "rtsp://cam0"] =
        .error (.returned (-1)) ∧ (-1 : Int) < 0 ∧
      set_playing ∉ trace world_no_pipeline ["deepstream-custom-app", "rtsp://cam0"] ∧
      ∀ d ∈ [Call.gst_element_factory_make .streammux "nvstreammux" "stream-muxer"],
        follows_failure d = true) ∧
    outcome world_all_ok ["deepstream-custom-app", "rtsp://cam0", "rtsp://cam1"] = .ok 0 :=
  ⟨(main_fails_fast world_no_pipeline ["deepstream-custom-app", "rtsp://cam0"]).1
      [Call.gst_init ["deepstream-custom-app", "rtsp://cam0"], .g_main_loop_new]
      (.gst_pipeline_new "dscustom-pipeline")
      [.gst_element_factory_make .streammux "nvstreammux" "stream-muxer"]
      (by decide) (by decide) (by decide),
   (main_fails_fast world_all_ok ["deepstream-custom-app", "rtsp://cam0", "rtsp://cam1"]).2
      (fun _ => rfl) rfl rfl (by decide) (by decide) (by decide)⟩

/-! ## The probe: what it leaves alone, and the end of the name table -/

theorem tiler_probe_frame_beyond_table (f : NvDsFrameMeta) (h : 4 ≤ f.source_id) :
    tiler_probe_frame f = .error .source_names_out_of_bounds := by
  have hnone : SOURCE_NAMES[f.source_id]? = none :=
    List.getElem?_eq_none (by simpa [SOURCE_NAMES] using h)
  simp only [tiler_probe_frame, hnone]

theorem tiler_probe_frame_cases (f : NvDsFrameMeta) :
    (∃ f', tiler_probe_frame f = .ok f') ∨
      tiler_probe_frame f = .error .source_names_out_of_bounds := by
  by_cases h : f.source_id < 4
  · obtain ⟨name, hname⟩ := source_name_exists f.source_id h
    exact Or.inl ⟨_, tiler_probe_frame_in_bounds f name hname⟩
  · exact Or.inr (tiler_probe_frame_beyond_table f (by omega))

theorem tiler_probe_frames_beyond_table (fs : List NvDsFrameMeta)
    (h : ∃ f ∈ fs, 4 ≤ f.source_id) :
    tiler_probe_frames fs = .error .source_names_out_of_bounds := by
  induction fs with
  | nil => obtain ⟨f, hf, -⟩ := h; exact absurd hf (List.not_mem_nil f)
  | cons g rest ih =>
    rcases tiler_probe_frame_cases g with ⟨g', hg⟩ | hg
    · have hrest : ∃ f ∈ rest, 4 ≤ f.source_id := by
        obtain ⟨f, hf, h4⟩ := h
        rcases List.mem_cons.mp hf with rfl | hf
        · rw [tiler_probe_frame_beyond_table f h4] at hg
          exact absurd hg (by simp)
        · exact ⟨f, hf, h4⟩
      simp only [tiler_probe_frames, hg, ih hrest]
    · simp only [tiler_probe_frames, hg]

theorem probe_beyond_table (batch_meta : NvDsBatchMeta)
    (h : ∃ f ∈ batch_meta.frame_meta_list, 4 ≤ f.source_id) :
    tiler_src_pad_buffer_probe { nvds_batch_meta := some batch_meta } =
      .error .source_names_out_of_bounds := by
  simp only [tiler_src_pad_buffer_probe, gst_buffer_get_nvds_batch_meta,
    tiler_probe_frames_beyond_table _ h]

theorem tiler_probe_object_class_id (o : NvDsObjectMeta) :
    (tiler_probe_object o).class_id = o.class_id := by
  simp only [tiler_probe_object, set_border_color]
  split_ifs <;> rfl

theorem tiler_probe_object_only_color (o : NvDsObjectMeta) :
    tiler_probe_object o = set_border_color o (tiler_probe_object o).rect_params.border_color := by
  simp only [tiler_probe_object, set_border_color]
  split_ifs <;> rfl

theorem tiler_probe_object_twice (o : NvDsObjectMeta) :
    tiler_probe_object (tiler_probe_object o) = tiler_probe_object o := by
  by_cases hv : o.class_id = PGIE_CLASS_ID_BYCICLE ∨ o.class_id = PGIE_CLASS_ID_CAR ∨
      o.class_id = PGIE_CLASS_ID_MOTORBIKE ∨ o.class_id = PGIE_CLASS_ID_BUS ∨
      o.class_id = PGIE_CLASS_ID_TRAIN ∨ o.class_id = PGIE_CLASS_ID_TRUCK <;>
  by_cases hp : o.class_id = PGIE_CLASS_ID_PERSON <;>
  by_cases hs : o.class_id = PGIE_CLASS_ID_TRAFFIC_LIGHT ∨
      o.class_id = PGIE_CLASS_ID_STOP_SIGN <;>
  first
    | (have hp' := eq_true hp
       simp only [tiler_probe_object, set_border_color, hv, hp', hs, if_true, if_false]
       done)
    | (simp only [tiler_probe_object, set_border_color, hv, hp, hs, if_true, if_false]
       done)

theorem forall₂_source_id_bound (fs fs' : List NvDsFrameMeta)
    (hrel : List.Forall₂ (fun f f' => f'.source_id = f.source_id) fs fs')
    (h : ∀ f ∈ fs, f.source_id < 4) : ∀ f' ∈ fs', f'.source_id < 4 := by
  induction hrel with
  | nil => intro f' hf'; exact absurd hf' (List.not_mem_nil f')
  | cons hab _ ih =>
    intro f' hf'
    rcases List.mem_cons.mp hf' with rfl | hf'
    · rw [hab]; exact h _ (List.mem_cons_self _ _)
    · exact ih (fun g hg => h g (List.mem_cons_of_mem _ hg)) f' hf'

theorem forall₂_exists_left {α β : Type} (R : α → β → Prop) (l : List α) (l' : List β)
    (h : List.Forall₂ R l l') : ∀ b ∈ l', ∃ a, R a b := by
  induction h with
  | nil => intro b hb; exact absurd hb (List.not_mem_nil b)
  | cons hab _ ih =>
    intro b hb
    rcases List.mem_cons.mp hb with rfl | hb
    · exact ⟨_, hab⟩
    · exact ih b hb

theorem forall₂_and_left {α β : Type} (R : α → β → Prop) (Q : α → Prop) (l : List α)
    (l' : List β) (h : List.Forall₂ R l l') (hQ : ∀ a ∈ l, Q a) :
    List.Forall₂ (fun a b => Q a ∧ R a b) l l' := by
  induction h with
  | nil => exact List.Forall₂.nil
  | cons hab _ ih =>
    exact List.Forall₂.cons ⟨hQ _ (List.mem_cons_self _ _), hab⟩
      (ih (fun a ha => hQ a (List.mem_cons_of_mem _ ha)))

/-- C15 (what the code does). On every batch whose frames carry source
indices inside the camera-name table the probe returns `GST_PAD_PROBE_OK` and
keeps the frames, their source indices and frame numbers, the objects of each
frame and their order; every object keeps its class id and differs from what
it was at most in its border colour; and a second call on the result leaves
every object as the first call left it. On a batch that holds a frame with a
source index of 4 or more the probe does not return: it reads
`SOURCE_NAMES[source_id]` beyond the end of the table. -/
theorem probe_changes_only_border_colors :
    (∀ batch_meta : NvDsBatchMeta, (∀ f ∈ batch_meta.frame_meta_list, f.source_id < 4) →
      ∃ once twice,
        tiler_src_pad_buffer_probe { nvds_batch_meta := some batch_meta } =
          .ok ({ nvds_batch_meta := some once }, .GST_PAD_PROBE_OK) ∧
        tiler_src_pad_buffer_probe { nvds_batch_meta := some once } =
          .ok ({ nvds_batch_meta := some twice }, .GST_PAD_PROBE_OK) ∧
        frames_related (fun f f' => f'.source_id = f.source_id ∧ f'.frame_num = f.frame_num)
          batch_meta once ∧
        objects_related (fun o o' =>
            o'.class_id = o.class_id ∧
            o' = set_border_color o o'.rect_params.border_color)
          batch_meta once ∧
        objects_related (fun o' o'' => o'' = o') once twice) ∧
    (∀ batch_meta : NvDsBatchMeta, (∃ f ∈ batch_meta.frame_meta_list, 4 ≤ f.source_id) →
      tiler_src_pad_buffer_probe { nvds_batch_meta := some batch_meta } =
        .error .source_names_out_of_bounds) := by
  refine ⟨fun batch_meta h => ?_, probe_beyond_table⟩
  obtain ⟨once, h1, hrel1⟩ := tiler_probe_in_bounds batch_meta h
  have hb : ∀ f' ∈ once.frame_meta_list, f'.source_id < 4 :=
    forall₂_source_id_bound _ _ (List.Forall₂.imp (fun _ _ hr => hr.2.1) hrel1) h
  obtain ⟨twice, h2, hrel2⟩ := tiler_probe_in_bounds once hb
  refine ⟨once, twice, h1, h2, List.Forall₂.imp (fun _ _ hr => ⟨hr.2.1, hr.2.2.1⟩) hrel1, ?_, ?_⟩
  · refine List.Forall₂.imp ?_ hrel1
    rintro f f' ⟨hobj, -⟩
    rw [hobj]
    exact forall₂_map_right _ _ _
      (fun o _ => ⟨tiler_probe_object_class_id o, tiler_probe_object_only_color o⟩)
  · have hfix : ∀ f' ∈ once.frame_meta_list, ∀ o' ∈ f'.obj_meta_list,
        tiler_probe_object o' = o' := by
      intro f' hf' o' ho'
      obtain ⟨f, hobj, -⟩ := forall₂_exists_left _ _ _ hrel1 f' hf'
      rw [hobj] at ho'
      obtain ⟨o, -, rfl⟩ := List.mem_map.mp ho'
      exact tiler_probe_object_twice o
    refine List.Forall₂.imp ?_ (forall₂_and_left _ _ _ _ hrel2 hfix)
    rintro f' f'' ⟨hQ, hobj, -⟩
    rw [hobj]
    exact forall₂_map_right _ _ _ (fun o' ho' => hQ o' ho')

/-- Witness of C15: the sample batch, and a batch from a fifth camera. -/
theorem probe_changes_only_border_colors_witness :
    (∃ once twice,
        tiler_src_pad_buffer_probe { nvds_batch_meta := some sample_batch } =
          .ok ({ nvds_batch_meta := some once }, .GST_PAD_PROBE_OK) ∧
        tiler_src_pad_buffer_probe { nvds_batch_meta := some once } =
          .ok ({ nvds_batch_meta := some twice }, .GST_PAD_PROBE_OK) ∧
        frames_related (fun f f' => f'.source_id = f.source_id ∧ f'.frame_num = f.frame_num)
          sample_batch once ∧
        objects_related (fun o o' =>
            o'.class_id = o.class_id ∧
            o' = set_border_color o o'.rect_params.border_color)
          sample_batch once ∧
        objects_related (fun o' o'' => o'' = o') once twice) ∧
    tiler_src_pad_buffer_probe { nvds_batch_meta := some batch_of_fifth_camera } =
      .error .source_names_out_of_bounds :=
  ⟨probe_changes_only_border_colors.1 sample_batch (by decide),
   probe_changes_only_border_colors.2 batch_of_fifth_camera
     ⟨{ source_id := 4, frame_num := 0, obj_meta_list := [sample_object 2],
        display_meta_list := [] }, by decide, by decide⟩⟩

theorem launch_text_length (v : Nat) (codec : String) :
    (factory_launch_text v codec).length = 138 + (fmt_d v).length + codec.length := by
  unfold factory_launch_text
  simp only [String.length_append]
  have e1 : "( udpsrc name=pay0 port=".length = 24 := by decide
  have e2 : " buffer-size=524288 caps=\"application/x-rtp, media=video, clock-rate=90000, ".length
      = 76 := by decide
  have e3 : "encoding-name=(string)".length = 22 := by decide
  have e5 : ", payload=96 \" )".length = 16 := by decide
  omega

/-- C13. For every source index `i` with `5400 + i ≤ 65535` and for the codec
name `"H264"` or `"H265"`: the launch description formatted for mount `i` has
at most 149 characters, so `g_snprintf` with the limit 150 stores it whole in
`factory_launch`; it is the template with the decimal port `5400 + i` and the
codec name in place of `%d` and `%s`, it ends with the closing `" )"`, and with
the program's codec it is the text the mount loop passes to
`gst_rtsp_media_factory_set_launch` for the factory of mount `i`. -/
theorem launch_description_fits (i : Nat) (codec_name : String) (hport : 5400 + i ≤ 65535)
    (hcodec : codec_name = "H264" ∨ codec_name = "H265") :
    (factory_launch_text ((upd_port + i) % 2 ^ 32) codec_name).length ≤ 149 ∧
    g_snprintf 160 150 (factory_launch_text ((upd_port + i) % 2 ^ 32) codec_name) =
      pure (factory_launch_text ((upd_port + i) % 2 ^ 32) codec_name) ∧
    factory_launch_text ((upd_port + i) % 2 ^ 32) codec_name =
      "( udpsrc name=pay0 port=" ++ fmt_u (5400 + i) ++
      " buffer-size=524288 caps=\"application/x-rtp, media=video, clock-rate=90000, " ++
      "encoding-name=(string)" ++ codec_name ++ ", payload=96 \" )" ∧
    (∃ body, factory_launch_text ((upd_port + i) % 2 ^ 32) codec_name = body ++ " )") ∧
    (∀ mounts, Call.gst_rtsp_media_factory_set_launch (.factory i)
        (factory_launch_text ((upd_port + i) % 2 ^ 32) codec) ∈
      (main_mount_loop_body i mounts).1) := by
  have hp : (upd_port + i) % 2 ^ 32 = 5400 + i := by
    have : upd_port = 5400 := rfl
    rw [this]
    exact Nat.mod_eq_of_lt (by omega)
  have hd : fmt_d (5400 + i) = fmt_u (5400 + i) := fmt_d_eq_fmt_u _ (by omega)
  have hu : (fmt_u (5400 + i)).length ≤ 5 := fmt_u_length_le _ 5 (by omega) (by omega) (by omega)
  have hlen : ∀ c : String, c.length = 4 → (factory_launch_text (5400 + i) c).length ≤ 149 := by
    intro c hc
    rw [launch_text_length, hd, hc]
    omega
  have hc4 : codec_name.length = 4 := by
    rcases hcodec with rfl | rfl <;> decide
  have hfit : ∀ c : String, c.length = 4 →
      truncate 150 (factory_launch_text (5400 + i) c) = factory_launch_text (5400 + i) c :=
    fun c hc => truncate_of_short 150 _ (by have := hlen c hc; omega)
  rw [hp]
  refine ⟨hlen _ hc4, ?_, ?_, ?_, ?_⟩
  · rw [g_snprintf_fits 160 150 _ (by omega) (by omega), hfit _ hc4]
  · unfold factory_launch_text
    rw [hd]
  · refine ⟨"( udpsrc name=pay0 port=" ++ fmt_d (5400 + i) ++
      " buffer-size=524288 caps=\"application/x-rtp, media=video, clock-rate=90000, " ++
      "encoding-name=(string)" ++ codec_name ++ ", payload=96 \"", ?_⟩
    unfold factory_launch_text
    rw [String.append_assoc _ ", payload=96 \"" " )"]
    rfl
  · intro mounts
    simp only [main_mount_loop_body]
    have hp' : (upd_port + i) % 4294967296 = 5400 + i := hp
    simp [g_snprintf_snd_fits, hp', hfit codec (by decide)]

/-- Witness of C13: the first mount, with the codec the program is built for. -/
theorem launch_description_fits_witness :
    5400 + 0 ≤ 65535 ∧
    (factory_launch_text ((upd_port + 0) % 2 ^ 32) "H264").length ≤ 149 ∧
    g_snprintf 160 150 (factory_launch_text ((upd_port + 0) % 2 ^ 32) "H264") =
      pure (factory_launch_text ((upd_port + 0) % 2 ^ 32) "H264") :=
  ⟨by decide, (launch_description_fits 0 "H264" (by decide) (Or.inl rfl)).1,
   (launch_description_fits 0 "H264" (by decide) (Or.inl rfl)).2.1⟩

/-! ## The source element -/

theorem ac_mono {α : Type} (p q : Call → Bool) (m : M α) (h : all_calls p m)
    (hpq : ∀ c, p c = true → q c = true) : all_calls q m :=
  ⟨fun c hc => hpq c (h.all c hc)⟩

theorem source_step_of_decode_element (e : String) (c : Call)
    (h : decode_element_is e c = false) : source_step c = true := by
  cases c with
  | gst_element_factory_make o f n => cases o <;> first | exact Bool.noConfusion h | rfl
  | _ => exact Bool.noConfusion h

theorem decode_element_is_of_besides (e : String) (own : Call → Bool)
    (hown : ∀ c, own c = true → source_step c = false) (c : Call)
    (h : besides own c = true) : decode_element_is e c = true := by
  cases hd : decode_element_is e c with
  | true => rfl
  | false =>
    have hs := source_step_of_decode_element e c hd
    have ho : own c = false := by
      cases ho : own c with
      | false => rfl
      | true => rw [hown c ho] at hs; exact Bool.noConfusion hs
    unfold besides at h
    rw [ho, hs] at h
    simp at h

theorem ac_decode_main_source_loop_body (w : World) (p : Bool) (argv : List String) (i : Nat)
    (src_list : List String) :
    all_calls (decode_element_is (if p then "nvurisrcbin" else "uridecodebin"))
      (main_source_loop_body w p argv i src_list) := by
  apply ac_last
  simp only [main_source_loop_body, create_source_bin, M_bind_assoc, M_pure_bind]
  cases p <;>
  simp [M_bind_assoc, M_pure_bind, ac_pure_iff, ac_ret_bind_iff, ac_fault_bind_iff, ac_call_iff,
    ac_try_iff, ac_return_if_iff, ac_ite_iff, ac_snprintf_iff, ac_list_data_iff, ac_list_next_iff,
    ac_argv_at_iff, decode_element_is, -bind_fst, -bind_snd]

theorem ac_decode_main (w : World) (argv : List String) :
    all_calls (decode_element_is (if perf_mode w then "nvurisrcbin" else "uridecodebin"))
      (main w argv) := by
  have hother : ∀ {α : Type} (own : Call → Bool) (m : M α),
      (∀ c, own c = true → source_step c = false) → all_calls (besides own) m →
      all_calls (decode_element_is (if perf_mode w then "nvurisrcbin" else "uridecodebin")) m :=
    fun own m hown h => ac_mono _ _ m h (decode_element_is_of_besides _ own hown)
  have hno : ∀ c, no_call c = true → source_step c = false :=
    fun c h => Bool.noConfusion h
  unfold main
  refine ac_bind _ _ _ ?_ (fun _ => ac_bind _ _ _ ?_ (fun _ => ?_))
  · constructor
    intro c hc
    by_cases hl : argv.length < 2 <;> simp [return_if, hl] at hc
  · constructor
    intro c hc
    simp at hc
    subst hc
    rfl
  unfold main_after_init
  refine ac_bind _ _ _ (hother _ _ hno (ac_main_pipeline w)) (fun _ => ?_)
  refine ac_bind _ _ _ ?_ (fun _ => ?_)
  · unfold main_sources
    refine ac_bind _ _ _ ?_ (fun _ => ac_bind _ _ _
      (ac_for_loop _ _ (ac_decode_main_source_loop_body w _ _) _ _ _)
      (fun _ => (ac_pure_iff _ _).2 trivial))
    constructor
    intro c hc
    by_cases hy : is_yml (gst_init w argv) = true
    · simp [hy] at hc
      subst hc
      rfl
    · simp [hy] at hc
  refine ac_bind _ _ _ (hother _ _ hno (ac_main_elements w _ _)) (fun _ => ?_)
  refine ac_bind _ _ _ (hother _ _ port_not_source (ac_main_branches w _ _)) (fun _ => ?_)
  refine ac_bind _ _ _ (hother _ _ hno (ac_main_server w)) (fun _ => ?_)
  refine ac_bind _ _ _ (hother _ _ mount_not_source (ac_main_mounts _)) (fun _ => ?_)
  exact hother _ _ playing_not_source (ac_main_play w)
theorem ba_append (e : String) (t₁ t₂ : List Call) (h₁ : built_around e t₁)
    (h₂ : built_around e t₂) : built_around e (t₁ ++ t₂) := by
  intro i name hmem
  rcases List.mem_append.mp hmem with h | h
  · exact List.mem_append_left _ (h₁ i name h)
  · exact List.mem_append_right _ (h₂ i name h)

theorem ba_bind {α β : Type} (e : String) (m : M α) (k : α → M β)
    (hm : built_around e m.1) (hk : ∀ a, built_around e (k a).1) :
    built_around e (m >>= k).1 := by
  rw [bind_fst]
  apply ba_append e _ _ hm
  cases m.2 with
  | error x => intro i name h; simp at h
  | ok a => exact hk a

theorem ba_for_loop {σ : Type} (e : String) (body : Nat → σ → M σ)
    (hbody : ∀ i s, built_around e (body i s).1) (n i : Nat) (s : σ) :
    built_around e (for_loop body n i s).1 := by
  induction n generalizing i s with
  | zero => intro j name h; simp [for_loop] at h
  | succ n ih =>
    rw [for_loop_succ]
    exact ba_bind e _ _ (hbody i s) (fun s' => ih (i + 1) s')

theorem ba_of_all_calls {α : Type} (e : String) (own : Call → Bool) (m : M α)
    (h : all_calls (besides own) m) (hown : ∀ c, own c = true → source_step c = false) :
    built_around e m.1 := by
  intro i name hmem
  have hb := h.all _ hmem
  unfold besides at hb
  have hs : source_step (Call.gst_bin_new (.source_bin i) name) = true := rfl
  have ho : own (Call.gst_bin_new (.source_bin i) name) = false := by
    cases ho : own (Call.gst_bin_new (.source_bin i) name) with
    | false => rfl
    | true => rw [hown _ ho] at hs; exact Bool.noConfusion hs
  rw [ho, hs] at hb
  simp at hb

theorem ba_create_source_bin (w : World) (p : Bool) (i : Nat) (uri : String) :
    built_around (if p then "nvurisrcbin" else "uridecodebin")
      (create_source_bin w p i uri).1 := by
  intro j name hmem
  simp only [create_source_bin] at hmem ⊢
  cases p <;> simp [g_snprintf_snd_fits] at hmem ⊢ <;> exact hmem.1

theorem ba_main_source_loop_body (w : World) (p : Bool) (argv : List String) (i : Nat)
    (src_list : List String) :
    built_around (if p then "nvurisrcbin" else "uridecodebin")
      (main_source_loop_body w p argv i src_list).1 := by
  unfold main_source_loop_body
  refine ba_bind _ _ _ ?_ (fun uri => ba_bind _ _ _ (ba_create_source_bin w p i uri) (fun b => ?_))
  · intro j name h
    cases hy : is_yml argv <;> simp [hy, list_data, argv_at] at h
    · cases hu : argv[i + 1]? <;> simp [hu] at h
    · cases src_list <;> simp at h
  · intro j name h
    have hnext : (list_next src_list).1 = [] := by cases src_list <;> rfl
    simp [g_snprintf_snd_fits, hnext] at h

theorem ba_main (w : World) (argv : List String) :
    built_around (if perf_mode w then "nvurisrcbin" else "uridecodebin") (main w argv).1 := by
  have hno : ∀ c, no_call c = true → source_step c = false :=
    fun c h => Bool.noConfusion h
  unfold main
  refine ba_bind _ _ _ ?_ (fun _ => ba_bind _ _ _ ?_ (fun _ => ?_))
  · intro j name h
    by_cases hl : argv.length < 2 <;> simp [return_if, hl] at h
  · intro j name h
    simp at h
  unfold main_after_init
  refine ba_bind _ _ _ (ba_of_all_calls _ _ _ (ac_main_pipeline w) hno) (fun _ => ?_)
  refine ba_bind _ _ _ ?_ (fun _ => ?_)
  · unfold main_sources
    refine ba_bind _ _ _ ?_ (fun _ => ba_bind _ _ _
      (ba_for_loop _ _ (ba_main_source_loop_body w _ _) _ _ _) (fun _ => ?_))
    · intro j name h
      by_cases hy : is_yml (gst_init w argv) = true <;> simp [hy] at h
    · intro j name h
      simp at h
  refine ba_bind _ _ _ (ba_of_all_calls _ _ _ (ac_main_elements w _ _) hno) (fun _ => ?_)
  refine ba_bind _ _ _ (ba_of_all_calls _ _ _ (ac_main_branches w _ _) port_not_source)
    (fun _ => ?_)
  refine ba_bind _ _ _ (ba_of_all_calls _ _ _ (ac_main_server w) hno) (fun _ => ?_)
  refine ba_bind _ _ _ (ba_of_all_calls _ _ _ (ac_main_mounts _) mount_not_source) (fun _ => ?_)
  exact ba_of_all_calls _ _ _ (ac_main_play w) playing_not_source

/-- C11. `PERF_MODE` is true exactly when the environment variable
`NVDS_TEST3_PERF_MODE` is set and its value is the string `1`; unset, empty,
`0`, `true` or any other value leaves it false. In every run of `main`, every
source bin that is created has its decode element created from the factory
`nvurisrcbin` when `PERF_MODE` is true and from `uridecodebin` when it is
false, and no decode element of a source bin comes from any other factory. -/
theorem perf_mode_selects_source_element (w : World) (argv : List String) :
    (perf_mode w = true ↔ w.getenv "NVDS_TEST3_PERF_MODE" = some "1") ∧
    (w.getenv "NVDS_TEST3_PERF_MODE" = none → perf_mode w = false) ∧
    (∀ value, w.getenv "NVDS_TEST3_PERF_MODE" = some value → value ≠ "1" →
      perf_mode w = false) ∧
    (∀ i name, Call.gst_bin_new (.source_bin i) name ∈ trace w argv →
      Call.gst_element_factory_make (.uri_decode_bin i)
        (if perf_mode w then "nvurisrcbin" else "uridecodebin") "uri-decode-bin" ∈
        trace w argv) ∧
    (∀ i made name, Call.gst_element_factory_make (.uri_decode_bin i) made name ∈ trace w argv →
      made = if perf_mode w then "nvurisrcbin" else "uridecodebin") := by
  refine ⟨?_, ?_, ?_, ba_main w argv, ?_⟩
  · unfold perf_mode
    cases w.getenv "NVDS_TEST3_PERF_MODE" with
    | none => simp
    | some value => simp
  · intro h
    simp [perf_mode, h]
  · intro value h hne
    simp [perf_mode, h, hne]
  · intro i made name hmem
    have h := (ac_decode_main w argv).all _ hmem
    simpa [decode_element_is] using h

/-- Witness of C11: two cameras, once with `NVDS_TEST3_PERF_MODE=1` and once
with the variable unset. -/
theorem perf_mode_selects_source_element_witness :
    (perf_mode world_perf_mode = true ∧
      Call.gst_element_factory_make (.uri_decode_bin 1) "nvurisrcbin" "uri-decode-bin" ∈
        trace world_perf_mode ["deepstream-custom-app", "rtsp://cam0", "rtsp://cam1"]) ∧
    (perf_mode world_all_ok = false ∧
      Call.gst_element_factory_make (.uri_decode_bin 1) "uridecodebin" "uri-decode-bin" ∈
        trace world_all_ok ["deepstream-custom-app", "rtsp://cam0", "rtsp://cam1"]) :=
  ⟨⟨(perf_mode_selects_source_element world_perf_mode
        ["deepstream-custom-app", "rtsp://cam0", "rtsp://cam1"]).1.2 (by decide),
    (perf_mode_selects_source_element world_perf_mode
        ["deepstream-custom-app", "rtsp://cam0", "rtsp://cam1"]).2.2.2.1 1 "source-bin-01"
      (by decide)⟩,
   ⟨(perf_mode_selects_source_element world_all_ok
        ["deepstream-custom-app", "rtsp://cam0", "rtsp://cam1"]).2.1 (by decide),
    (perf_mode_selects_source_element world_all_ok
        ["deepstream-custom-app", "rtsp://cam0", "rtsp://cam1"]).2.2.2.1 1 "source-bin-01"
      (by decide)⟩⟩

/-! ## Runs that return -/

theorem bind_ok_split {α β : Type} (m : M α) (f : α → M β) (r : β)
    (h : (m >>= f).2 = .ok r) :
    ∃ a, m.2 = .ok a ∧ (f a).2 = .ok r ∧ (m >>= f).1 = m.1 ++ (f a).1 := by
  rw [bind_snd] at h
  rw [bind_fst]
  cases hm : m.2 with
  | error e => rw [hm] at h; simp at h
  | ok a =>
    rw [hm] at h
    exact ⟨a, rfl, h, rfl⟩

theorem outcome_of_enough_arguments (w : World) (argv : List String) (hl : ¬ argv.length < 2) :
    outcome w argv = (main_after_init w (perf_mode w) (gst_init w argv)).2 := by
  simp [outcome, main, hl]

/-- A run of `main` that returns from its last statement has made every call
of its final phase, the one that sets the pipeline to PLAYING among them. -/
theorem returned_run (w : World) (argv : List String) (r : Int) (h : outcome w argv = .ok r) :
    ∀ c ∈ (main_play w).1, c ∈ trace w argv := by
  by_cases hl : argv.length < 2
  · rw [show outcome w argv = (main w argv).2 from rfl, main_of_few_arguments w argv hl] at h
    simp at h
  rw [outcome_of_enough_arguments w argv hl] at h
  rw [trace_of_enough_arguments w argv hl]
  simp only [main_after_init] at h ⊢
  obtain ⟨_, -, h1, e1⟩ := bind_ok_split _ _ _ h
  obtain ⟨_, -, h2, e2⟩ := bind_ok_split _ _ _ h1
  obtain ⟨_, -, h3, e3⟩ := bind_ok_split _ _ _ h2
  obtain ⟨_, -, h4, e4⟩ := bind_ok_split _ _ _ h3
  obtain ⟨_, -, h5, e5⟩ := bind_ok_split _ _ _ h4
  obtain ⟨_, -, h6, e6⟩ := bind_ok_split _ _ _ h5
  intro c hc
  rw [e1, e2, e3, e4, e5, e6]
  simp [hc]

theorem set_playing_in_main_play (w : World) : set_playing ∈ (main_play w).1 := by
  unfold main_play
  cases hs : w.succeeds (.gst_element_get_static_pad .pgie "src") <;> simp [hs, set_playing]

theorem add_probe_in_main_play (w : World)
    (hs : w.succeeds (.gst_element_get_static_pad .pgie "src") = true) :
    Call.gst_pad_add_probe .pgie "src" "tiler_src_pad_buffer_probe" ∈ (main_play w).1 := by
  unfold main_play
  simp [hs]

theorem started_source_calls (w : World) (argv : List String)
    (h : set_playing ∈ trace w argv) :
    (trace w argv).filter source_step =
      (List.range (num_sources_of w (gst_init w argv))).flatMap
        (source_calls w (gst_init w argv)) := by
  obtain ⟨s, v, m, hs, hv, hm, hq⟩ := started_run w argv h
  have hsrc := hq source_step (fun c hc => source_step_elsewhere no_call c hc rfl)
  rw [filter_nil_of_all_calls source_step sets_sink_port _
        (ac_for_loop _ _ (ac_main_branch_loop_body w _ _) _ _ _)
        (fun c hc => source_step_elsewhere _ c hc (not_of_imp_not _ _ port_not_source c hc)),
      filter_nil_of_all_calls source_step mount_step _
        (ac_for_loop _ _ ac_main_mount_loop_body _ _ _)
        (fun c hc => source_step_elsewhere _ c hc (not_of_imp_not _ _ mount_not_source c hc)),
      filter_nil_of_all_calls source_step sets_playing _ (ac_main_play w)
        (fun c hc => source_step_elsewhere _ c hc
          (not_of_imp_not _ _ playing_not_source c hc)),
      source_loop_calls _ _ _ _ hs] at hsrc
  rw [hsrc]
  simp only [List.append_nil]

theorem started_links_sources (w : World) (argv : List String)
    (h : set_playing ∈ trace w argv) (i : Nat) (hi : i < num_sources_of w (gst_init w argv)) :
    Call.gst_pad_link (.source_bin i) "src" .streammux (truncate 15 ("sink_" ++ fmt_u i)) ∈
      trace w argv := by
  have hmem : Call.gst_pad_link (.source_bin i) "src" .streammux
      (truncate 15 ("sink_" ++ fmt_u i)) ∈ (trace w argv).filter source_step := by
    rw [started_source_calls w argv h, List.mem_flatMap]
    exact ⟨i, List.mem_range.mpr hi, by simp [source_calls]⟩
  exact (List.mem_filter.mp hmem).1

theorem cameras_facts (n : Nat) (h1 : 1 ≤ n) (hn : n ≤ 2 ^ 31) :
    gst_init world_all_ok (command_line_of_cameras n) = command_line_of_cameras n ∧
    is_yml (command_line_of_cameras n) = false ∧
    num_sources_of world_all_ok (command_line_of_cameras n) = n ∧
    2 ≤ (command_line_of_cameras n).length := by
  obtain ⟨m, rfl⟩ : ∃ m, n = m + 1 := ⟨n - 1, by omega⟩
  have hy : is_yml (command_line_of_cameras (m + 1)) = false := by
    have h1 : (command_line_of_cameras (m + 1))[1]? = some "rtsp://cam" := by
      simp [command_line_of_cameras, List.replicate_succ]
    simp only [is_yml, h1]
    decide
  refine ⟨?_, hy, ?_, ?_⟩
  · simp [gst_init, world_all_ok, command_line_of_cameras]
  · simp only [num_sources_of, hy]
    simp only [command_line_of_cameras, List.length_cons, List.length_replicate]
    exact Nat.mod_eq_of_lt (by omega)
  · simp [command_line_of_cameras]

/-- C12. The camera-name table has four entries whatever the number of
sources. `main` accepts any number of sources it is given: with every call
succeeding and `n` camera URIs on the command line, for every `n` from 5 up to
2^31, `main` computes `num_sources = n`, links source bin `i` to the muxer pad
`sink_<i>` for every `i < n` (the fifth bin to `sink_4`), installs
`tiler_src_pad_buffer_probe` downstream of the muxer, sets the pipeline to
PLAYING and returns 0. And on every batch that holds a frame with a source
index of 4 or more the probe reads `SOURCE_NAMES[source_id]` beyond the end of
the table. -/
theorem name_table_smaller_than_source_count :
    SOURCE_NAMES.length = 4 ∧
    (∀ n, 5 ≤ n → n ≤ 2 ^ 31 →
      num_sources_of world_all_ok (gst_init world_all_ok (command_line_of_cameras n)) = n ∧
      outcome world_all_ok (command_line_of_cameras n) = .ok 0 ∧
      set_playing ∈ trace world_all_ok (command_line_of_cameras n) ∧
      Call.gst_pad_add_probe .pgie "src" "tiler_src_pad_buffer_probe" ∈
        trace world_all_ok (command_line_of_cameras n) ∧
      Call.gst_pad_link (.source_bin 4) "src" .streammux "sink_4" ∈
        trace world_all_ok (command_line_of_cameras n) ∧
      ∀ i, i < n →
        Call.gst_pad_link (.source_bin i) "src" .streammux (truncate 15 ("sink_" ++ fmt_u i)) ∈
          trace world_all_ok (command_line_of_cameras n)) ∧
    (∀ batch_meta : NvDsBatchMeta, (∃ f ∈ batch_meta.frame_meta_list, 4 ≤ f.source_id) →
      tiler_src_pad_buffer_probe { nvds_batch_meta := some batch_meta } =
        .error .source_names_out_of_bounds) := by
  refine ⟨rfl, fun n h5 hn => ?_, probe_beyond_table⟩
  obtain ⟨hg, hy, hnum, hlen⟩ := cameras_facts n (by omega) hn
  have hnum' : num_sources_of world_all_ok
      (gst_init world_all_ok (command_line_of_cameras n)) = n := by rw [hg, hnum]
  have hout : outcome world_all_ok (command_line_of_cameras n) = .ok 0 :=
    main_succeeds world_all_ok _ (fun _ => rfl) rfl rfl hlen (by omega) (by omega)
  have hplay : set_playing ∈ trace world_all_ok (command_line_of_cameras n) :=
    returned_run _ _ 0 hout _ (set_playing_in_main_play _)
  have hlink : ∀ i, i < n →
      Call.gst_pad_link (.source_bin i) "src" .streammux (truncate 15 ("sink_" ++ fmt_u i)) ∈
        trace world_all_ok (command_line_of_cameras n) :=
    fun i hi => started_links_sources _ _ hplay i (by omega)
  exact ⟨hnum', hout, hplay, returned_run _ _ 0 hout _ (add_probe_in_main_play _ rfl),
    hlink 4 (by omega), hlink⟩

/-- Witness of C12: five cameras, and a batch with a frame of the fifth. -/
theorem name_table_smaller_than_source_count_witness :
    (num_sources_of world_all_ok (gst_init world_all_ok (command_line_of_cameras 5)) = 5 ∧
      outcome world_all_ok (command_line_of_cameras 5) = .ok 0 ∧
      Call.gst_pad_link (.source_bin 4) "src" .streammux "sink_4" ∈
        trace world_all_ok (command_line_of_cameras 5)) ∧
    tiler_src_pad_buffer_probe { nvds_batch_meta := some batch_of_fifth_camera } =
      .error .source_names_out_of_bounds :=
  ⟨⟨(name_table_smaller_than_source_count.2.1 5 (by decide) (by decide)).1,
    (name_table_smaller_than_source_count.2.1 5 (by decide) (by decide)).2.1,
    (name_table_smaller_than_source_count.2.1 5 (by decide) (by decide)).2.2.2.2.1⟩,
   name_table_smaller_than_source_count.2.2 batch_of_fifth_camera
     ⟨{ source_id := 4, frame_num := 0, obj_meta_list := [sample_object 2],
        display_meta_list := [] }, by decide, by decide⟩⟩

/-! ## The batch size of the inference element -/

theorem ac_aside_main_pipeline (w : World) :
    all_calls aside_of_batch_size (main_pipeline w) := by
  apply ac_last
  simp only [main_pipeline, M_bind_assoc, M_pure_bind]
  simp [M_bind_assoc, M_pure_bind, ac_pure_iff, ac_ret_bind_iff, ac_fault_bind_iff, ac_call_iff,
    ac_try_iff, ac_return_if_iff, ac_ite_iff, ac_snprintf_iff, ac_list_data_iff, ac_list_next_iff,
    ac_argv_at_iff, ac_loop_run_iff, aside_of_batch_size, -bind_fst, -bind_snd]

theorem ac_aside_main_server (w : World) :
    all_calls aside_of_batch_size (main_server w) := by
  apply ac_last
  simp only [main_server, M_bind_assoc, M_pure_bind]
  simp [M_bind_assoc, M_pure_bind, ac_pure_iff, ac_ret_bind_iff, ac_fault_bind_iff, ac_call_iff,
    ac_try_iff, ac_return_if_iff, ac_ite_iff, ac_snprintf_iff, ac_list_data_iff, ac_list_next_iff,
    ac_argv_at_iff, ac_loop_run_iff, aside_of_batch_size, -bind_fst, -bind_snd]

theorem ac_aside_main_play (w : World) :
    all_calls aside_of_batch_size (main_play w) := by
  apply ac_last
  simp only [main_play, M_bind_assoc, M_pure_bind]
  simp [M_bind_assoc, M_pure_bind, ac_pure_iff, ac_ret_bind_iff, ac_fault_bind_iff, ac_call_iff,
    ac_try_iff, ac_return_if_iff, ac_ite_iff, ac_snprintf_iff, ac_list_data_iff, ac_list_next_iff,
    ac_argv_at_iff, ac_loop_run_iff, aside_of_batch_size, -bind_fst, -bind_snd]

theorem ac_aside_main_source_loop_body (w : World) (p : Bool) (argv : List String) (i : Nat)
    (src_list : List String) :
    all_calls aside_of_batch_size (main_source_loop_body w p argv i src_list) := by
  apply ac_last
  simp only [main_source_loop_body, create_source_bin, M_bind_assoc, M_pure_bind]
  simp [M_bind_assoc, M_pure_bind, ac_pure_iff, ac_ret_bind_iff, ac_fault_bind_iff, ac_call_iff,
    ac_try_iff, ac_return_if_iff, ac_ite_iff, ac_snprintf_iff, ac_list_data_iff, ac_list_next_iff,
    ac_argv_at_iff, ac_loop_run_iff, aside_of_batch_size, -bind_fst, -bind_snd]

theorem ac_aside_main_branch_loop_body (w : World) (argv : List String) (integrated : Bool)
    (i : Nat) (vars : Bool × Bool) :
    all_calls aside_of_batch_size (main_branch_loop_body w argv integrated i vars) := by
  apply ac_last
  simp only [main_branch_loop_body, M_bind_assoc, M_pure_bind]
  simp [M_bind_assoc, M_pure_bind, ac_pure_iff, ac_ret_bind_iff, ac_fault_bind_iff, ac_call_iff,
    ac_try_iff, ac_return_if_iff, ac_ite_iff, ac_snprintf_iff, ac_list_data_iff, ac_list_next_iff,
    ac_argv_at_iff, ac_loop_run_iff, aside_of_batch_size, -bind_fst, -bind_snd]

theorem ac_aside_main_mount_loop_body (i : Nat) (mounts : Option Obj) :
    all_calls aside_of_batch_size (main_mount_loop_body i mounts) := by
  apply ac_last
  simp only [main_mount_loop_body, M_bind_assoc, M_pure_bind]
  simp [M_bind_assoc, M_pure_bind, ac_pure_iff, ac_ret_bind_iff, ac_fault_bind_iff, ac_call_iff,
    ac_try_iff, ac_return_if_iff, ac_ite_iff, ac_snprintf_iff, ac_list_data_iff, ac_list_next_iff,
    ac_argv_at_iff, ac_loop_run_iff, aside_of_batch_size, -bind_fst, -bind_snd]

theorem main_elements_reached (w : World) (argv : List String) (n : Nat)
    (h : shared_elements_added ∈ (main_elements w argv n).1) :
    w.succeeds (.gst_element_factory_make .queue "queue" "queue") = true ∧
    w.succeeds (.gst_element_factory_make .pgie "nvinfer" "primary-nvinference-engine") = true ∧
    w.succeeds (.gst_element_factory_make .nvtracker "nvtracker" "tracker") = true ∧
    w.succeeds (.gst_element_factory_make .nvdslogger "nvdslogger" "nvdslogger") = true ∧
    w.succeeds (.gst_element_factory_make .streamdemux "nvstreamdemux" "stream-demuxer") =
      true := by
  simp only [main_elements, shared_elements_added] at h
  simp at h
  exact ⟨h.1.1.1.1, h.1.1.1.2, h.1.1.2, h.1.2, h.2⟩

theorem main_elements_batch_size (w : World) (argv : List String) (n : Nat)
    (h : shared_elements_added ∈ (main_elements w argv n).1) :
    batch_size_after .pgie (.uint (w.pgie_batch_size (pgie_config_file argv) % 2 ^ 32))
        (main_elements w argv n).1 = .uint n ∧
    (Call.g_object_set .pgie "batch-size" (.uint n) ∈ (main_elements w argv n).1 ↔
      w.pgie_batch_size (pgie_config_file argv) % 2 ^ 32 ≠ n) ∧
    (∀ element value, Call.g_object_set element "batch-size" value ∈ (main_elements w argv n).1 →
      value = .uint n) ∧
    (is_yml argv = false →
      ∀ before, batch_size_after .streammux before (main_elements w argv n).1 = .uint n) := by
  obtain ⟨hq, hp, ht, hl, hd⟩ := main_elements_reached w argv n h
  simp only [main_elements, pgie_config_file]
  cases hy : is_yml argv
  · simp only [Bool.false_eq_true, if_false]
    generalize w.pgie_batch_size "ds_pgie_config.txt" % 2 ^ 32 = r
    by_cases hr : r = n <;> simp [batch_size_after, hq, hp, ht, hl, hd, hr]
    rintro element value (⟨-, hv⟩ | ⟨-, hv⟩) <;> exact hv
  · simp only [if_true]
    generalize w.pgie_batch_size "ds_pgie_config.yml" % 2 ^ 32 = r
    by_cases hr : r = n <;> simp [batch_size_after, hq, hp, ht, hl, hd, hr]
theorem batch_size_after_append (element : Obj) (t₁ t₂ : List Call) (before : Value) :
    batch_size_after element before (t₁ ++ t₂) =
      batch_size_after element (batch_size_after element before t₁) t₂ := by
  induction t₁ generalizing before with
  | nil => rfl
  | cons c t ih =>
    rw [List.cons_append]
    cases c <;> simp only [batch_size_after] <;> first | exact ih _ | (split <;> exact ih _)

theorem batch_size_after_aside (element : Obj) (t : List Call) (before : Value)
    (h : ∀ c ∈ t, aside_of_batch_size c = true) : batch_size_after element before t = before := by
  induction t with
  | nil => rfl
  | cons c t ih =>
    have hc := h c (List.mem_cons_self c t)
    have ht := ih (fun d hd => h d (List.mem_cons_of_mem c hd))
    cases c <;> simp only [batch_size_after, ht]
    rename_i object property value
    have hp : property ≠ "batch-size" := by simpa [aside_of_batch_size] using hc
    rw [if_neg (fun hand => hp hand.2)]

theorem ac_aside_main_sources (w : World) (p : Bool) (argv : List String) :
    all_calls aside_of_batch_size (main_sources w p argv) := by
  unfold main_sources
  apply ac_bind
  · constructor
    intro c hc
    by_cases hy : is_yml argv = true
    · simp [hy] at hc
      subst hc
      rfl
    · simp [hy] at hc
  · intro a
    apply ac_bind
    · exact ac_for_loop _ _ (ac_aside_main_source_loop_body w p argv) _ _ _
    · intro _; simp [ac_pure_iff]

theorem ac_aside_after_elements (w : World) (argv : List String) (n : Nat) :
    all_calls aside_of_batch_size
      (main_branches w argv n >>= fun _ => main_server w >>= fun _ =>
        main_mounts n >>= fun _ => main_play w) := by
  refine ac_bind _ _ _ ?_ (fun _ => ac_bind _ _ _ (ac_aside_main_server w)
    (fun _ => ac_bind _ _ _ ?_ (fun _ => ac_aside_main_play w)))
  · unfold main_branches
    exact ac_bind _ _ _
      (ac_for_loop _ _ (ac_aside_main_branch_loop_body w argv w.integrated) _ _ _)
      (fun _ => (ac_pure_iff _ _).2 trivial)
  · unfold main_mounts
    refine ac_bind _ _ _ (ac_for_loop _ _ ac_aside_main_mount_loop_body _ _ _) (fun a => ?_)
    constructor
    intro c hc
    cases a with
    | none => simp at hc
    | some o =>
      simp at hc
      subst hc
      rfl

/-- A run that adds the shared elements to the pipeline consists of calls
that set no batch size, the calls of the configuration phase, and again calls
that set no batch size. -/
theorem configured_run (w : World) (argv : List String)
    (h : shared_elements_added ∈ trace w argv) :
    ∃ pre post,
      trace w argv = pre ++
        ((main_elements w (gst_init w argv) (num_sources_of w (gst_init w argv))).1 ++ post) ∧
      (∀ c ∈ pre, aside_of_batch_size c = true) ∧
      (∀ c ∈ post, aside_of_batch_size c = true) ∧
      shared_elements_added ∈
        (main_elements w (gst_init w argv) (num_sources_of w (gst_init w argv))).1 := by
  have hnot : ∀ {α : Type} (m : M α), all_calls aside_of_batch_size m →
      shared_elements_added ∉ m.1 := by
    intro α m hm hc
    exact absurd (hm.all _ hc) (by decide)
  by_cases hl : argv.length < 2
  · simp [trace, main, hl] at h
  rw [trace_of_enough_arguments w argv hl] at h ⊢
  have h0 : shared_elements_added ∈ (main_after_init w (perf_mode w) (gst_init w argv)).1 := by
    rcases List.mem_cons.mp h with h | h
    · exact absurd h (by simp [shared_elements_added])
    · exact h
  simp only [main_after_init] at h0 ⊢
  obtain ⟨_, -, hc1, e1⟩ := mem_bind_split _ _ _ h0 (hnot _ (ac_aside_main_pipeline w))
  obtain ⟨_, -, hc2, e2⟩ := mem_bind_split _ _ _ hc1 (hnot _ (ac_aside_main_sources w _ _))
  rw [bind_fst] at hc2
  have hrest := ac_aside_after_elements w (gst_init w argv) (num_sources_of w (gst_init w argv))
  have hpost : ∀ c ∈ calls_after
      (main_elements w (gst_init w argv) (num_sources_of w (gst_init w argv))).2
      (fun _ => (main_branches w (gst_init w argv) (num_sources_of w (gst_init w argv)) >>=
        fun _ => main_server w >>= fun _ =>
          main_mounts (num_sources_of w (gst_init w argv)) >>= fun _ => main_play w).1),
      aside_of_batch_size c = true := by
    intro c hc
    cases hE : (main_elements w (gst_init w argv) (num_sources_of w (gst_init w argv))).2 with
    | error e => rw [hE] at hc; simp at hc
    | ok a => rw [hE] at hc; exact hrest.all c hc
  refine ⟨Call.gst_init argv :: ((main_pipeline w).1 ++
      (main_sources w (perf_mode w) (gst_init w argv)).1), _, ?_, ?_, hpost, ?_⟩
  · rw [e1, e2, bind_fst]
    simp
  · intro c hc
    rcases List.mem_cons.mp hc with rfl | hc
    · rfl
    · rcases List.mem_append.mp hc with hc | hc
      · exact (ac_aside_main_pipeline w).all c hc
      · exact (ac_aside_main_sources w _ _).all c hc
  · rcases List.mem_append.mp hc2 with hc | hc
    · exact hc
    · exact absurd (hpost _ hc) (by decide)

/-- C14. In every run of `main` that gets past the property configuration of
the shared elements (it goes on to add them to the pipeline), whatever
batch size the inference element reports once its configuration file is set:
the `batch-size` of the inference element after the run's calls is
`num_sources`, in descriptor-file mode and in positional mode; `main` sets it
exactly when the reported value differs from `num_sources`; no `batch-size`
property is ever set to another value; and in positional mode the
`batch-size` of the muxer is `num_sources` as well. -/
theorem pgie_batch_size_matches_sources (w : World) (argv : List String)
    (h : shared_elements_added ∈ trace w argv) :
    batch_size_after .pgie
        (.uint (w.pgie_batch_size (pgie_config_file (gst_init w argv)) % 2 ^ 32))
        (trace w argv) = .uint (num_sources_of w (gst_init w argv)) ∧
    (Call.g_object_set .pgie "batch-size" (.uint (num_sources_of w (gst_init w argv))) ∈
        trace w argv ↔
      w.pgie_batch_size (pgie_config_file (gst_init w argv)) % 2 ^ 32 ≠
        num_sources_of w (gst_init w argv)) ∧
    (∀ element value, Call.g_object_set element "batch-size" value ∈ trace w argv →
      value = .uint (num_sources_of w (gst_init w argv))) ∧
    (is_yml (gst_init w argv) = false →
      ∀ before, batch_size_after .streammux before (trace w argv) =
        .uint (num_sources_of w (gst_init w argv))) := by
  obtain ⟨pre, post, ht, hpre, hpost, hE⟩ := configured_run w argv h
  obtain ⟨h1, h2, h3, h4⟩ := main_elements_batch_size w _ _ hE
  have hmem : ∀ element value, Call.g_object_set element "batch-size" value ∈ trace w argv →
      Call.g_object_set element "batch-size" value ∈
        (main_elements w (gst_init w argv) (num_sources_of w (gst_init w argv))).1 := by
    intro element value hc
    rw [ht] at hc
    rcases List.mem_append.mp hc with hc | hc
    · exact absurd (hpre _ hc) (by simp [aside_of_batch_size])
    · rcases List.mem_append.mp hc with hc | hc
      · exact hc
      · exact absurd (hpost _ hc) (by simp [aside_of_batch_size])
  have hfold : ∀ element before, batch_size_after element before (trace w argv) =
      batch_size_after element before
        (main_elements w (gst_init w argv) (num_sources_of w (gst_init w argv))).1 := by
    intro element before
    rw [ht, batch_size_after_append, batch_size_after_append,
      batch_size_after_aside element pre before hpre,
      batch_size_after_aside element post _ hpost]
  refine ⟨by rw [hfold]; exact h1, ⟨fun hc => h2.mp (hmem _ _ hc), fun hr => ?_⟩,
    fun element value hc => h3 element value (hmem _ _ hc),
    fun hy before => by rw [hfold]; exact h4 hy before⟩
  rw [ht]
  exact List.mem_append_right _ (List.mem_append_left _ (h2.mpr hr))

/-- Witness of C14: two cameras on the command line and an inference
configuration that asks for batch size 1. -/
theorem pgie_batch_size_matches_sources_witness :
    shared_elements_added ∈
      trace world_all_ok ["deepstream-custom-app", "rtsp://cam0", "rtsp://cam1"] ∧
    batch_size_after .pgie (.uint 1)
      (trace world_all_ok ["deepstream-custom-app", "rtsp://cam0", "rtsp://cam1"]) = .uint 2 ∧
    Call.g_object_set .pgie "batch-size" (.uint 2) ∈
      trace world_all_ok ["deepstream-custom-app", "rtsp://cam0", "rtsp://cam1"] ∧
    batch_size_after .streammux (.uint 0)
      (trace world_all_ok ["deepstream-custom-app", "rtsp://cam0", "rtsp://cam1"]) = .uint 2 :=
  ⟨by decide,
   (pgie_batch_size_matches_sources world_all_ok
     ["deepstream-custom-app", "rtsp://cam0", "rtsp://cam1"] (by decide)).1,
   (pgie_batch_size_matches_sources world_all_ok
     ["deepstream-custom-app", "rtsp://cam0", "rtsp://cam1"] (by decide)).2.1.mpr (by decide),
   (pgie_batch_size_matches_sources world_all_ok
     ["deepstream-custom-app", "rtsp://cam0", "rtsp://cam1"] (by decide)).2.2.2 (by decide)
     (.uint 0)⟩

end DeepstreamCustomApp
